import Mathlib

/-!
# DeferredShading: the point-light grid generator and updater

A shallow embedding of `configurePointLights` and `updatePointLights` from
`source/DeferredShading.cpp`, and theorems about them.

Modelling conventions.

* C++ `float` and `double` values are modelled as rationals with exact
  arithmetic: rounding, infinities and NaN are not modelled.  The literal
  `0.663f` is the rational `663/1000`.
* `std::vector` is a `List`; `operator[]` outside the bounds is undefined
  behaviour in C++ and is the `none` result of the embedding.
* `glm::mat4` is column major: `m[i]` is the column `i`, a `glm::vec4`.
* The C library is a parameter (`Env`): the value of `RAND_MAX`, the stream
  of values that the successive calls of `rand()` return after `srand`, and
  the functions `cos` and `sin`.
* OpenGL calls are recorded, in order, in a trace of commands.
-/

namespace DeferredShading

/-! ## Data model -/

/-- The type `glm::vec3`. -/
structure Vec3 where
  x : ℚ
  y : ℚ
  z : ℚ
deriving DecidableEq

/-- The type `glm::vec4`. -/
structure Vec4 where
  x : ℚ
  y : ℚ
  z : ℚ
  w : ℚ
deriving DecidableEq

/-- The type `glm::mat4`, column major: `c3` is `m[3]`, the translation column. -/
structure Mat4 where
  c0 : Vec4
  c1 : Vec4
  c2 : Vec4
  c3 : Vec4
deriving DecidableEq

/-- The product `v * k` of a `glm::vec4` and a scalar. -/
def Vec4.scale (v : Vec4) (k : ℚ) : Vec4 :=
  ⟨v.x * k, v.y * k, v.z * k, v.w * k⟩

/-- The sum of two `glm::vec4`. -/
def Vec4.add (a b : Vec4) : Vec4 :=
  ⟨a.x + b.x, a.y + b.y, a.z + b.z, a.w + b.w⟩

/-- The matrix `glm::mat4(1.0f)`. -/
def Mat4.identity : Mat4 :=
  ⟨⟨1, 0, 0, 0⟩, ⟨0, 1, 0, 0⟩, ⟨0, 0, 1, 0⟩, ⟨0, 0, 0, 1⟩⟩

/-- The function `glm::translate(m, v)`: the result is `m` with
`Result[3] = m[0] * v[0] + m[1] * v[1] + m[2] * v[2] + m[3]`. -/
def translate (m : Mat4) (v : Vec3) : Mat4 :=
  { m with c3 := (((m.c0.scale v.x).add (m.c1.scale v.y)).add (m.c2.scale v.z)).add m.c3 }

/-- The constant `const unsigned int LIGHT_GRID_WIDTH = 10;` -/
def LIGHT_GRID_WIDTH : Nat := 10

/-- The constant `const unsigned int LIGHT_GRID_HEIGHT = 3;` -/
def LIGHT_GRID_HEIGHT : Nat := 3

/-- The constant `const float INITIAL_POINT_LIGHT_RADIUS = 0.663f;` -/
def INITIAL_POINT_LIGHT_RADIUS : ℚ := 663 / 1000

/-- The constant of `#define M_PI 3.14159265358979323846`. -/
def M_PI : ℚ := 314159265358979323846 / 100000000000000000000

/-- The C library as the two functions see it. -/
structure Env where
  /-- The constant `RAND_MAX`. -/
  RAND_MAX : Nat
  /-- The value returned by the call number `n` (from 0) of `rand()` after `srand`. -/
  rand : Nat → Nat
  /-- The function `cos` of `<cmath>`. -/
  cos : ℚ → ℚ
  /-- The function `sin` of `<cmath>`. -/
  sin : ℚ → ℚ

/-- The buffer objects named in the source; `zero` is the name 0 that unbinds. -/
inductive BufferName where
  | zero
  | matrixBuffer
  | colorSizeBuffer
  | planeVBO
  | quadVBO
deriving DecidableEq

/-- The capabilities `GL_DEPTH_TEST`, `GL_CULL_FACE` and `GL_BLEND`. -/
inductive Capability where
  | depthTest
  | cullFace
  | blend
deriving DecidableEq

/-- The windings `GL_CW` and `GL_CCW`. -/
inductive Winding where
  | cw
  | ccw
deriving DecidableEq

/-- The polygon modes `GL_LINE` and `GL_FILL`. -/
inductive PolygonMode where
  | line
  | fill
deriving DecidableEq

/-- The blend factors `GL_ONE`, `GL_SRC_ALPHA` and `GL_ONE_MINUS_SRC_ALPHA`. -/
inductive BlendFactor where
  | one
  | srcAlpha
  | oneMinusSrcAlpha
deriving DecidableEq

/-- The framebuffers: `zero` is the default framebuffer 0, `depthMapFBO` the
shadow depth target, `gBuffer` the framebuffer of the `FrameBuffer gBuffer`. -/
inductive Framebuffer where
  | zero
  | depthMapFBO
  | gBuffer
deriving DecidableEq

/-- The vertex array objects: `zero` is the name 0, `lightVAO` is
`lightModel.meshes[0].VAO`. -/
inductive VertexArray where
  | zero
  | planeVAO
  | lightVAO
  | quadVAO
deriving DecidableEq

/-- The textures bound by `main`. -/
inductive Texture where
  | woodTexture
  | depthMap
deriving DecidableEq

/-- The primitive modes `GL_TRIANGLES` and `GL_TRIANGLE_STRIP`. -/
inductive Primitive where
  | triangles
  | triangleStrip
deriving DecidableEq

/-- The `Shader` objects of `main`. -/
inductive Shader where
  | shaderDepthWrite
  | shaderDebugDepthMap
  | shaderGeometryPass
  | shaderTexturedGeometryPass
  | shaderLightingPass
  | shaderGBufferDebug
  | shaderGlobalLightSphere
  | shaderLightSphere
  | shaderPointLightingPass
deriving DecidableEq

/-- The uniforms set in the render loop, by name (`gLightPosition` is
`"gLight.Position"`, and so on). -/
inductive Uniform where
  | lightSpaceMatrix
  | model
  | projection
  | view
  | specularCol
  | diffuseCol
  | gLightPosition
  | gLightColor
  | gLightLinear
  | gLightQuadratic
  | viewPos
  | glossiness
  | gBufferMode
  | lightIntensity
  | transform
  | zNear
  | zFar
  | lightColor
  | lightRadius
deriving DecidableEq

/-- The `Model` objects drawn by `main`: `meshModel i` is `meshModels[i]`. -/
inductive Model where
  | meshModel (i : Nat)
  | lightModel
deriving DecidableEq

/-- The calls that `main`, `renderQuad` and `updatePointLights` make on OpenGL
and on the collaborators that issue OpenGL calls (`Shader`, `Model`,
`FrameBuffer`, the user interface library, the window library).  Arguments that
no modelled state depends on (offsets, values of uniforms, colours) are left out. -/
inductive GLCmd where
  /-- The call `glBindBuffer(GL_ARRAY_BUFFER, b)`. -/
  | bindArrayBuffer (b : BufferName)
  /-- The call `glBufferData(GL_ARRAY_BUFFER, n * sizeof(glm::mat4), &v[0], GL_STATIC_DRAW)`:
  the upload of the first `n` matrices of `v`. -/
  | bufferDataMat4 (data : List Mat4)
  /-- The call `glBufferData(GL_ARRAY_BUFFER, n * sizeof(glm::vec4), &v[0], GL_STATIC_DRAW)`:
  the upload of the first `n` vectors of `v`. -/
  | bufferDataVec4 (data : List Vec4)
  /-- The call `glBufferData(GL_ARRAY_BUFFER, sizeof(a), a, GL_STATIC_DRAW)` for an
  array `a` of `count` floats. -/
  | bufferDataFloats (count : Nat)
  /-- The call `glClearColor(0.0f, 0.0f, 0.0f, 1.0f)`. -/
  | clearColor
  /-- The call `glEnable(c)`. -/
  | enable (c : Capability)
  /-- The call `glDisable(c)`. -/
  | disable (c : Capability)
  /-- The call `glFrontFace(w)`. -/
  | frontFace (w : Winding)
  /-- The call `glBlendFunc(sfactor, dfactor)`. -/
  | blendFunc (sfactor dfactor : BlendFactor)
  /-- The call `glPolygonMode(GL_FRONT_AND_BACK, m)`. -/
  | polygonMode (m : PolygonMode)
  /-- The call `glViewport(0, 0, width, height)`. -/
  | viewport (width height : Nat)
  /-- The call `glBindFramebuffer(GL_FRAMEBUFFER, f)`. -/
  | bindFramebuffer (f : Framebuffer)
  /-- The call `glBindFramebuffer(GL_DRAW_FRAMEBUFFER, f)`. -/
  | bindDrawFramebuffer (f : Framebuffer)
  /-- The call `glClear` with or without `GL_COLOR_BUFFER_BIT` and `GL_DEPTH_BUFFER_BIT`. -/
  | clear (color depth : Bool)
  /-- The call `glActiveTexture(GL_TEXTURE0 + unit)`. -/
  | activeTexture (unit : Nat)
  /-- The call `glBindTexture(GL_TEXTURE_2D, t)`. -/
  | bindTexture (t : Texture)
  /-- A call `glGenVertexArrays(1, &vao)`. -/
  | genVertexArrays
  /-- A call `glGenBuffers(1, &buffer)`. -/
  | genBuffers
  /-- The call `glBindVertexArray(v)`. -/
  | bindVertexArray (v : VertexArray)
  /-- The call `glEnableVertexAttribArray(index)`. -/
  | enableVertexAttribArray (index : Nat)
  /-- The call `glVertexAttribPointer(index, size, GL_FLOAT, GL_FALSE, ...)`. -/
  | vertexAttribPointer (index size : Nat)
  /-- The call `glDrawArrays(mode, 0, count)`. -/
  | drawArrays (mode : Primitive) (count : Nat)
  /-- The call `glDrawElementsInstanced(GL_TRIANGLES, ..., GL_UNSIGNED_INT, 0, instances)`
  on the mesh of the light volume. -/
  | drawElementsInstanced (instances : Nat)
  /-- The call `glBlitFramebuffer(..., GL_DEPTH_BUFFER_BIT, GL_NEAREST)`. -/
  | blitDepth
  /-- The call `s.use()` of a `Shader`. -/
  | useShader (s : Shader)
  /-- A call `s.setUniform...(name, value)` of a `Shader`. -/
  | setUniform (s : Shader) (u : Uniform)
  /-- The call `m.draw(s)` of a `Model`. -/
  | drawModel (m : Model) (s : Shader)
  /-- The call `gBuffer.bindOutput()`. -/
  | gBufferBindOutput
  /-- The call `gBuffer.bindInput()`. -/
  | gBufferBindInput
  /-- The call `gBuffer.bindRead()`. -/
  | gBufferBindRead
  /-- The call `FrameBuffer::unbind()`. -/
  | frameBufferUnbind
  /-- The calls `ImGui::Render(); ImGui_ImplOpenGL3_RenderDrawData(ImGui::GetDrawData())`. -/
  | imguiRenderDrawData
  /-- The call `glfwSwapBuffers(window)`. -/
  | swapBuffers
deriving DecidableEq

/-- The state the two functions work on: the two parallel vectors of `main`,
the number of calls of `rand()` made so far, and the trace of OpenGL calls. -/
structure Lights where
  modelMatrices : List Mat4
  modelColorSizes : List Vec4
  randCalls : Nat
  gl : List GLCmd

/-! ## Loops and indexed writes -/

/-- The loop `for (unsigned int i = 0; i < n; i++) body`, for a body that
always completes. -/
def forRange {σ : Type} (n : Nat) (body : Nat → σ → σ) (s : σ) : σ :=
  (List.range n).foldl (fun acc i => body i acc) s

/-- The loop `for (unsigned int i = 0; i < n; i++) body`, for a body that can
fail: the loop stops at the first failure. -/
def forRangeM {σ : Type} (n : Nat) (body : Nat → σ → Option σ) (s : σ) : Option σ :=
  (List.range n).foldlM (fun acc i => body i acc) s

/-- The write `v[i] = f(v[i])` through `std::vector::operator[]`: defined only
for `i` within the bounds. -/
def modifyAt {α : Type} (v : List α) (i : Nat) (f : α → α) : Option (List α) :=
  if h : i < v.length then some (v.set i (f (v.get ⟨i, h⟩))) else none

/-! ## The grid -/

/-- The index `lightIndexX * W * H + lightIndexZ * H + lightIndexY` for a grid
of width `W` and height `H`. -/
def curLightAt (W H x z y : Nat) : Nat :=
  x * W * H + z * H + y

/-- The local `curLight` of both functions:
`lightIndexX * LIGHT_GRID_WIDTH * LIGHT_GRID_HEIGHT + lightIndexZ * LIGHT_GRID_HEIGHT + lightIndexY`.
All values are below 300, so the `unsigned int` arithmetic and the conversion
to `int` are exact. -/
def curLight (x z y : Nat) : Nat :=
  curLightAt LIGHT_GRID_WIDTH LIGHT_GRID_HEIGHT x z y

/-- The expression `(lightIndex - (n - 1.0f) / 2.0f) * (diameter * separation)`
that both functions evaluate on each axis, `n` being the grid size on the axis. -/
def gridCoord (n i : Nat) (diameter separation : ℚ) : ℚ :=
  ((i : ℚ) - ((n : ℚ) - 1) / 2) * (diameter * separation)

/-! ## configurePointLights -/

/-- The expression `double(rand()) * 2.0 * M_PI / (double(RAND_MAX))` for the
value `r` of `rand()`. -/
def jitterAngle (env : Env) (r : Nat) : ℚ :=
  (r : ℚ) * 2 * M_PI / (env.RAND_MAX : ℚ)

/-- The expression `double(rand()) * 0.5 / (double(RAND_MAX))` for the value
`r` of `rand()`. -/
def jitterLength (env : Env) (r : Nat) : ℚ :=
  (r : ℚ) * (1 / 2) / (env.RAND_MAX : ℚ)

/-- The expression `((rand() % 100) / 200.0f) + 0.5` for the value `r` of `rand()`. -/
def colorChannel (r : Nat) : ℚ :=
  ((r % 100 : Nat) : ℚ) / 200 + 1 / 2

/-- The body of the innermost loop of `configurePointLights`. -/
def configureCell (env : Env) (radius separation yOffset : ℚ) (x z y : Nat)
    (s : Lights) : Lights :=
  let diameter := 2 * radius
  let xPos := gridCoord LIGHT_GRID_WIDTH x diameter separation
  let zPos := gridCoord LIGHT_GRID_WIDTH z diameter separation
  let yPos := gridCoord LIGHT_GRID_HEIGHT y diameter separation + yOffset
  let angle := jitterAngle env (env.rand s.randCalls)
  let length := jitterLength env (env.rand (s.randCalls + 1))
  let xOffset := env.cos angle * length
  let zOffset := env.sin angle * length
  let xPos := xPos + xOffset
  let zPos := zPos + zOffset
  let rColor := colorChannel (env.rand (s.randCalls + 2))
  let gColor := colorChannel (env.rand (s.randCalls + 3))
  let bColor := colorChannel (env.rand (s.randCalls + 4))
  let model := Mat4.identity
  let model := translate model ⟨xPos, yPos, zPos⟩
  { s with
    modelMatrices := s.modelMatrices ++ [model]
    modelColorSizes := s.modelColorSizes ++ [⟨rColor, gColor, bColor, radius⟩]
    randCalls := s.randCalls + 5 }

/-- The function `configurePointLights`: `srand` starts the stream of `env`,
then the three nested loops run, `lightIndexX` outermost and `lightIndexY`
innermost. -/
def configurePointLights (env : Env) (modelMatrices : List Mat4)
    (modelColorSizes : List Vec4) (radius separation yOffset : ℚ) : Lights :=
  forRange LIGHT_GRID_WIDTH (fun x =>
    forRange LIGHT_GRID_WIDTH (fun z =>
      forRange LIGHT_GRID_HEIGHT (fun y =>
        configureCell env radius separation yOffset x z y)))
    { modelMatrices := modelMatrices, modelColorSizes := modelColorSizes,
      randCalls := 0, gl := [] }

/-! ## updatePointLights -/

/-- The assignment `m[3] = v`. -/
def Mat4.setTranslation (v : Vec4) (m : Mat4) : Mat4 :=
  { m with c3 := v }

/-- The assignment `c.w = radius`. -/
def Vec4.setW (radius : ℚ) (c : Vec4) : Vec4 :=
  { c with w := radius }

/-- The body of the innermost loop of `updatePointLights`. -/
def updateCell (separation yOffset radius : ℚ) (x z y : Nat) (s : Lights) :
    Option Lights :=
  let curLight := curLight x z y
  let diameter := 2 * INITIAL_POINT_LIGHT_RADIUS
  let xPos := gridCoord LIGHT_GRID_WIDTH x diameter separation
  let zPos := gridCoord LIGHT_GRID_WIDTH z diameter separation
  let yPos := gridCoord LIGHT_GRID_HEIGHT y diameter separation
  (modifyAt s.modelMatrices curLight
      (Mat4.setTranslation ⟨xPos, yPos + yOffset, zPos, 1⟩)).bind fun ms =>
    (modifyAt s.modelColorSizes curLight (Vec4.setW radius)).bind fun cs =>
      some { s with modelMatrices := ms, modelColorSizes := cs }

/-- The three OpenGL calls that end `updatePointLights`: the upload of the
first `LIGHT_GRID_WIDTH * LIGHT_GRID_WIDTH * LIGHT_GRID_HEIGHT` matrices into
`matrixBuffer`. -/
def uploadMatrices (s : Lights) : Lights :=
  { s with gl := s.gl ++
      [GLCmd.bindArrayBuffer BufferName.matrixBuffer,
       GLCmd.bufferDataMat4
         (s.modelMatrices.take (LIGHT_GRID_WIDTH * LIGHT_GRID_WIDTH * LIGHT_GRID_HEIGHT)),
       GLCmd.bindArrayBuffer BufferName.zero] }

/-- The function `updatePointLights`. -/
def updatePointLights (s : Lights) (separation yOffset radius : ℚ) : Option Lights :=
  if separation < 0 then some s
  else
    (forRangeM LIGHT_GRID_WIDTH (fun x =>
      forRangeM LIGHT_GRID_WIDTH (fun z =>
        forRangeM LIGHT_GRID_HEIGHT (fun y =>
          updateCell separation yOffset radius x z y))) s).map uploadMatrices

/-! ## Specification-side names

The functions below are not in the source: they name the values the source
computes, so that the theorems can state them. -/

/-- The `lightIndexX` of the cell with index `i`. -/
def cellX (i : Nat) : Nat := i / (LIGHT_GRID_WIDTH * LIGHT_GRID_HEIGHT)

/-- The `lightIndexZ` of the cell with index `i`. -/
def cellZ (i : Nat) : Nat := i / LIGHT_GRID_HEIGHT % LIGHT_GRID_WIDTH

/-- The `lightIndexY` of the cell with index `i`. -/
def cellY (i : Nat) : Nat := i % LIGHT_GRID_HEIGHT

/-- The number of lights, `LIGHT_GRID_WIDTH * LIGHT_GRID_WIDTH * LIGHT_GRID_HEIGHT`
(`totalLights` in `main`). -/
def totalLights : Nat := LIGHT_GRID_WIDTH * LIGHT_GRID_WIDTH * LIGHT_GRID_HEIGHT

/-- The position `configurePointLights` computes for the cell `(x, z, y)`
before it adds the jitter: `(xPos, yPos, zPos)` with `diameter = 2 * radius`. -/
def idealPosition (radius separation yOffset : ℚ) (x z y : Nat) : Vec3 :=
  ⟨gridCoord LIGHT_GRID_WIDTH x (2 * radius) separation,
   gridCoord LIGHT_GRID_HEIGHT y (2 * radius) separation + yOffset,
   gridCoord LIGHT_GRID_WIDTH z (2 * radius) separation⟩

/-- The jitter `(xOffset, zOffset)` of the light whose first call of `rand()`
is the call number `k`. -/
def jitter (env : Env) (k : Nat) : ℚ × ℚ :=
  (env.cos (jitterAngle env (env.rand k)) * jitterLength env (env.rand (k + 1)),
   env.sin (jitterAngle env (env.rand k)) * jitterLength env (env.rand (k + 1)))

/-- The centre `configurePointLights` gives the light of the cell `(x, z, y)`
whose first call of `rand()` is the call number `k`. -/
def lightCentre (env : Env) (radius separation yOffset : ℚ) (x z y k : Nat) : Vec3 :=
  ⟨(idealPosition radius separation yOffset x z y).x + (jitter env k).1,
   (idealPosition radius separation yOffset x z y).y,
   (idealPosition radius separation yOffset x z y).z + (jitter env k).2⟩

/-- The matrix `configurePointLights` appends for the cell `(x, z, y)` when
`k` calls of `rand()` came before. -/
def cellMatrix (env : Env) (radius separation yOffset : ℚ) (x z y k : Nat) : Mat4 :=
  translate Mat4.identity (lightCentre env radius separation yOffset x z y k)

/-- The colour/size record `configurePointLights` appends when `k` calls of
`rand()` came before. -/
def cellColorSize (env : Env) (radius : ℚ) (k : Nat) : Vec4 :=
  ⟨colorChannel (env.rand (k + 2)), colorChannel (env.rand (k + 3)),
   colorChannel (env.rand (k + 4)), radius⟩

/-- The translation column `updatePointLights` writes for the cell `(x, z, y)`. -/
def updatedTranslation (separation yOffset : ℚ) (x z y : Nat) : Vec4 :=
  ⟨gridCoord LIGHT_GRID_WIDTH x (2 * INITIAL_POINT_LIGHT_RADIUS) separation,
   gridCoord LIGHT_GRID_HEIGHT y (2 * INITIAL_POINT_LIGHT_RADIUS) separation + yOffset,
   gridCoord LIGHT_GRID_WIDTH z (2 * INITIAL_POINT_LIGHT_RADIUS) separation,
   1⟩

/-- The squared distance of two points. -/
def distSq (p q : Vec3) : ℚ :=
  (p.x - q.x) ^ 2 + (p.y - q.y) ^ 2 + (p.z - q.z) ^ 2

/-- A sequence of calls of `updatePointLights`, each with its arguments
`(separation, yOffset, radius)`. -/
def updateMany (s : Lights) (calls : List (ℚ × ℚ × ℚ)) : Option Lights :=
  calls.foldlM (fun acc c => updatePointLights acc c.1 c.2.1 c.2.2) s

/-- The state of `configurePointLights`, called on the vectors `ms0` and
`cs0`, once the cells of index below `n` are done. -/
def Generated (env : Env) (radius separation yOffset : ℚ) (ms0 : List Mat4)
    (cs0 : List Vec4) (n : Nat) (s : Lights) : Prop :=
  s.modelMatrices = ms0 ++ (List.range n).map (fun i =>
      cellMatrix env radius separation yOffset (cellX i) (cellZ i) (cellY i) (5 * i)) ∧
  s.modelColorSizes = cs0 ++ (List.range n).map (fun i =>
      cellColorSize env radius (5 * i)) ∧
  s.randCalls = 5 * n ∧
  s.gl = []

/-- The vector `v` is the vector `v0` with `f i` applied to the element of
each index `i` below `n`. -/
def Rewritten {α : Type} (f : Nat → α → α) (n : Nat) (v0 v : List α) : Prop :=
  v.length = v0.length ∧
  ∀ i, v[i]? = if i < n then (v0[i]?).map (f i) else v0[i]?

/-- The write `updatePointLights` makes to the matrix of index `i`. -/
def relocate (separation yOffset : ℚ) (i : Nat) (m : Mat4) : Mat4 :=
  Mat4.setTranslation (updatedTranslation separation yOffset (cellX i) (cellZ i) (cellY i)) m

/-- The state of the loops of `updatePointLights`, started in `s0`, once the
cells of index below `n` are done. -/
def Updated (separation yOffset radius : ℚ) (s0 : Lights) (n : Nat) (s : Lights) : Prop :=
  Rewritten (relocate separation yOffset) n s0.modelMatrices s.modelMatrices ∧
  Rewritten (fun _ => Vec4.setW radius) n s0.modelColorSizes s.modelColorSizes ∧
  s.randCalls = s0.randCalls ∧
  s.gl = s0.gl

/-- The colour of a colour/size record: its first three components. -/
def Vec4.rgb (c : Vec4) : ℚ × ℚ × ℚ := (c.x, c.y, c.z)

/-- The columns 0, 1 and 2 of a matrix: all of it but the translation column. -/
def Mat4.linearPart (m : Mat4) : Vec4 × Vec4 × Vec4 := (m.c0, m.c1, m.c2)

/-- The centre of the light placed by the matrix `m`: the first three
components of its translation column. -/
def Mat4.centre (m : Mat4) : Vec3 := ⟨m.c3.x, m.c3.y, m.c3.z⟩

/-- An approximation of `cos`, exact at 0: the examples evaluate `cos` at 0 only. -/
def cosApprox (a : ℚ) : ℚ := 1 - a ^ 2 / 2 + a ^ 4 / 24

/-- An approximation of `sin`, exact at 0: the examples evaluate `sin` at 0 only. -/
def sinApprox (a : ℚ) : ℚ := a - a ^ 3 / 6

/-- A C library with `RAND_MAX = 32767` whose `rand()` always returns 0: every
jitter has angle 0 and length 0. -/
def zeroEnv : Env := ⟨32767, fun _ => 0, cosApprox, sinApprox⟩

/-- A C library with `RAND_MAX = 32767` whose `rand()` returns `RAND_MAX` at
its second call and 0 at every other call: the first light gets the jitter of
angle 0 and length 0.5, every other light the jitter of length 0. -/
def pushEnv : Env := ⟨32767, fun n => if n = 1 then 32767 else 0, cosApprox, sinApprox⟩

/-- A state with 300 lights, all at the origin, white, of radius 1. -/
def sampleLights : Lights :=
  ⟨List.replicate 300 Mat4.identity, List.replicate 300 ⟨1, 1, 1, 1⟩, 0, []⟩

/-- A translation-only matrix: the columns 0, 1 and 2 are those of the
identity and the last component of the translation column is 1. -/
def Mat4.isTranslation (m : Mat4) : Prop :=
  m.c0 = ⟨1, 0, 0, 0⟩ ∧ m.c1 = ⟨0, 1, 0, 0⟩ ∧ m.c2 = ⟨0, 0, 1, 0⟩ ∧ m.c3.w = 1

/-- A rational function with the values of `cos` at 0 and on the unit circle
with `sinCircle`: `cosCircle a ^ 2 + sinCircle a ^ 2 = 1`. -/
def cosCircle (a : ℚ) : ℚ := (1 - (a / 2) ^ 2) / (1 + (a / 2) ^ 2)

/-- A rational function with the value of `sin` at 0 and on the unit circle
with `cosCircle`. -/
def sinCircle (a : ℚ) : ℚ := 2 * (a / 2) / (1 + (a / 2) ^ 2)

/-- A C library with `RAND_MAX = 32767` whose call number `n` of `rand()`
returns `n % 32768`, and whose `cos` and `sin` stay on the unit circle. -/
def circleEnv : Env := ⟨32767, fun n => n % 32768, cosCircle, sinCircle⟩

/-- What the loops of `updatePointLights` cannot change. -/
def SameShape (s t : Lights) : Prop :=
  t.modelMatrices.length = s.modelMatrices.length ∧
  t.modelColorSizes.length = s.modelColorSizes.length ∧
  t.randCalls = s.randCalls ∧
  t.gl = s.gl

/-- The OpenGL calls of one upload of the matrices. -/
def uploadCmds (ms : List Mat4) : List GLCmd :=
  [GLCmd.bindArrayBuffer BufferName.matrixBuffer,
   GLCmd.bufferDataMat4 (ms.take (LIGHT_GRID_WIDTH * LIGHT_GRID_WIDTH * LIGHT_GRID_HEIGHT)),
   GLCmd.bindArrayBuffer BufferName.zero]

/-! ## The OpenGL state -/

/-- The contents of a buffer object. -/
inductive BufferData where
  | empty
  | mat4s (data : List Mat4)
  | vec4s (data : List Vec4)
  | floats (count : Nat)
deriving DecidableEq

/-- What the depth buffer of the default framebuffer holds: the cleared
value, a copy of the depth buffer of the G-buffer, or something else. -/
inductive DepthContent where
  | cleared
  | gBufferCopy
  | other
deriving DecidableEq

/-- The part of the OpenGL state that the claims are about. -/
structure GLState where
  depthTest : Bool
  cullFace : Bool
  blend : Bool
  frontFace : Winding
  polygonMode : PolygonMode
  drawFramebuffer : Framebuffer
  readFramebuffer : Framebuffer
  arrayBuffer : BufferName
  program : Option Shader
  matrixBuffer : BufferData
  colorSizeBuffer : BufferData
  planeVBO : BufferData
  quadVBO : BufferData
  defaultDepth : DepthContent

/-- The initial state of an OpenGL context: every capability modelled is
disabled, the front faces are counter-clockwise, polygons are filled, the
default framebuffer is bound, no buffer or program is bound. -/
def GLState.initial : GLState :=
  { depthTest := false, cullFace := false, blend := false, frontFace := Winding.ccw,
    polygonMode := PolygonMode.fill, drawFramebuffer := Framebuffer.zero,
    readFramebuffer := Framebuffer.zero, arrayBuffer := BufferName.zero, program := none,
    matrixBuffer := BufferData.empty, colorSizeBuffer := BufferData.empty,
    planeVBO := BufferData.empty, quadVBO := BufferData.empty,
    defaultDepth := DepthContent.other }

/-- The effect of `glEnable(c)` (`b = true`) and `glDisable(c)` (`b = false`). -/
def GLState.setCapability (g : GLState) (c : Capability) (b : Bool) : GLState :=
  match c with
  | Capability.depthTest => { g with depthTest := b }
  | Capability.cullFace => { g with cullFace := b }
  | Capability.blend => { g with blend := b }

/-- The effect of `glBufferData(GL_ARRAY_BUFFER, ...)`: new contents for the
buffer bound to `GL_ARRAY_BUFFER`; an error without effect when none is bound. -/
def GLState.bufferData (g : GLState) (d : BufferData) : GLState :=
  match g.arrayBuffer with
  | BufferName.zero => g
  | BufferName.matrixBuffer => { g with matrixBuffer := d }
  | BufferName.colorSizeBuffer => { g with colorSizeBuffer := d }
  | BufferName.planeVBO => { g with planeVBO := d }
  | BufferName.quadVBO => { g with quadVBO := d }

/-- The effect of a draw call of `main` on the depth buffer of the default
framebuffer: with the depth test enabled, a draw into the default framebuffer
writes depth. -/
def GLState.afterDraw (g : GLState) : GLState :=
  if g.depthTest = true ∧ g.drawFramebuffer = Framebuffer.zero then
    { g with defaultDepth := DepthContent.other }
  else g

/-- Modelled from the spec: `FrameBuffer::bindOutput` of `framebuffer.h`, which
is not among the sources: "bind all attached color outputs for writing"; the
framebuffer of the G-buffer becomes the draw target. -/
def GLState.gBufferBindOutput (g : GLState) : GLState :=
  { g with drawFramebuffer := Framebuffer.gBuffer }

/-- Modelled from the spec: `FrameBuffer::bindRead` of `framebuffer.h`, which is
not among the sources: "bind for a read-only blit source"; the framebuffer of
the G-buffer becomes the read target. -/
def GLState.gBufferBindRead (g : GLState) : GLState :=
  { g with readFramebuffer := Framebuffer.gBuffer }

/-- Modelled from the spec: `FrameBuffer::unbind` of `framebuffer.h`, which is
not among the sources: "restore the default target". -/
def GLState.frameBufferUnbind (g : GLState) : GLState :=
  { g with drawFramebuffer := Framebuffer.zero, readFramebuffer := Framebuffer.zero }

/-- The effect of one call on the modelled state.  `FrameBuffer::bindInput`
binds textures, the calls of `Shader` other than `use` set uniforms, and the
user interface library restores the OpenGL state it changes: they leave the
modelled state as it is. -/
def applyCmd (g : GLState) : GLCmd → GLState
  | GLCmd.bindArrayBuffer b => { g with arrayBuffer := b }
  | GLCmd.bufferDataMat4 d => g.bufferData (BufferData.mat4s d)
  | GLCmd.bufferDataVec4 d => g.bufferData (BufferData.vec4s d)
  | GLCmd.bufferDataFloats n => g.bufferData (BufferData.floats n)
  | GLCmd.enable c => g.setCapability c true
  | GLCmd.disable c => g.setCapability c false
  | GLCmd.frontFace w => { g with frontFace := w }
  | GLCmd.polygonMode m => { g with polygonMode := m }
  | GLCmd.bindFramebuffer f => { g with drawFramebuffer := f, readFramebuffer := f }
  | GLCmd.bindDrawFramebuffer f => { g with drawFramebuffer := f }
  | GLCmd.gBufferBindOutput => g.gBufferBindOutput
  | GLCmd.gBufferBindRead => g.gBufferBindRead
  | GLCmd.frameBufferUnbind => g.frameBufferUnbind
  | GLCmd.clear _ depth =>
    if depth = true ∧ g.drawFramebuffer = Framebuffer.zero then
      { g with defaultDepth := DepthContent.cleared }
    else g
  | GLCmd.blitDepth =>
    if g.drawFramebuffer = Framebuffer.zero then
      if g.readFramebuffer = Framebuffer.gBuffer then
        { g with defaultDepth := DepthContent.gBufferCopy }
      else { g with defaultDepth := DepthContent.other }
    else g
  | GLCmd.drawArrays _ _ => g.afterDraw
  | GLCmd.drawElementsInstanced _ => g.afterDraw
  | GLCmd.drawModel _ _ => g.afterDraw
  | GLCmd.useShader s => { g with program := some s }
  | _ => g

/-- The state after a sequence of calls. -/
def runGL (g : GLState) (cmds : List GLCmd) : GLState :=
  cmds.foldl applyCmd g

/-- Each call of a sequence with the state it is issued in. -/
def execute : GLState → List GLCmd → List (GLState × GLCmd)
  | _, [] => []
  | g, c :: cs => (g, c) :: execute (applyCmd g c) cs

/-! ## The frame of `main` -/

/-- The constant `const unsigned int SCR_WIDTH = 1024;` -/
def SCR_WIDTH : Nat := 1024

/-- The constant `const unsigned int SCR_HEIGHT = 768;` -/
def SCR_HEIGHT : Nat := 768

/-- The constant `SHADOW_WIDTH = 2048` of `main`. -/
def SHADOW_WIDTH : Nat := 2048

/-- The constant `SHADOW_HEIGHT = 2048` of `main`. -/
def SHADOW_HEIGHT : Nat := 2048

/-- The value of `objectPositions.size()`: `main` pushes one position and one
model. -/
def objectCount : Nat := 1

/-- The name `glGenVertexArrays` gives `quadVAO`: any name but 0. -/
def quadVAOName : Nat := 1

/-- The variables of `main` and of the file that the render loop reads and
writes: the two vectors with the trace of all OpenGL calls made so far
(`lights`), the option settings, the static `colorSizeBufferDirty` and the
global `quadVAO`.  The settings that only give values to uniforms (colours,
glossiness, attenuation, intensity) are left out. -/
structure App where
  lights : Lights
  gBufferMode : Int
  enableShadows : Bool
  drawPointLights : Bool
  showDepthMap : Bool
  drawPointLightsWireframe : Bool
  pointLightRadius : ℚ
  pointLightVerticalOffset : ℚ
  pointLightSeparation : ℚ
  colorSizeBufferDirty : Bool
  quadVAO : Nat

/-- The calls of `renderQuad()` when the global `quadVAO` has the given value. -/
def renderQuad (quadVAO : Nat) : List GLCmd :=
  (if quadVAO = 0 then
    [GLCmd.genVertexArrays, GLCmd.genBuffers, GLCmd.bindVertexArray VertexArray.quadVAO,
     GLCmd.bindArrayBuffer BufferName.quadVBO, GLCmd.bufferDataFloats 20,
     GLCmd.enableVertexAttribArray 0, GLCmd.vertexAttribPointer 0 3,
     GLCmd.enableVertexAttribArray 1, GLCmd.vertexAttribPointer 1 2]
  else []) ++
  [GLCmd.bindVertexArray VertexArray.quadVAO, GLCmd.drawArrays Primitive.triangleStrip 4,
   GLCmd.bindVertexArray VertexArray.zero]

/-- The loop `for (unsigned int i = 0; i < objectPositions.size(); i++)` that
sets the uniform `model` and draws `meshModels[i]` with the shader `sh`. -/
def meshDraws (sh : Shader) : List GLCmd :=
  forRange objectCount (fun i acc =>
    acc ++ [GLCmd.setUniform sh Uniform.model, GLCmd.drawModel (Model.meshModel i) sh]) []

/-- Pass 1 of the render loop: the depth of the scene from the light. -/
def shadowPass (app : App) : List GLCmd :=
  if app.enableShadows = true then
    [GLCmd.useShader Shader.shaderDepthWrite,
     GLCmd.setUniform Shader.shaderDepthWrite Uniform.lightSpaceMatrix,
     GLCmd.setUniform Shader.shaderDepthWrite Uniform.model,
     GLCmd.viewport SHADOW_WIDTH SHADOW_HEIGHT,
     GLCmd.bindFramebuffer Framebuffer.depthMapFBO,
     GLCmd.clear false true,
     GLCmd.activeTexture 0,
     GLCmd.bindTexture Texture.woodTexture,
     GLCmd.bindVertexArray VertexArray.planeVAO,
     GLCmd.drawArrays Primitive.triangles 6] ++
    meshDraws Shader.shaderDepthWrite ++
    [GLCmd.frameBufferUnbind]
  else
    [GLCmd.viewport SHADOW_WIDTH SHADOW_HEIGHT,
     GLCmd.bindFramebuffer Framebuffer.depthMapFBO,
     GLCmd.clear false true]

/-- Pass 2 of the render loop: the geometry pass into the G-buffer. -/
def geometryPass : List GLCmd :=
  [GLCmd.viewport SCR_WIDTH SCR_HEIGHT,
   GLCmd.gBufferBindOutput,
   GLCmd.clear true true,
   GLCmd.useShader Shader.shaderTexturedGeometryPass,
   GLCmd.setUniform Shader.shaderTexturedGeometryPass Uniform.projection,
   GLCmd.setUniform Shader.shaderTexturedGeometryPass Uniform.view,
   GLCmd.setUniform Shader.shaderTexturedGeometryPass Uniform.model,
   GLCmd.setUniform Shader.shaderTexturedGeometryPass Uniform.specularCol,
   GLCmd.activeTexture 0,
   GLCmd.bindTexture Texture.woodTexture,
   GLCmd.bindVertexArray VertexArray.planeVAO,
   GLCmd.drawArrays Primitive.triangles 6,
   GLCmd.useShader Shader.shaderGeometryPass,
   GLCmd.setUniform Shader.shaderGeometryPass Uniform.projection,
   GLCmd.setUniform Shader.shaderGeometryPass Uniform.view,
   GLCmd.setUniform Shader.shaderGeometryPass Uniform.model,
   GLCmd.setUniform Shader.shaderGeometryPass Uniform.diffuseCol,
   GLCmd.setUniform Shader.shaderGeometryPass Uniform.specularCol] ++
  meshDraws Shader.shaderGeometryPass ++
  [GLCmd.frameBufferUnbind]

/-- Pass 3 of the render loop: the lighting pass on a quad that fills the
screen, or the view of one channel of the G-buffer. -/
def lightingPass (app : App) : List GLCmd :=
  [GLCmd.clear true true] ++
  (if app.gBufferMode = 0 then
    [GLCmd.useShader Shader.shaderLightingPass,
     GLCmd.gBufferBindInput,
     GLCmd.activeTexture 4,
     GLCmd.bindTexture Texture.depthMap,
     GLCmd.setUniform Shader.shaderLightingPass Uniform.gLightPosition,
     GLCmd.setUniform Shader.shaderLightingPass Uniform.gLightColor,
     GLCmd.setUniform Shader.shaderLightingPass Uniform.gLightLinear,
     GLCmd.setUniform Shader.shaderLightingPass Uniform.gLightQuadratic,
     GLCmd.setUniform Shader.shaderLightingPass Uniform.viewPos,
     GLCmd.setUniform Shader.shaderLightingPass Uniform.lightSpaceMatrix,
     GLCmd.setUniform Shader.shaderLightingPass Uniform.glossiness]
  else
    [GLCmd.useShader Shader.shaderGBufferDebug,
     GLCmd.setUniform Shader.shaderGBufferDebug Uniform.gBufferMode,
     GLCmd.gBufferBindInput]) ++
  renderQuad app.quadVAO

/-- Pass 3.5 of the render loop: the point lights, added on top of the scene. -/
def pointLightPass (app : App) : List GLCmd :=
  if app.gBufferMode = 0 then
    [GLCmd.useShader Shader.shaderPointLightingPass,
     GLCmd.gBufferBindInput,
     GLCmd.setUniform Shader.shaderPointLightingPass Uniform.projection,
     GLCmd.setUniform Shader.shaderPointLightingPass Uniform.view,
     GLCmd.enable Capability.cullFace,
     GLCmd.frontFace Winding.cw,
     GLCmd.disable Capability.depthTest,
     GLCmd.enable Capability.blend,
     GLCmd.blendFunc BlendFactor.one BlendFactor.one,
     GLCmd.setUniform Shader.shaderPointLightingPass Uniform.viewPos,
     GLCmd.setUniform Shader.shaderPointLightingPass Uniform.lightIntensity,
     GLCmd.setUniform Shader.shaderPointLightingPass Uniform.glossiness,
     GLCmd.bindVertexArray VertexArray.lightVAO] ++
    (if app.colorSizeBufferDirty = true then
      [GLCmd.bindArrayBuffer BufferName.colorSizeBuffer,
       GLCmd.bufferDataVec4 (app.lights.modelColorSizes.take
         (LIGHT_GRID_WIDTH * LIGHT_GRID_WIDTH * LIGHT_GRID_HEIGHT))]
    else []) ++
    [GLCmd.drawElementsInstanced totalLights,
     GLCmd.bindVertexArray VertexArray.zero,
     GLCmd.disable Capability.blend,
     GLCmd.blendFunc BlendFactor.srcAlpha BlendFactor.oneMinusSrcAlpha,
     GLCmd.frontFace Winding.ccw,
     GLCmd.disable Capability.cullFace]
  else []

/-- The overlay of the light volumes, "strictly used for debugging point light
volumes". -/
def lightVolumeOverlay (app : App) : List GLCmd :=
  if app.drawPointLights = true ∧ app.gBufferMode = 0 then
    [GLCmd.enable Capability.depthTest,
     GLCmd.gBufferBindRead,
     GLCmd.bindDrawFramebuffer Framebuffer.zero,
     GLCmd.blitDepth,
     GLCmd.frameBufferUnbind,
     GLCmd.useShader Shader.shaderLightSphere,
     GLCmd.setUniform Shader.shaderLightSphere Uniform.projection,
     GLCmd.setUniform Shader.shaderLightSphere Uniform.view,
     GLCmd.polygonMode
       (if app.drawPointLightsWireframe = true then PolygonMode.line else PolygonMode.fill),
     GLCmd.bindVertexArray VertexArray.lightVAO,
     GLCmd.drawElementsInstanced totalLights,
     GLCmd.bindVertexArray VertexArray.zero,
     GLCmd.polygonMode PolygonMode.fill,
     GLCmd.useShader Shader.shaderGlobalLightSphere,
     GLCmd.setUniform Shader.shaderGlobalLightSphere Uniform.projection,
     GLCmd.setUniform Shader.shaderGlobalLightSphere Uniform.view,
     GLCmd.setUniform Shader.shaderGlobalLightSphere Uniform.model,
     GLCmd.setUniform Shader.shaderGlobalLightSphere Uniform.lightColor,
     GLCmd.setUniform Shader.shaderGlobalLightSphere Uniform.lightRadius,
     GLCmd.drawModel Model.lightModel Shader.shaderGlobalLightSphere]
  else []

/-- The overlay of the depth map on a quad in a corner of the screen.  The
lighting pass has called `renderQuad` before, so `quadVAO` is not 0 here. -/
def depthMapOverlay (app : App) : List GLCmd :=
  if app.showDepthMap = true then
    [GLCmd.useShader Shader.shaderDebugDepthMap,
     GLCmd.setUniform Shader.shaderDebugDepthMap Uniform.transform,
     GLCmd.setUniform Shader.shaderDebugDepthMap Uniform.zNear,
     GLCmd.setUniform Shader.shaderDebugDepthMap Uniform.zFar,
     GLCmd.activeTexture 0,
     GLCmd.bindTexture Texture.depthMap] ++
    renderQuad quadVAOName
  else []

/-- The calls of one turn of the render loop, from `glClearColor` to the
start of the user interface. -/
def renderFrame (app : App) : List GLCmd :=
  [GLCmd.clearColor, GLCmd.enable Capability.depthTest] ++
  shadowPass app ++ geometryPass ++ lightingPass app ++ pointLightPass app ++
  lightVolumeOverlay app ++ depthMapOverlay app

/-- What the user interface library returns in one frame.  For each collapsing
header: whether it is open.  For each slider: `some v` when `SliderFloat`
returned true and stored `v`, `none` when it returned false.  For each checkbox
and for the combo: the value of the variable after the call.  A widget under a
closed header is not called, so its entry is not read. -/
structure ControlInput where
  lightingConfigOpen : Bool
  globalLightOpen : Bool
  enableShadows : Bool
  pointLightsOpen : Bool
  radius : Option ℚ
  separation : Option ℚ
  verticalOffset : Option ℚ
  debugOpen : Bool
  gBufferMode : Int
  drawPointLights : Bool
  drawPointLightsWireframe : Bool
  showDepthMap : Bool

/-- The statement `if (ImGui::SliderFloat("Radius", &pointLightRadius, ...))`
with its two branches. -/
def sliderRadius (app : App) (r : Option ℚ) : Option App :=
  match r with
  | some v =>
    (updatePointLights app.lights app.pointLightSeparation app.pointLightVerticalOffset
      v).map fun l =>
        { app with pointLightRadius := v, lights := l, colorSizeBufferDirty := true }
  | none => some { app with colorSizeBufferDirty := false }

/-- The statement `if (ImGui::SliderFloat("Separation", &pointLightSeparation, ...))`. -/
def sliderSeparation (app : App) (r : Option ℚ) : Option App :=
  match r with
  | some v =>
    (updatePointLights app.lights v app.pointLightVerticalOffset
      app.pointLightRadius).map fun l =>
        { app with pointLightSeparation := v, lights := l }
  | none => some app

/-- The statement
`if (ImGui::SliderFloat("Vertical Offset", &pointLightVerticalOffset, ...))`. -/
def sliderVerticalOffset (app : App) (r : Option ℚ) : Option App :=
  match r with
  | some v =>
    (updatePointLights app.lights app.pointLightSeparation v
      app.pointLightRadius).map fun l =>
        { app with pointLightVerticalOffset := v, lights := l }
  | none => some app

/-- The block under the header "Point Lights". -/
def pointLightControls (app : App) (ui : ControlInput) : Option App :=
  (sliderRadius app ui.radius).bind fun a =>
    (sliderSeparation a ui.separation).bind fun b =>
      sliderVerticalOffset b ui.verticalOffset

/-- The block under the header "Lighting Config". -/
def lightingControls (app : App) (ui : ControlInput) : Option App :=
  if ui.lightingConfigOpen = true then
    let app1 :=
      if ui.globalLightOpen = true then { app with enableShadows := ui.enableShadows }
      else app
    if ui.pointLightsOpen = true then pointLightControls app1 ui else some app1
  else some app

/-- The block under the header "Debug". -/
def debugControls (app : App) (ui : ControlInput) : App :=
  if ui.debugOpen = true then
    { app with
      gBufferMode := ui.gBufferMode
      drawPointLights := ui.drawPointLights
      drawPointLightsWireframe := ui.drawPointLightsWireframe
      showDepthMap := ui.showDepthMap
      lights := { app.lights with
        gl := app.lights.gl ++
          [GLCmd.setUniform Shader.shaderLightingPass Uniform.gBufferMode] } }
  else app

/-- The control-surface step of a frame: the window "Controls". -/
def controlSurface (app : App) (ui : ControlInput) : Option App :=
  (lightingControls app ui).map fun a => debugControls a ui

/-- One turn of the render loop: the passes, the control surface, the drawing
of the user interface and the swap of the buffers. -/
def frame (app : App) (ui : ControlInput) : Option App :=
  (controlSurface
    { app with
      lights := { app.lights with gl := app.lights.gl ++ renderFrame app }
      quadVAO := if app.quadVAO = 0 then quadVAOName else app.quadVAO } ui).map fun a =>
    { a with lights := { a.lights with
        gl := a.lights.gl ++ [GLCmd.imguiRenderDrawData, GLCmd.swapBuffers] } }

/-- A run of the render loop, one `ControlInput` per frame. -/
def runFrames (app : App) (uis : List ControlInput) : Option App :=
  uis.foldlM frame app

/-- The calls of the set-up of `main` that act on the modelled state, in
order: the depth test, the buffer of the floor, the two offscreen targets, the
two instance buffers of the lights filled from the vectors `ms` and `cs`, and
the shaders configured last. -/
def setupCmds (ms : List Mat4) (cs : List Vec4) : List GLCmd :=
  [GLCmd.enable Capability.depthTest,
   GLCmd.genVertexArrays, GLCmd.genBuffers,
   GLCmd.bindVertexArray VertexArray.planeVAO,
   GLCmd.bindArrayBuffer BufferName.planeVBO,
   GLCmd.bufferDataFloats 48,
   GLCmd.enableVertexAttribArray 0, GLCmd.vertexAttribPointer 0 3,
   GLCmd.enableVertexAttribArray 1, GLCmd.vertexAttribPointer 1 3,
   GLCmd.enableVertexAttribArray 2, GLCmd.vertexAttribPointer 2 2,
   GLCmd.bindVertexArray VertexArray.zero,
   GLCmd.bindTexture Texture.depthMap,
   GLCmd.bindFramebuffer Framebuffer.depthMapFBO,
   GLCmd.bindFramebuffer Framebuffer.zero,
   GLCmd.gBufferBindOutput,
   GLCmd.frameBufferUnbind,
   GLCmd.genBuffers,
   GLCmd.bindArrayBuffer BufferName.matrixBuffer,
   GLCmd.bufferDataMat4 (ms.take totalLights),
   GLCmd.bindVertexArray VertexArray.lightVAO,
   GLCmd.enableVertexAttribArray 3, GLCmd.vertexAttribPointer 3 4,
   GLCmd.enableVertexAttribArray 4, GLCmd.vertexAttribPointer 4 4,
   GLCmd.enableVertexAttribArray 5, GLCmd.vertexAttribPointer 5 4,
   GLCmd.enableVertexAttribArray 6, GLCmd.vertexAttribPointer 6 4,
   GLCmd.genBuffers,
   GLCmd.bindVertexArray VertexArray.lightVAO,
   GLCmd.enableVertexAttribArray 2,
   GLCmd.bindArrayBuffer BufferName.colorSizeBuffer,
   GLCmd.bufferDataVec4 (cs.take totalLights),
   GLCmd.vertexAttribPointer 2 4,
   GLCmd.bindVertexArray VertexArray.zero,
   GLCmd.useShader Shader.shaderLightingPass,
   GLCmd.useShader Shader.shaderPointLightingPass,
   GLCmd.useShader Shader.shaderGBufferDebug,
   GLCmd.useShader Shader.shaderDebugDepthMap]

/-- The state of `main` when it enters the render loop: the option settings
with their initial values and the lights generated by `configurePointLights`. -/
def setup (env : Env) : App :=
  { lights :=
      { configurePointLights env [] [] INITIAL_POINT_LIGHT_RADIUS (670 / 1000) (636 / 1000) with
        gl := setupCmds
          (configurePointLights env [] [] INITIAL_POINT_LIGHT_RADIUS (670 / 1000)
            (636 / 1000)).modelMatrices
          (configurePointLights env [] [] INITIAL_POINT_LIGHT_RADIUS (670 / 1000)
            (636 / 1000)).modelColorSizes }
    gBufferMode := 0
    enableShadows := true
    drawPointLights := false
    showDepthMap := false
    drawPointLightsWireframe := true
    pointLightRadius := INITIAL_POINT_LIGHT_RADIUS
    pointLightVerticalOffset := 636 / 1000
    pointLightSeparation := 670 / 1000
    colorSizeBufferDirty := false
    quadVAO := 0 }

/-- The OpenGL state of the program: the state after all the calls made so far. -/
def App.gpu (app : App) : GLState :=
  runGL GLState.initial app.lights.gl

/-- Whether a call draws: the draw calls of `main` and of `Model::draw`. -/
def GLCmd.isDraw : GLCmd → Bool
  | GLCmd.drawArrays _ _ => true
  | GLCmd.drawElementsInstanced _ => true
  | GLCmd.drawModel _ _ => true
  | _ => false

/-- Whether a call is `glClear` with the depth bit. -/
def GLCmd.isDepthClear : GLCmd → Bool
  | GLCmd.clear _ depth => depth
  | _ => false

/-- Whether a call is an instanced draw of the light volumes. -/
def GLCmd.isInstancedDraw : GLCmd → Bool
  | GLCmd.drawElementsInstanced _ => true
  | _ => false

/-- The depth clears and the draw calls of a sequence that are issued while
the framebuffer `f` is the draw target, in order. -/
def targetEvents (f : Framebuffer) (g : GLState) (cmds : List GLCmd) : List GLCmd :=
  ((execute g cmds).filter fun p =>
    decide (p.1.drawFramebuffer = f) && (p.2.isDraw || p.2.isDepthClear)).map Prod.snd

/-- The states in which the instanced draws of a sequence are issued, in order. -/
def instancedDrawStates (g : GLState) (cmds : List GLCmd) : List GLState :=
  ((execute g cmds).filter fun p => p.2.isInstancedDraw).map Prod.fst

/-- The calls of a frame before the pass of the point lights. -/
def beforePointLights (app : App) : List GLCmd :=
  [GLCmd.clearColor, GLCmd.enable Capability.depthTest] ++
  shadowPass app ++ geometryPass ++ lightingPass app

/-- The settings of face culling, blending and front-face winding. -/
def GLState.raster (g : GLState) : Bool × Bool × Winding :=
  (g.cullFace, g.blend, g.frontFace)

/-- The state `g2` is the state `g1` but for the binding of `GL_ARRAY_BUFFER`
and the contents of `matrixBuffer`. -/
def GLState.sameButMatrices (g1 g2 : GLState) : Prop :=
  g2 = { g1 with arrayBuffer := g2.arrayBuffer, matrixBuffer := g2.matrixBuffer }

/-- The calls one call of `updatePointLights` can add to the trace: none, or
one upload of matrices. -/
def IsUpload (cmds : List GLCmd) : Prop :=
  cmds = [] ∨ ∃ ms, cmds = uploadCmds ms

/-- The calls the control surface can add to the trace: up to three uploads
of matrices, one for each slider of the point lights, and the uniform set
under the header "Debug". -/
def UiCmds (cmds : List GLCmd) : Prop :=
  ∃ u1 u2 u3 d, cmds = u1 ++ u2 ++ u3 ++ d ∧ IsUpload u1 ∧ IsUpload u2 ∧ IsUpload u3 ∧
    (d = [] ∨ d = [GLCmd.setUniform Shader.shaderLightingPass Uniform.gBufferMode])

/-- The vectors of the program have room for the writes of `updatePointLights`. -/
def App.ready (app : App) : Prop :=
  totalLights ≤ app.lights.modelMatrices.length ∧
  totalLights ≤ app.lights.modelColorSizes.length

/-- Whether the slider "Radius" is shown in the frame: both headers above it
are open. -/
def ControlInput.pointLightsShown (ui : ControlInput) : Bool :=
  ui.lightingConfigOpen && ui.pointLightsOpen

/-- Whether the slider "Radius" changed in the frame: it is shown and
`SliderFloat` returned true. -/
def ControlInput.radiusChanged (ui : ControlInput) : Bool :=
  ui.pointLightsShown && ui.radius.isSome

/-- The states in which the instanced draws of the overlay of the light
volumes are issued: those with the program `shaderLightSphere`. -/
def overlayDrawStates (g : GLState) (cmds : List GLCmd) : List GLState :=
  (instancedDrawStates g cmds).filter fun s =>
    decide (s.program = some Shader.shaderLightSphere)

/-- A frame of the user with every header open, the combo "G-Buffer View" on
`mode`, the check boxes as `main` starts them, the slider "Radius" as given
and the other sliders untouched. -/
def panel (mode : Int) (radius : Option ℚ) : ControlInput :=
  { lightingConfigOpen := true, globalLightOpen := true, enableShadows := true,
    pointLightsOpen := true, radius := radius, separation := none, verticalOffset := none,
    debugOpen := true, gBufferMode := mode, drawPointLights := false,
    drawPointLightsWireframe := true, showDepthMap := false }

/-- A frame of the user with every header closed. -/
def collapsed : ControlInput :=
  { lightingConfigOpen := false, globalLightOpen := false, enableShadows := true,
    pointLightsOpen := false, radius := none, separation := none, verticalOffset := none,
    debugOpen := false, gBufferMode := 0, drawPointLights := false,
    drawPointLightsWireframe := true, showDepthMap := false }

/-- The state of `main` at the start of the render loop but with the view
mode 1 of the G-buffer ("Position (world)"). -/
def debugViewStart : App :=
  { setup zeroEnv with gBufferMode := 1 }

/-- The allowance for the rounding of binary32 arithmetic in a comparison of
two coordinates `c1` and `c2` that the source computes as `float`: `2 ^ -20`
times `|c1| + |c2|`.  A `float` operation is off by at most `2 ^ -24` of its
result and a coordinate is the result of at most three of them. -/
def roundingSlack (c1 c2 : ℚ) : ℚ := (|c1| + |c2|) / 2 ^ 20

/-- A rounding of the results of `float` operations: the rounded value is off
by at most `2 ^ -24` of the exact one, as rounding to the nearest binary32
number is when the result neither overflows nor underflows. -/
def RoundsLikeFloat (fl : ℚ → ℚ) : Prop := ∀ x, |fl x - x| ≤ |x| / 2 ^ 24

/-- The expression `(lightIndex - (n - 1.0f) / 2.0f) * (diameter * separation)`
of both functions with the rounding `fl` of its two `float` products made
explicit.  The factor `lightIndex - (n - 1.0f) / 2.0f` is a small multiple of
0.5, a binary32 number: it is computed exactly. -/
def gridCoordRounded (fl : ℚ → ℚ) (n i : Nat) (diameter separation : ℚ) : ℚ :=
  fl (((i : ℚ) - ((n : ℚ) - 1) / 2) * fl (diameter * separation))

/-- The local `yPos` of `configurePointLights`,
`(lightIndexY - (LIGHT_GRID_HEIGHT - 1.0f) / 2.0f) * (diameter * separation) + yOffset`,
with the rounding `fl` of its `float` operations made explicit. -/
def yPosRounded (fl : ℚ → ℚ) (i : Nat) (diameter separation yOffset : ℚ) : ℚ :=
  fl (gridCoordRounded fl LIGHT_GRID_HEIGHT i diameter separation + yOffset)

/-- The statements `float xOffset = cos(angle) * length; xPos += xOffset;` of
`configurePointLights` with the rounding `fl` made explicit: `offset` is the
double `cos(angle) * length`, rounded when it is stored in a `float`, and the
sum is rounded again. -/
def addJitterRounded (fl : ℚ → ℚ) (pos offset : ℚ) : ℚ := fl (pos + fl offset)

/-- A rounding that is not the identity: every value loses `2 ^ -24` of itself. -/
def chop (x : ℚ) : ℚ := x - x / 2 ^ 24

/-- A C library like `circleEnv` whose `cos` is off the unit circle by the
relative error `2 ^ -53` of a rounded double: `cos ^ 2 + sin ^ 2` exceeds 1. -/
def roundedCircleEnv : Env :=
  ⟨32767, fun n => n % 32768, fun a => cosCircle a * (1 + 1 / 2 ^ 53), sinCircle⟩

/-! ## Loops -/

theorem forRange_zero {σ : Type} (body : Nat → σ → σ) (s : σ) :
    forRange 0 body s = s := rfl

theorem forRange_succ {σ : Type} (n : Nat) (body : Nat → σ → σ) (s : σ) :
    forRange (n + 1) body s = body n (forRange n body s) := by
  simp [forRange, List.range_succ, List.foldl_append]

theorem forRangeM_zero {σ : Type} (body : Nat → σ → Option σ) (s : σ) :
    forRangeM 0 body s = some s := rfl

theorem forRangeM_succ {σ : Type} (n : Nat) (body : Nat → σ → Option σ) (s : σ) :
    forRangeM (n + 1) body s = (forRangeM n body s).bind (body n) := by
  simp [forRangeM, List.range_succ, List.foldlM_append]

/-- Loop invariant rule for a loop whose body always completes. -/
theorem forRange_induction {σ : Type} (P : Nat → σ → Prop) (n : Nat)
    (body : Nat → σ → σ) (s : σ) (h0 : P 0 s)
    (hstep : ∀ i t, i < n → P i t → P (i + 1) (body i t)) :
    P n (forRange n body s) := by
  induction n with
  | zero => simpa [forRange_zero] using h0
  | succ m ih =>
    rw [forRange_succ]
    exact hstep m _ (Nat.lt_succ_self m)
      (ih (fun i t hi hP => hstep i t (Nat.lt_succ_of_lt hi) hP))

/-- Loop invariant rule for a loop whose body can fail: when every step from
a state of the invariant succeeds, the loop succeeds. -/
theorem forRangeM_induction {σ : Type} (P : Nat → σ → Prop) (n : Nat)
    (body : Nat → σ → Option σ) (s : σ) (h0 : P 0 s)
    (hstep : ∀ i t, i < n → P i t → ∃ u, body i t = some u ∧ P (i + 1) u) :
    ∃ u, forRangeM n body s = some u ∧ P n u := by
  induction n with
  | zero => exact ⟨s, forRangeM_zero body s, h0⟩
  | succ m ih =>
    obtain ⟨t, ht, hPt⟩ := ih (fun i t hi hP => hstep i t (Nat.lt_succ_of_lt hi) hP)
    obtain ⟨u, hu, hPu⟩ := hstep m t (Nat.lt_succ_self m) hPt
    exact ⟨u, by rw [forRangeM_succ, ht]; exact hu, hPu⟩

/-! ## The index formula -/

theorem curLightAt_lt (W H x z y : Nat) (hx : x < W) (hz : z < W) (hy : y < H) :
    curLightAt W H x z y < W * W * H := by
  unfold curLightAt
  have h1 : z * H + y < W * H := by
    calc z * H + y < z * H + H := by omega
      _ = (z + 1) * H := by ring
      _ ≤ W * H := Nat.mul_le_mul_right H hz
  calc x * W * H + z * H + y = x * (W * H) + (z * H + y) := by ring
    _ < x * (W * H) + W * H := by omega
    _ = (x + 1) * (W * H) := by ring
    _ ≤ W * (W * H) := Nat.mul_le_mul_right (W * H) hx
    _ = W * W * H := by ring

theorem curLightAt_mod (W H x z y : Nat) (hy : y < H) :
    curLightAt W H x z y % H = y := by
  unfold curLightAt
  have h : x * W * H + z * H + y = y + H * (x * W + z) := by ring
  rw [h, Nat.add_mul_mod_self_left, Nat.mod_eq_of_lt hy]

theorem curLightAt_div_height (W H x z y : Nat) (hy : y < H) :
    curLightAt W H x z y / H = x * W + z := by
  unfold curLightAt
  have hH : 0 < H := Nat.lt_of_le_of_lt (Nat.zero_le y) hy
  have h : x * W * H + z * H + y = y + H * (x * W + z) := by ring
  rw [h, Nat.add_mul_div_left _ _ hH, Nat.div_eq_of_lt hy, Nat.zero_add]

theorem curLightAt_div_mod (W H x z y : Nat) (hz : z < W) (hy : y < H) :
    curLightAt W H x z y / H % W = z := by
  rw [curLightAt_div_height W H x z y hy]
  have h : x * W + z = z + W * x := by ring
  rw [h, Nat.add_mul_mod_self_left, Nat.mod_eq_of_lt hz]

theorem curLightAt_div (W H x z y : Nat) (hz : z < W) (hy : y < H) :
    curLightAt W H x z y / (W * H) = x := by
  have hW : 0 < W := Nat.lt_of_le_of_lt (Nat.zero_le z) hz
  rw [Nat.mul_comm W H, ← Nat.div_div_eq_div_mul, curLightAt_div_height W H x z y hy]
  have h : x * W + z = z + W * x := by ring
  rw [h, Nat.add_mul_div_left _ _ hW, Nat.div_eq_of_lt hz, Nat.zero_add]

theorem curLightAt_decode (W H i : Nat) :
    curLightAt W H (i / (W * H)) (i / H % W) (i % H) = i := by
  unfold curLightAt
  rw [Nat.mul_comm W H, ← Nat.div_div_eq_div_mul]
  have h1 := Nat.div_add_mod i H
  have h2 := Nat.div_add_mod (i / H) W
  calc i / H / W * W * H + i / H % W * H + i % H
      = H * (W * (i / H / W) + i / H % W) + i % H := by ring
    _ = H * (i / H) + i % H := by rw [h2]
    _ = i := h1

theorem decode_lt (W H i : Nat) (hH : 0 < H) (hW : 0 < W) (hi : i < W * W * H) :
    i / (W * H) < W ∧ i / H % W < W ∧ i % H < H := by
  refine ⟨?_, Nat.mod_lt _ hW, Nat.mod_lt _ hH⟩
  rw [Nat.div_lt_iff_lt_mul (Nat.mul_pos hW hH)]
  calc i < W * W * H := hi
    _ = W * (W * H) := by ring

/-! ## Facts about the grid constants -/

theorem curLight_succ (x z y : Nat) : curLight x z (y + 1) = curLight x z y + 1 := rfl

theorem curLight_next_z (x z : Nat) :
    curLight x z LIGHT_GRID_HEIGHT = curLight x (z + 1) 0 := by
  simp only [curLight, curLightAt]; ring

theorem curLight_next_x (x : Nat) :
    curLight x LIGHT_GRID_WIDTH 0 = curLight (x + 1) 0 0 := by
  simp only [curLight, curLightAt]; ring

theorem curLight_zero : curLight 0 0 0 = 0 := rfl

theorem curLight_last : curLight LIGHT_GRID_WIDTH 0 0 = totalLights := rfl

theorem cellX_curLight (x z y : Nat) (hz : z < LIGHT_GRID_WIDTH) (hy : y < LIGHT_GRID_HEIGHT) :
    cellX (curLight x z y) = x :=
  curLightAt_div LIGHT_GRID_WIDTH LIGHT_GRID_HEIGHT x z y hz hy

theorem cellZ_curLight (x z y : Nat) (hz : z < LIGHT_GRID_WIDTH) (hy : y < LIGHT_GRID_HEIGHT) :
    cellZ (curLight x z y) = z :=
  curLightAt_div_mod LIGHT_GRID_WIDTH LIGHT_GRID_HEIGHT x z y hz hy

theorem cellY_curLight (x z y : Nat) (hy : y < LIGHT_GRID_HEIGHT) :
    cellY (curLight x z y) = y :=
  curLightAt_mod LIGHT_GRID_WIDTH LIGHT_GRID_HEIGHT x z y hy

theorem curLight_lt (x z y : Nat) (hx : x < LIGHT_GRID_WIDTH) (hz : z < LIGHT_GRID_WIDTH)
    (hy : y < LIGHT_GRID_HEIGHT) : curLight x z y < totalLights :=
  curLightAt_lt LIGHT_GRID_WIDTH LIGHT_GRID_HEIGHT x z y hx hz hy

theorem totalLights_eq : totalLights = 300 := rfl

/-! ## configurePointLights: closed form -/

theorem configureCell_step (env : Env) (radius separation yOffset : ℚ) (ms0 : List Mat4)
    (cs0 : List Vec4) (n x z y : Nat) (s : Lights)
    (h : Generated env radius separation yOffset ms0 cs0 n s)
    (hx : cellX n = x) (hz : cellZ n = z) (hy : cellY n = y) :
    Generated env radius separation yOffset ms0 cs0 (n + 1)
      (configureCell env radius separation yOffset x z y s) := by
  obtain ⟨h1, h2, h3, h4⟩ := h
  subst hx hz hy
  refine ⟨?_, ?_, ?_, ?_⟩
  · simp only [configureCell, h1, h3, List.range_succ, List.map_append, List.map_cons,
      List.map_nil, List.append_assoc, cellMatrix, lightCentre, idealPosition, jitter]
  · simp only [configureCell, h2, h3, List.range_succ, List.map_append, List.map_cons,
      List.map_nil, List.append_assoc, cellColorSize]
  · simp only [configureCell, h3]; ring
  · simpa [configureCell] using h4

theorem configurePointLights_generated (env : Env) (ms0 : List Mat4) (cs0 : List Vec4)
    (radius separation yOffset : ℚ) :
    Generated env radius separation yOffset ms0 cs0 totalLights
      (configurePointLights env ms0 cs0 radius separation yOffset) := by
  unfold configurePointLights
  rw [← curLight_last]
  apply forRange_induction
    (fun x s => Generated env radius separation yOffset ms0 cs0 (curLight x 0 0) s)
  · exact ⟨by simp [curLight_zero], by simp [curLight_zero], by simp [curLight_zero], rfl⟩
  · intro x s _ hs
    show Generated env radius separation yOffset ms0 cs0 (curLight (x + 1) 0 0) _
    rw [← curLight_next_x]
    apply forRange_induction
      (fun z t => Generated env radius separation yOffset ms0 cs0 (curLight x z 0) t)
    · exact hs
    · intro z t hz ht
      show Generated env radius separation yOffset ms0 cs0 (curLight x (z + 1) 0) _
      rw [← curLight_next_z]
      apply forRange_induction
        (fun y u => Generated env radius separation yOffset ms0 cs0 (curLight x z y) u)
      · exact ht
      · intro y u hy hu
        exact configureCell_step env radius separation yOffset ms0 cs0 _ x z y u hu
          (cellX_curLight x z y hz hy) (cellZ_curLight x z y hz hy) (cellY_curLight x z y hy)

/-! ## updatePointLights: the loops -/

theorem modifyAt_rewritten {α : Type} (f : Nat → α → α) (n : Nat) (v0 v : List α)
    (h : Rewritten f n v0 v) (hn : n < v0.length) :
    ∃ w, modifyAt v n (f n) = some w ∧ Rewritten f (n + 1) v0 w := by
  obtain ⟨hlen, hget⟩ := h
  have hnv : n < v.length := by omega
  refine ⟨v.set n (f n (v.get ⟨n, hnv⟩)), by simp [modifyAt, hnv], by simp [hlen], ?_⟩
  intro i
  rw [List.getElem?_set]
  by_cases hin : n = i
  · subst hin
    have h1 := hget n
    simp only [lt_irrefl, if_false] at h1
    have h2 : v[n]? = some (v.get ⟨n, hnv⟩) := by simp [List.getElem?_eq_getElem hnv]
    rw [h2] at h1
    simp [hnv, ← h1]
  · rw [if_neg hin, hget i]
    by_cases hlt : i < n
    · have : i < n + 1 := by omega
      simp [hlt, this]
    · have : ¬ i < n + 1 := by omega
      simp [hlt, this]

theorem Rewritten.refl {α : Type} (f : Nat → α → α) (v : List α) : Rewritten f 0 v v :=
  ⟨rfl, fun i => by simp⟩

theorem updateCell_step (separation yOffset radius : ℚ) (s0 : Lights) (x z y : Nat)
    (s : Lights) (h : Updated separation yOffset radius s0 (curLight x z y) s)
    (hz : z < LIGHT_GRID_WIDTH) (hy : y < LIGHT_GRID_HEIGHT)
    (hm : curLight x z y < s0.modelMatrices.length)
    (hc : curLight x z y < s0.modelColorSizes.length) :
    ∃ u, updateCell separation yOffset radius x z y s = some u ∧
      Updated separation yOffset radius s0 (curLight x z y + 1) u := by
  obtain ⟨h1, h2, h3, h4⟩ := h
  obtain ⟨ms, hms, hms2⟩ := modifyAt_rewritten _ _ _ _ h1 hm
  obtain ⟨cs, hcs, hcs2⟩ := modifyAt_rewritten _ _ _ _ h2 hc
  have hrel : relocate separation yOffset (curLight x z y) =
      Mat4.setTranslation
        ⟨gridCoord LIGHT_GRID_WIDTH x (2 * INITIAL_POINT_LIGHT_RADIUS) separation,
         gridCoord LIGHT_GRID_HEIGHT y (2 * INITIAL_POINT_LIGHT_RADIUS) separation + yOffset,
         gridCoord LIGHT_GRID_WIDTH z (2 * INITIAL_POINT_LIGHT_RADIUS) separation, 1⟩ := by
    funext m
    simp only [relocate, cellX_curLight x z y hz hy, cellZ_curLight x z y hz hy,
      cellY_curLight x z y hy, updatedTranslation]
  rw [hrel] at hms
  refine ⟨{ s with modelMatrices := ms, modelColorSizes := cs }, ?_, hms2, hcs2, h3, h4⟩
  simp only [updateCell, hms, hcs, Option.bind]

/-- The three nested loops of `updatePointLights`. -/
theorem updateLoops_spec (separation yOffset radius : ℚ) (s0 : Lights)
    (hm : totalLights ≤ s0.modelMatrices.length)
    (hc : totalLights ≤ s0.modelColorSizes.length) :
    ∃ t, forRangeM LIGHT_GRID_WIDTH (fun x =>
        forRangeM LIGHT_GRID_WIDTH (fun z =>
          forRangeM LIGHT_GRID_HEIGHT (fun y =>
            updateCell separation yOffset radius x z y))) s0 = some t ∧
      Updated separation yOffset radius s0 totalLights t := by
  rw [← curLight_last]
  apply forRangeM_induction
    (fun x s => Updated separation yOffset radius s0 (curLight x 0 0) s)
  · exact ⟨Rewritten.refl _ _, Rewritten.refl _ _, rfl, rfl⟩
  · intro x s hx hs
    show ∃ u, _ = some u ∧ Updated separation yOffset radius s0 (curLight (x + 1) 0 0) u
    rw [← curLight_next_x]
    apply forRangeM_induction
      (fun z t => Updated separation yOffset radius s0 (curLight x z 0) t)
    · exact hs
    · intro z t hz ht
      show ∃ u, _ = some u ∧ Updated separation yOffset radius s0 (curLight x (z + 1) 0) u
      rw [← curLight_next_z]
      apply forRangeM_induction
        (fun y u => Updated separation yOffset radius s0 (curLight x z y) u)
      · exact ht
      · intro y u hy hu
        have hlt := curLight_lt x z y hx hz hy
        exact updateCell_step separation yOffset radius s0 x z y u hu hz hy
          (by omega) (by omega)

/-! ## updatePointLights: consequences of the loop invariant -/

theorem Rewritten.getElem? {α : Type} {f : Nat → α → α} {n : Nat} {v0 v : List α}
    (h : Rewritten f n v0 v) (i : Nat) (hi : i < n) (hlen : i < v0.length) :
    v[i]? = some (f i (v0.get ⟨i, hlen⟩)) := by
  rw [h.2 i, if_pos hi]
  simp [List.getElem?_eq_getElem hlen]

theorem Rewritten.map_eq {α β : Type} {f : Nat → α → α} {n : Nat} {v0 v : List α}
    (h : Rewritten f n v0 v) (g : α → β) (hg : ∀ i a, g (f i a) = g a) :
    v.map g = v0.map g := by
  apply List.ext_getElem?
  intro i
  rw [List.getElem?_map, List.getElem?_map, h.2 i]
  by_cases hi : i < n
  · rw [if_pos hi]
    cases v0[i]? with
    | none => rfl
    | some a => simp [hg]
  · rw [if_neg hi]

theorem uploadMatrices_modelMatrices (s : Lights) :
    (uploadMatrices s).modelMatrices = s.modelMatrices := rfl

theorem uploadMatrices_modelColorSizes (s : Lights) :
    (uploadMatrices s).modelColorSizes = s.modelColorSizes := rfl

/-- With a separation that is not negative and vectors of at least
`totalLights` elements, `updatePointLights` completes: the loops rewrite every
cell and the matrices are uploaded. -/
theorem updatePointLights_updated (s : Lights) (separation yOffset radius : ℚ)
    (hsep : 0 ≤ separation) (hm : totalLights ≤ s.modelMatrices.length)
    (hc : totalLights ≤ s.modelColorSizes.length) :
    ∃ t, Updated separation yOffset radius s totalLights t ∧
      updatePointLights s separation yOffset radius = some (uploadMatrices t) := by
  obtain ⟨t, ht, hU⟩ := updateLoops_spec separation yOffset radius s hm hc
  refine ⟨t, hU, ?_⟩
  unfold updatePointLights
  rw [if_neg (not_lt.mpr hsep), ht]
  rfl

theorem updatePointLights_of_neg (s : Lights) (separation yOffset radius : ℚ)
    (hsep : separation < 0) : updatePointLights s separation yOffset radius = some s := by
  unfold updatePointLights
  rw [if_pos hsep]

/-- What a call of `updatePointLights` keeps, whatever its arguments. -/
theorem updatePointLights_frame (s : Lights) (separation yOffset radius : ℚ)
    (hm : totalLights ≤ s.modelMatrices.length)
    (hc : totalLights ≤ s.modelColorSizes.length) :
    ∃ t, updatePointLights s separation yOffset radius = some t ∧
      t.modelMatrices.length = s.modelMatrices.length ∧
      t.modelColorSizes.length = s.modelColorSizes.length ∧
      t.modelColorSizes.map Vec4.rgb = s.modelColorSizes.map Vec4.rgb ∧
      t.modelMatrices.map Mat4.linearPart = s.modelMatrices.map Mat4.linearPart := by
  by_cases hsep : separation < 0
  · exact ⟨s, updatePointLights_of_neg s separation yOffset radius hsep, rfl, rfl, rfl, rfl⟩
  · obtain ⟨t, ⟨h1, h2, _, _⟩, ht⟩ :=
      updatePointLights_updated s separation yOffset radius (not_lt.mp hsep) hm hc
    refine ⟨uploadMatrices t, ht, h1.1, h2.1, ?_, ?_⟩
    · exact h2.map_eq Vec4.rgb (fun _ _ => rfl)
    · exact h1.map_eq Mat4.linearPart (fun _ _ => rfl)

theorem updateMany_frame (calls : List (ℚ × ℚ × ℚ)) (s : Lights)
    (hm : totalLights ≤ s.modelMatrices.length)
    (hc : totalLights ≤ s.modelColorSizes.length) :
    ∃ t, updateMany s calls = some t ∧
      t.modelMatrices.length = s.modelMatrices.length ∧
      t.modelColorSizes.length = s.modelColorSizes.length ∧
      t.modelColorSizes.map Vec4.rgb = s.modelColorSizes.map Vec4.rgb ∧
      t.modelMatrices.map Mat4.linearPart = s.modelMatrices.map Mat4.linearPart := by
  induction calls generalizing s with
  | nil => exact ⟨s, rfl, rfl, rfl, rfl, rfl⟩
  | cons c rest ih =>
    obtain ⟨t, ht, hl1, hl2, hrgb, hlin⟩ := updatePointLights_frame s c.1 c.2.1 c.2.2 hm hc
    obtain ⟨u, hu, hk1, hk2, hrgb2, hlin2⟩ := ih t (by omega) (by omega)
    refine ⟨u, ?_, by omega, by omega, hrgb2.trans hrgb, hlin2.trans hlin⟩
    simp only [updateMany, List.foldlM_cons, ht] at hu ⊢
    exact hu

/-! ## configurePointLights: consequences of the closed form -/

theorem configurePointLights_lengths (env : Env) (ms0 : List Mat4) (cs0 : List Vec4)
    (radius separation yOffset : ℚ) :
    (configurePointLights env ms0 cs0 radius separation yOffset).modelMatrices.length
      = ms0.length + totalLights ∧
    (configurePointLights env ms0 cs0 radius separation yOffset).modelColorSizes.length
      = cs0.length + totalLights := by
  obtain ⟨h1, h2, _, _⟩ :=
    configurePointLights_generated env ms0 cs0 radius separation yOffset
  rw [h1, h2]
  simp

/-- The records `configurePointLights` produces from two empty vectors. -/
theorem configurePointLights_getElem? (env : Env) (radius separation yOffset : ℚ)
    (i : Nat) (hi : i < totalLights) :
    (configurePointLights env [] [] radius separation yOffset).modelMatrices[i]?
      = some (cellMatrix env radius separation yOffset (cellX i) (cellZ i) (cellY i) (5 * i)) ∧
    (configurePointLights env [] [] radius separation yOffset).modelColorSizes[i]?
      = some (cellColorSize env radius (5 * i)) := by
  obtain ⟨h1, h2, _, _⟩ :=
    configurePointLights_generated env [] [] radius separation yOffset
  rw [h1, h2]
  simp [List.getElem?_map, List.getElem?_range hi]

/-- The matrix `glm::translate(glm::mat4(1.0f), v)` is the identity with the
translation column `(v.x, v.y, v.z, 1)`. -/
theorem translate_identity (v : Vec3) :
    translate Mat4.identity v =
      ⟨⟨1, 0, 0, 0⟩, ⟨0, 1, 0, 0⟩, ⟨0, 0, 1, 0⟩, ⟨v.x, v.y, v.z, 1⟩⟩ := by
  simp [translate, Mat4.identity, Vec4.scale, Vec4.add]

theorem cellMatrix_centre (env : Env) (radius separation yOffset : ℚ) (x z y k : Nat) :
    (cellMatrix env radius separation yOffset x z y k).centre
      = lightCentre env radius separation yOffset x z y k := by
  simp [cellMatrix, translate_identity, Mat4.centre]

/-- The record of the cell `(x, z, y)` after `configurePointLights` on two
empty vectors. -/
theorem configurePointLights_cell (env : Env) (radius separation yOffset : ℚ)
    (x z y : Nat) (hx : x < LIGHT_GRID_WIDTH) (hz : z < LIGHT_GRID_WIDTH)
    (hy : y < LIGHT_GRID_HEIGHT) :
    (configurePointLights env [] [] radius separation yOffset).modelMatrices[curLight x z y]?
      = some (cellMatrix env radius separation yOffset x z y (5 * curLight x z y)) ∧
    (configurePointLights env [] [] radius separation yOffset).modelColorSizes[curLight x z y]?
      = some (cellColorSize env radius (5 * curLight x z y)) := by
  have h := configurePointLights_getElem? env radius separation yOffset (curLight x z y)
    (curLight_lt x z y hx hz hy)
  rw [cellX_curLight x z y hz hy, cellZ_curLight x z y hz hy, cellY_curLight x z y hy] at h
  exact h

/-! ## Generation followed by an update -/

theorem relocate_centre (separation yOffset : ℚ) (i : Nat) (m : Mat4) :
    (relocate separation yOffset i m).centre
      = idealPosition INITIAL_POINT_LIGHT_RADIUS separation yOffset
          (cellX i) (cellZ i) (cellY i) := rfl

/-- After `configurePointLights` on two empty vectors and then
`updatePointLights`, whatever the arguments of the first and for a separation
of the second that is not negative, every light is at the grid position
computed with the diameter `2 * INITIAL_POINT_LIGHT_RADIUS`. -/
theorem configure_then_update (env : Env) (radius separation yOffset : ℚ)
    (separation2 yOffset2 radius2 : ℚ) (hsep : 0 ≤ separation2) :
    ∃ t, updatePointLights (configurePointLights env [] [] radius separation yOffset)
        separation2 yOffset2 radius2 = some t ∧
      ∀ x z y, x < LIGHT_GRID_WIDTH → z < LIGHT_GRID_WIDTH → y < LIGHT_GRID_HEIGHT →
        (t.modelMatrices[curLight x z y]?).map Mat4.centre
          = some (idealPosition INITIAL_POINT_LIGHT_RADIUS separation2 yOffset2 x z y) := by
  obtain ⟨l1, l2⟩ := configurePointLights_lengths env [] [] radius separation yOffset
  simp only [List.length_nil, Nat.zero_add] at l1 l2
  obtain ⟨t, ⟨h1, _, _, _⟩, ht⟩ := updatePointLights_updated
    (configurePointLights env [] [] radius separation yOffset) separation2 yOffset2 radius2
    hsep (by omega) (by omega)
  refine ⟨uploadMatrices t, ht, ?_⟩
  intro x z y hx hz hy
  have hlt : curLight x z y < totalLights := curLight_lt x z y hx hz hy
  have e1 := h1.getElem? (curLight x z y) hlt (by omega)
  rw [uploadMatrices_modelMatrices, e1, Option.map_some', relocate_centre,
    cellX_curLight x z y hz hy, cellZ_curLight x z y hz hy, cellY_curLight x z y hy]

theorem colorChannel_bounds (r : Nat) : 1 / 2 ≤ colorChannel r ∧ colorChannel r ≤ 1 := by
  unfold colorChannel
  have h0 : (0 : ℚ) ≤ ((r % 100 : Nat) : ℚ) := Nat.cast_nonneg _
  have h1 : ((r % 100 : Nat) : ℚ) ≤ 100 := by
    have : r % 100 ≤ 100 := le_of_lt (Nat.mod_lt r (by decide))
    exact_mod_cast this
  constructor
  · linarith [div_nonneg h0 (by norm_num : (0 : ℚ) ≤ 200)]
  · have : ((r % 100 : Nat) : ℚ) / 200 ≤ 1 / 2 := by
      rw [div_le_iff₀ (by norm_num : (0 : ℚ) < 200)]
      linarith
    linarith

/-! ## The lattice -/

/-- The centre of the light generated for the cell `(x, z, y)`. -/
theorem configurePointLights_centre (env : Env) (radius separation yOffset : ℚ)
    (x z y : Nat) (hx : x < LIGHT_GRID_WIDTH) (hz : z < LIGHT_GRID_WIDTH)
    (hy : y < LIGHT_GRID_HEIGHT) :
    ∃ m, (configurePointLights env [] [] radius separation yOffset).modelMatrices[
          curLight x z y]? = some m ∧
      m.centre = lightCentre env radius separation yOffset x z y (5 * curLight x z y) := by
  obtain ⟨h1, _⟩ := configurePointLights_cell env radius separation yOffset x z y hx hz hy
  exact ⟨_, h1, cellMatrix_centre env radius separation yOffset x z y _⟩

theorem roundingSlack_nonneg (c1 c2 : ℚ) : 0 ≤ roundingSlack c1 c2 :=
  div_nonneg (add_nonneg (abs_nonneg _) (abs_nonneg _)) (by positivity)

theorem chop_roundsLikeFloat : RoundsLikeFloat chop := by
  intro x
  have e : chop x - x = -(x / 2 ^ 24) := by simp only [chop]; ring
  rw [e, abs_neg, abs_div, abs_of_pos (by positivity : (0 : ℚ) < 2 ^ 24)]

/-- The step of the grid: the coordinates of two cells that differ by 1 on an
axis differ by `diameter * separation`. -/
theorem gridCoord_succ_sub (n i : Nat) (diameter separation : ℚ) :
    gridCoord n (i + 1) diameter separation - gridCoord n i diameter separation
      = diameter * separation := by
  simp only [gridCoord]
  push_cast
  ring

/-- Two coordinates within the rounding allowance of one step
`2 * radius * separation` are, for a separation of at least 1 and a radius
that is not negative, at least `2 * radius` less the allowance apart. -/
theorem lower_of_within (radius separation c1 c2 : ℚ) (hsep : 1 ≤ separation)
    (hr : 0 ≤ radius) (h : |c2 - c1 - 2 * radius * separation| ≤ roundingSlack c1 c2) :
    2 * radius - roundingSlack c1 c2 ≤ |c2 - c1| := by
  have h1 : 2 * radius ≤ 2 * radius * separation := by nlinarith
  have h2 := (abs_le.mp h).1
  have h3 := le_abs_self (c2 - c1)
  linarith

/-- Two coordinates exactly one step `2 * radius * separation` apart are
within the rounding allowance of that step. -/
theorem step_within_slack (radius separation c1 c2 : ℚ) (hsep : 1 ≤ separation)
    (hr : 0 ≤ radius) (h : c2 - c1 = 2 * radius * separation) :
    |c2 - c1 - 2 * radius * separation| ≤ roundingSlack c1 c2 ∧
    2 * radius - roundingSlack c1 c2 ≤ |c2 - c1| := by
  have h0 : |c2 - c1 - 2 * radius * separation| ≤ roundingSlack c1 c2 := by
    rw [h, sub_self, abs_zero]
    exact roundingSlack_nonneg c1 c2
  exact ⟨h0, lower_of_within radius separation c1 c2 hsep hr h0⟩

/-- The error of a step computed with rounded products: `p` is the rounded
`ds`, `c1` and `c2` are the rounded products `A1` and `A2` of `p` with two
factors that differ by 1. -/
theorem step_error (A1 A2 c1 c2 p ds : ℚ) (hA : A2 - A1 = p)
    (e0 : |p - ds| ≤ |ds| / 2 ^ 24) (e1 : |c1 - A1| ≤ |A1| / 2 ^ 24)
    (e2 : |c2 - A2| ≤ |A2| / 2 ^ 24) :
    |c2 - c1 - ds| ≤ roundingSlack c1 c2 := by
  have t1 := abs_sub_abs_le_abs_sub A1 c1
  have t2 := abs_sub_abs_le_abs_sub A2 c2
  have t0 := abs_sub_abs_le_abs_sub ds p
  rw [abs_sub_comm] at t1 t2 t0
  have tp : |p| ≤ |A2| + |A1| := by
    rw [← hA]
    exact abs_sub _ _
  have tg : |c2 - c1 - ds| ≤ |c2 - A2| + |c1 - A1| + |p - ds| := by
    have e : c2 - c1 - ds = (c2 - A2) + (-(c1 - A1)) + (p - ds) := by rw [← hA]; ring
    rw [e]
    calc |c2 - A2 + -(c1 - A1) + (p - ds)|
        ≤ |c2 - A2| + |-(c1 - A1)| + |p - ds| := abs_add_three _ _ _
      _ = |c2 - A2| + |c1 - A1| + |p - ds| := by rw [abs_neg]
  have n1 := abs_nonneg c1
  have n2 := abs_nonneg c2
  unfold roundingSlack
  rw [le_div_iff₀ (by positivity)]
  norm_num at e0 e1 e2 ⊢
  linarith

/-- The error of a step computed with rounded products and a rounded sum with
an offset `o`, for factors `a` and `a + 1` between -1 and 1. -/
theorem step_error_offset (a p ds o q1 q2 c1 c2 : ℚ) (ha0 : -1 ≤ a) (ha1 : a ≤ 0)
    (e0 : |p - ds| ≤ |ds| / 2 ^ 24)
    (e1 : |q1 - a * p| ≤ |a * p| / 2 ^ 24)
    (e2 : |q2 - (a + 1) * p| ≤ |(a + 1) * p| / 2 ^ 24)
    (f1 : |c1 - (q1 + o)| ≤ |q1 + o| / 2 ^ 24)
    (f2 : |c2 - (q2 + o)| ≤ |q2 + o| / 2 ^ 24) :
    |c2 - c1 - ds| ≤ roundingSlack c1 c2 := by
  have np := abs_nonneg p
  have a1 : |a * p| ≤ |p| := by
    rw [abs_mul]
    have : |a| ≤ 1 := abs_le.mpr ⟨ha0, by linarith⟩
    calc |a| * |p| ≤ 1 * |p| := mul_le_mul_of_nonneg_right this np
      _ = |p| := one_mul _
  have a2 : |(a + 1) * p| ≤ |p| := by
    rw [abs_mul]
    have : |a + 1| ≤ 1 := abs_le.mpr ⟨by linarith, by linarith⟩
    calc |a + 1| * |p| ≤ 1 * |p| := mul_le_mul_of_nonneg_right this np
      _ = |p| := one_mul _
  have s1 := abs_sub_abs_le_abs_sub (q1 + o) c1
  have s2 := abs_sub_abs_le_abs_sub (q2 + o) c2
  have t0 := abs_sub_abs_le_abs_sub ds p
  rw [abs_sub_comm] at s1 s2 t0
  have tp : |p| ≤ |q2 + o| + |q1 + o| + |q2 - (a + 1) * p| + |q1 - a * p| := by
    have e : p = (q2 + o) + (-(q1 + o)) + (-(q2 - (a + 1) * p)) + (q1 - a * p) := by ring
    calc |p| = |(q2 + o) + (-(q1 + o)) + (-(q2 - (a + 1) * p)) + (q1 - a * p)| := by rw [← e]
      _ ≤ |(q2 + o) + (-(q1 + o)) + (-(q2 - (a + 1) * p))| + |q1 - a * p| := abs_add _ _
      _ ≤ |q2 + o| + |-(q1 + o)| + |-(q2 - (a + 1) * p)| + |q1 - a * p| := by
          have := abs_add_three (q2 + o) (-(q1 + o)) (-(q2 - (a + 1) * p))
          linarith
      _ = |q2 + o| + |q1 + o| + |q2 - (a + 1) * p| + |q1 - a * p| := by
          rw [abs_neg, abs_neg]
  have tg : |c2 - c1 - ds|
      ≤ |c2 - (q2 + o)| + |c1 - (q1 + o)| + |q2 - (a + 1) * p| + |q1 - a * p| + |p - ds| := by
    have e : c2 - c1 - ds = (c2 - (q2 + o)) + (-(c1 - (q1 + o))) + (q2 - (a + 1) * p)
        + (-(q1 - a * p)) + (p - ds) := by ring
    rw [e]
    have h1 := abs_add ((c2 - (q2 + o)) + (-(c1 - (q1 + o))) + (q2 - (a + 1) * p)
        + (-(q1 - a * p))) (p - ds)
    have h2 := abs_add ((c2 - (q2 + o)) + (-(c1 - (q1 + o))) + (q2 - (a + 1) * p))
        (-(q1 - a * p))
    have h3 := abs_add_three (c2 - (q2 + o)) (-(c1 - (q1 + o))) (q2 - (a + 1) * p)
    rw [abs_neg] at h2 h3
    linarith
  have n1 := abs_nonneg c1
  have n2 := abs_nonneg c2
  unfold roundingSlack
  rw [le_div_iff₀ (by positivity)]
  norm_num at e0 e1 e2 f1 f2 ⊢
  linarith

/-- With rounded products the coordinates of two cells that differ by 1 on an
axis differ by the step `diameter * separation` within the allowance. -/
theorem gridCoordRounded_step (fl : ℚ → ℚ) (hfl : RoundsLikeFloat fl) (n i : Nat)
    (diameter separation : ℚ) :
    |gridCoordRounded fl n (i + 1) diameter separation
        - gridCoordRounded fl n i diameter separation - diameter * separation|
      ≤ roundingSlack (gridCoordRounded fl n i diameter separation)
          (gridCoordRounded fl n (i + 1) diameter separation) := by
  apply step_error (((i : ℚ) - ((n : ℚ) - 1) / 2) * fl (diameter * separation))
    ((((i + 1 : Nat) : ℚ) - ((n : ℚ) - 1) / 2) * fl (diameter * separation)) _ _
    (fl (diameter * separation)) (diameter * separation)
  · push_cast
    ring
  · exact hfl _
  · exact hfl _
  · exact hfl _

/-- With rounded products and a rounded sum with the vertical offset the y
coordinates of two cells that differ by 1 along y differ by the step
`diameter * separation` within the allowance. -/
theorem yPosRounded_step (fl : ℚ → ℚ) (hfl : RoundsLikeFloat fl) (i : Nat)
    (hi : i + 1 < LIGHT_GRID_HEIGHT) (diameter separation yOffset : ℚ) :
    |yPosRounded fl (i + 1) diameter separation yOffset
        - yPosRounded fl i diameter separation yOffset - diameter * separation|
      ≤ roundingSlack (yPosRounded fl i diameter separation yOffset)
          (yPosRounded fl (i + 1) diameter separation yOffset) := by
  have hi1 : (i : ℚ) ≤ 1 := by
    have : i ≤ 1 := by simp only [LIGHT_GRID_HEIGHT] at hi; omega
    exact_mod_cast this
  have hi0 : (0 : ℚ) ≤ (i : ℚ) := Nat.cast_nonneg i
  have hH : ((LIGHT_GRID_HEIGHT : ℚ) - 1) / 2 = 1 := by norm_num [LIGHT_GRID_HEIGHT]
  have ea : (((i + 1 : Nat) : ℚ) - ((LIGHT_GRID_HEIGHT : ℚ) - 1) / 2)
      = ((i : ℚ) - ((LIGHT_GRID_HEIGHT : ℚ) - 1) / 2) + 1 := by
    push_cast
    ring
  unfold yPosRounded gridCoordRounded
  rw [ea]
  apply step_error_offset ((i : ℚ) - ((LIGHT_GRID_HEIGHT : ℚ) - 1) / 2)
    (fl (diameter * separation)) (diameter * separation) yOffset
  · rw [hH]; linarith
  · rw [hH]; linarith
  · exact hfl _
  · exact hfl _
  · exact hfl _
  · exact hfl _
  · exact hfl _

/-- The y coordinates of the centres generated for two cells that differ by 1
along y are one step apart, and the distance of the centres is at least their
difference. -/
theorem lightCentre_step_y (env : Env) (radius separation yOffset : ℚ)
    (x z y k k' : Nat) :
    (lightCentre env radius separation yOffset x z (y + 1) k').y
        - (lightCentre env radius separation yOffset x z y k).y
      = 2 * radius * separation ∧
    ((lightCentre env radius separation yOffset x z (y + 1) k').y
        - (lightCentre env radius separation yOffset x z y k).y) ^ 2
      ≤ distSq (lightCentre env radius separation yOffset x z y k)
          (lightCentre env radius separation yOffset x z (y + 1) k') := by
  constructor
  · simp only [lightCentre, idealPosition]
    rw [add_sub_add_right_eq_sub, gridCoord_succ_sub]
  · simp only [distSq]
    nlinarith [sq_nonneg ((lightCentre env radius separation yOffset x z y k).x
        - (lightCentre env radius separation yOffset x z (y + 1) k').x),
      sq_nonneg ((lightCentre env radius separation yOffset x z y k).z
        - (lightCentre env radius separation yOffset x z (y + 1) k').z)]

/-! ## The claims -/

theorem sampleLights_modelMatrices_length :
    sampleLights.modelMatrices.length
      = LIGHT_GRID_WIDTH * LIGHT_GRID_WIDTH * LIGHT_GRID_HEIGHT := by
  show (List.replicate 300 Mat4.identity).length = _
  rw [List.length_replicate]
  rfl

theorem sampleLights_modelColorSizes_length :
    sampleLights.modelColorSizes.length
      = LIGHT_GRID_WIDTH * LIGHT_GRID_WIDTH * LIGHT_GRID_HEIGHT := by
  show (List.replicate 300 (⟨1, 1, 1, 1⟩ : Vec4)).length = _
  rw [List.length_replicate]
  rfl

/-- C1: for a separation that is not negative and two vectors of
`LIGHT_GRID_WIDTH * LIGHT_GRID_WIDTH * LIGHT_GRID_HEIGHT` elements (10, 10
and 3), `updatePointLights` completes, and for every cell `(x, z, y)` of the
grid the matrix at index `x * W * H + z * H + y` has the translation column
`((x - (W-1)/2) * d * separation, (y - (H-1)/2) * d * separation + yOffset,
(z - (W-1)/2) * d * separation, 1)` with `d = 2 * INITIAL_POINT_LIGHT_RADIUS
= 2 * 0.663`, whatever the radius argument, and the colour/size record at
that index has the radius argument as its fourth component. -/
theorem updatePointLights_positions (s : Lights) (separation yOffset radius : ℚ)
    (hsep : 0 ≤ separation)
    (hm : s.modelMatrices.length = LIGHT_GRID_WIDTH * LIGHT_GRID_WIDTH * LIGHT_GRID_HEIGHT)
    (hc : s.modelColorSizes.length = LIGHT_GRID_WIDTH * LIGHT_GRID_WIDTH * LIGHT_GRID_HEIGHT) :
    LIGHT_GRID_WIDTH = 10 ∧ LIGHT_GRID_HEIGHT = 3 ∧ INITIAL_POINT_LIGHT_RADIUS = 663 / 1000 ∧
    ∃ t, updatePointLights s separation yOffset radius = some t ∧
      ∀ x z y, x < LIGHT_GRID_WIDTH → z < LIGHT_GRID_WIDTH → y < LIGHT_GRID_HEIGHT →
        ∃ m c,
          t.modelMatrices[x * LIGHT_GRID_WIDTH * LIGHT_GRID_HEIGHT
            + z * LIGHT_GRID_HEIGHT + y]? = some m ∧
          t.modelColorSizes[x * LIGHT_GRID_WIDTH * LIGHT_GRID_HEIGHT
            + z * LIGHT_GRID_HEIGHT + y]? = some c ∧
          m.c3 =
            ⟨((x : ℚ) - ((LIGHT_GRID_WIDTH : ℚ) - 1) / 2)
                * (2 * INITIAL_POINT_LIGHT_RADIUS) * separation,
             ((y : ℚ) - ((LIGHT_GRID_HEIGHT : ℚ) - 1) / 2)
                * (2 * INITIAL_POINT_LIGHT_RADIUS) * separation + yOffset,
             ((z : ℚ) - ((LIGHT_GRID_WIDTH : ℚ) - 1) / 2)
                * (2 * INITIAL_POINT_LIGHT_RADIUS) * separation,
             1⟩ ∧
          c.w = radius := by
  refine ⟨rfl, rfl, rfl, ?_⟩
  have hm2 : totalLights ≤ s.modelMatrices.length := by rw [hm]; exact le_refl _
  have hc2 : totalLights ≤ s.modelColorSizes.length := by rw [hc]; exact le_refl _
  obtain ⟨t, ⟨h1, h2, _, _⟩, ht⟩ :=
    updatePointLights_updated s separation yOffset radius hsep hm2 hc2
  refine ⟨uploadMatrices t, ht, ?_⟩
  intro x z y hx hz hy
  have hlt : curLight x z y < totalLights := curLight_lt x z y hx hz hy
  have e1 := h1.getElem? (curLight x z y) hlt (by omega)
  have e2 := h2.getElem? (curLight x z y) hlt (by omega)
  refine ⟨_, _, e1, e2, ?_, rfl⟩
  simp only [relocate, Mat4.setTranslation, updatedTranslation, cellX_curLight x z y hz hy,
    cellZ_curLight x z y hz hy, cellY_curLight x z y hy, gridCoord, Vec4.mk.injEq]
  refine ⟨by ring, by ring, by ring, trivial⟩

/-- Witness of C1: the update of `sampleLights` with separation 0.67, vertical
offset 0.636 and radius 2 puts the light of the cell `(0, 0, 0)` at
`(-3.99789, -0.25242, -3.99789)` and gives it the radius 2. -/
theorem updatePointLights_positions_witness :
    (0 : ℚ) ≤ 67 / 100 ∧
    sampleLights.modelMatrices.length
      = LIGHT_GRID_WIDTH * LIGHT_GRID_WIDTH * LIGHT_GRID_HEIGHT ∧
    sampleLights.modelColorSizes.length
      = LIGHT_GRID_WIDTH * LIGHT_GRID_WIDTH * LIGHT_GRID_HEIGHT ∧
    ∃ t, updatePointLights sampleLights (67 / 100) (636 / 1000) 2 = some t ∧
      ∃ m c, t.modelMatrices[0]? = some m ∧ t.modelColorSizes[0]? = some c ∧
        m.c3 = ⟨-399789 / 100000, -25242 / 100000, -399789 / 100000, 1⟩ ∧ c.w = 2 := by
  have hm := sampleLights_modelMatrices_length
  have hc := sampleLights_modelColorSizes_length
  refine ⟨by norm_num, hm, hc, ?_⟩
  obtain ⟨_, _, _, t, ht, hcells⟩ :=
    updatePointLights_positions sampleLights (67 / 100) (636 / 1000) 2 (by norm_num) hm hc
  obtain ⟨m, c, e1, e2, e3, e4⟩ := hcells 0 0 0 (by decide) (by decide) (by decide)
  refine ⟨t, ht, m, c, e1, e2, ?_, e4⟩
  rw [e3]
  norm_num [LIGHT_GRID_WIDTH, LIGHT_GRID_HEIGHT, INITIAL_POINT_LIGHT_RADIUS]

/-- C2: with a negative separation `updatePointLights` returns at once: the
result is the state it was called in, so every matrix and every colour/size
record is unchanged and no OpenGL call (no buffer upload) is added to the trace. -/
theorem updatePointLights_negative_separation (s : Lights)
    (separation yOffset radius : ℚ) (hsep : separation < 0) :
    updatePointLights s separation yOffset radius = some s :=
  updatePointLights_of_neg s separation yOffset radius hsep

/-- Witness of C2: the separation -1 on `sampleLights`. -/
theorem updatePointLights_negative_separation_witness :
    (-1 : ℚ) < 0 ∧ updatePointLights sampleLights (-1) (636 / 1000) 2 = some sampleLights :=
  ⟨by norm_num,
    updatePointLights_negative_separation sampleLights (-1) (636 / 1000) 2 (by norm_num)⟩

/-- C3: every finite sequence of calls of `updatePointLights`, with any
arguments, on two vectors of `LIGHT_GRID_WIDTH * LIGHT_GRID_WIDTH *
LIGHT_GRID_HEIGHT` elements completes and leaves the R, G and B components of
every colour/size record, and the columns 0, 1 and 2 of every matrix, as they
were before the first call: only the translation columns and the fourth
components can differ. -/
theorem updatePointLights_preserves_colour (s : Lights) (calls : List (ℚ × ℚ × ℚ))
    (hm : s.modelMatrices.length = LIGHT_GRID_WIDTH * LIGHT_GRID_WIDTH * LIGHT_GRID_HEIGHT)
    (hc : s.modelColorSizes.length = LIGHT_GRID_WIDTH * LIGHT_GRID_WIDTH * LIGHT_GRID_HEIGHT) :
    ∃ t, updateMany s calls = some t ∧
      t.modelColorSizes.map Vec4.rgb = s.modelColorSizes.map Vec4.rgb ∧
      t.modelMatrices.map Mat4.linearPart = s.modelMatrices.map Mat4.linearPart := by
  have hm2 : totalLights ≤ s.modelMatrices.length := by rw [hm]; exact le_refl _
  have hc2 : totalLights ≤ s.modelColorSizes.length := by rw [hc]; exact le_refl _
  obtain ⟨t, ht, _, _, hrgb, hlin⟩ := updateMany_frame calls s hm2 hc2
  exact ⟨t, ht, hrgb, hlin⟩

/-- Witness of C3: three calls on `sampleLights`, the second with a negative
separation. -/
theorem updatePointLights_preserves_colour_witness :
    sampleLights.modelMatrices.length
      = LIGHT_GRID_WIDTH * LIGHT_GRID_WIDTH * LIGHT_GRID_HEIGHT ∧
    sampleLights.modelColorSizes.length
      = LIGHT_GRID_WIDTH * LIGHT_GRID_WIDTH * LIGHT_GRID_HEIGHT ∧
    ∃ t, updateMany sampleLights [(1, 0, 2), (-1, 3, 5), (67 / 100, 636 / 1000, 1)] = some t ∧
      t.modelColorSizes.map Vec4.rgb = sampleLights.modelColorSizes.map Vec4.rgb ∧
      t.modelMatrices.map Mat4.linearPart = sampleLights.modelMatrices.map Mat4.linearPart := by
  have hm := sampleLights_modelMatrices_length
  have hc := sampleLights_modelColorSizes_length
  exact ⟨hm, hc, updatePointLights_preserves_colour sampleLights _ hm hc⟩

/-- C4: called with two empty vectors, `configurePointLights` produces exactly
`LIGHT_GRID_WIDTH * LIGHT_GRID_WIDTH * LIGHT_GRID_HEIGHT = 300` matrices and as
many colour/size records, for every radius, separation, vertical offset and
stream of random values. -/
theorem configurePointLights_count (env : Env) (radius separation yOffset : ℚ) :
    (configurePointLights env [] [] radius separation yOffset).modelMatrices.length
      = LIGHT_GRID_WIDTH * LIGHT_GRID_WIDTH * LIGHT_GRID_HEIGHT ∧
    (configurePointLights env [] [] radius separation yOffset).modelColorSizes.length
      = LIGHT_GRID_WIDTH * LIGHT_GRID_WIDTH * LIGHT_GRID_HEIGHT ∧
    LIGHT_GRID_WIDTH * LIGHT_GRID_WIDTH * LIGHT_GRID_HEIGHT = 300 := by
  obtain ⟨h1, h2⟩ := configurePointLights_lengths env [] [] radius separation yOffset
  refine ⟨?_, ?_, rfl⟩
  · rw [h1]; simp [totalLights]
  · rw [h2]; simp [totalLights]

/-- C5: for every width `W > 0` and height `H > 0` the index formula
`(x, z, y) ↦ x * W * H + z * H + y` is a bijection from the cells
`[0, W) × [0, W) × [0, H)` onto the indices `[0, W * W * H)`: two cells with
the same index are equal, the index of a cell is below `W * W * H`, and every
index below `W * W * H` is the index of a cell. -/
theorem curLightAt_bijection (W H : Nat) (hW : 0 < W) (hH : 0 < H) :
    (∀ x z y x' z' y', x < W → z < W → y < H → x' < W → z' < W → y' < H →
      curLightAt W H x z y = curLightAt W H x' z' y' → x = x' ∧ z = z' ∧ y = y') ∧
    (∀ x z y, x < W → z < W → y < H → curLightAt W H x z y < W * W * H) ∧
    (∀ i, i < W * W * H →
      ∃ x z y, x < W ∧ z < W ∧ y < H ∧ curLightAt W H x z y = i) := by
  refine ⟨?_, ?_, ?_⟩
  · intro x z y x' z' y' _ hz hy _ hz' hy' h
    refine ⟨?_, ?_, ?_⟩
    · rw [← curLightAt_div W H x z y hz hy, h, curLightAt_div W H x' z' y' hz' hy']
    · rw [← curLightAt_div_mod W H x z y hz hy, h, curLightAt_div_mod W H x' z' y' hz' hy']
    · rw [← curLightAt_mod W H x z y hy, h, curLightAt_mod W H x' z' y' hy']
  · intro x z y hx hz hy
    exact curLightAt_lt W H x z y hx hz hy
  · intro i hi
    obtain ⟨h1, h2, h3⟩ := decode_lt W H i hH hW hi
    exact ⟨i / (W * H), i / H % W, i % H, h1, h2, h3, curLightAt_decode W H i⟩

/-- Witness of C5: the grid of the program, `W = 10` and `H = 3`; the cells
`(1, 2, 0)` and `(1, 1, 2)` have different indices, and the index 299 is the
index of a cell. -/
theorem curLightAt_bijection_witness :
    0 < 10 ∧ 0 < 3 ∧
    (curLightAt 10 3 1 2 0 = curLightAt 10 3 1 1 2 → 1 = 1 ∧ 2 = 1 ∧ 0 = 2) ∧
    curLightAt 10 3 9 9 2 < 10 * 10 * 3 ∧
    ∃ x z y, x < 10 ∧ z < 10 ∧ y < 3 ∧ curLightAt 10 3 x z y = 299 :=
  ⟨by decide, by decide,
    (curLightAt_bijection 10 3 (by decide) (by decide)).1 1 2 0 1 1 2
      (by decide) (by decide) (by decide) (by decide) (by decide) (by decide),
    (curLightAt_bijection 10 3 (by decide) (by decide)).2.1 9 9 2
      (by decide) (by decide) (by decide),
    (curLightAt_bijection 10 3 (by decide) (by decide)).2.2 299 (by decide)⟩

/-- C6, the claim as stated fails: with radius 1, separation 1 and vertical
offset 0 (and a stream of random values that gives no jitter), generation and
then the update with the same arguments leaves the light of the cell
`(0, 0, 0)` at `(-5.967, -1.326, -5.967)`, while the position the generator
computed for it before the jitter is `(-9, -2, -9)`. -/
theorem roundTrip_counterexample :
    (0 : ℚ) ≤ 1 ∧
    ∃ t, updatePointLights (configurePointLights zeroEnv [] [] 1 1 0) 1 0 1 = some t ∧
      (t.modelMatrices[curLight 0 0 0]?).map Mat4.centre
        = some ⟨-5967 / 1000, -1326 / 1000, -5967 / 1000⟩ ∧
      idealPosition 1 1 0 0 0 0 = ⟨-9, -2, -9⟩ ∧
      (t.modelMatrices[curLight 0 0 0]?).map Mat4.centre
        ≠ some (idealPosition 1 1 0 0 0 0) := by
  obtain ⟨t, ht, hcells⟩ := configure_then_update zeroEnv 1 1 0 1 0 1 (by norm_num)
  have h0 := hcells 0 0 0 (by decide) (by decide) (by decide)
  have hi : idealPosition INITIAL_POINT_LIGHT_RADIUS 1 0 0 0 0
      = ⟨-5967 / 1000, -1326 / 1000, -5967 / 1000⟩ := by
    norm_num [idealPosition, gridCoord, INITIAL_POINT_LIGHT_RADIUS, LIGHT_GRID_WIDTH,
      LIGHT_GRID_HEIGHT]
  have hj : idealPosition 1 1 0 0 0 0 = ⟨-9, -2, -9⟩ := by
    norm_num [idealPosition, gridCoord, LIGHT_GRID_WIDTH, LIGHT_GRID_HEIGHT]
  refine ⟨by norm_num, t, ht, ?_, hj, ?_⟩
  · rw [h0, hi]
  · rw [h0, hi, hj]
    norm_num

/-- C6, amended: for every separation that is not negative and every vertical
offset, when the radius is `INITIAL_POINT_LIGHT_RADIUS` (the radius `main`
generates with) or the separation is 0, `configurePointLights` on two empty
vectors followed by `updatePointLights` with the same separation, vertical
offset and radius completes and leaves every light at the position the
generator computed for it before adding the jitter. -/
theorem roundTrip_initial_radius (env : Env) (radius separation yOffset : ℚ)
    (hsep : 0 ≤ separation)
    (hr : radius = INITIAL_POINT_LIGHT_RADIUS ∨ separation = 0) :
    ∃ t, updatePointLights (configurePointLights env [] [] radius separation yOffset)
        separation yOffset radius = some t ∧
      ∀ x z y, x < LIGHT_GRID_WIDTH → z < LIGHT_GRID_WIDTH → y < LIGHT_GRID_HEIGHT →
        (t.modelMatrices[x * LIGHT_GRID_WIDTH * LIGHT_GRID_HEIGHT
            + z * LIGHT_GRID_HEIGHT + y]?).map Mat4.centre
          = some (idealPosition radius separation yOffset x z y) := by
  obtain ⟨t, ht, hcells⟩ :=
    configure_then_update env radius separation yOffset separation yOffset radius hsep
  refine ⟨t, ht, ?_⟩
  intro x z y hx hz hy
  have h := hcells x z y hx hz hy
  have hi : idealPosition INITIAL_POINT_LIGHT_RADIUS separation yOffset x z y
      = idealPosition radius separation yOffset x z y := by
    rcases hr with hr | hr
    · rw [hr]
    · simp [idealPosition, gridCoord, hr]
  rw [← hi]
  exact h

/-- Witness of C6, amended: the arguments of `main`, radius 0.663, separation
0.67 and vertical offset 0.636; the light of the cell `(0, 0, 0)` ends at
`(-3.99789, -0.25242, -3.99789)`. -/
theorem roundTrip_initial_radius_witness :
    (0 : ℚ) ≤ 67 / 100 ∧
    ((663 / 1000 : ℚ) = INITIAL_POINT_LIGHT_RADIUS ∨ (67 / 100 : ℚ) = 0) ∧
    ∃ t, updatePointLights
        (configurePointLights zeroEnv [] [] (663 / 1000) (67 / 100) (636 / 1000))
        (67 / 100) (636 / 1000) (663 / 1000) = some t ∧
      (t.modelMatrices[0]?).map Mat4.centre
        = some ⟨-399789 / 100000, -25242 / 100000, -399789 / 100000⟩ := by
  obtain ⟨t, ht, hcells⟩ := roundTrip_initial_radius zeroEnv (663 / 1000) (67 / 100)
    (636 / 1000) (by norm_num) (Or.inl rfl)
  refine ⟨by norm_num, Or.inl rfl, t, ht, ?_⟩
  have h0 := hcells 0 0 0 (by decide) (by decide) (by decide)
  simp only [Nat.zero_mul, Nat.zero_add] at h0
  rw [h0]
  norm_num [idealPosition, gridCoord, LIGHT_GRID_WIDTH, LIGHT_GRID_HEIGHT]

/-- C7: for every value `r` that `rand()` can return, the colour channel
`(r % 100) / 200 + 0.5` is in the closed interval `[0.5, 1.0]`; hence the R,
G and B components of every record generated by `configurePointLights` are in
`[0.5, 1.0]`. -/
theorem colour_channels_in_range :
    (∀ r : Nat, 1 / 2 ≤ colorChannel r ∧ colorChannel r ≤ 1) ∧
    ∀ (env : Env) (radius separation yOffset : ℚ) (i : Nat),
      i < LIGHT_GRID_WIDTH * LIGHT_GRID_WIDTH * LIGHT_GRID_HEIGHT →
      ∃ c, (configurePointLights env [] [] radius separation yOffset).modelColorSizes[i]?
          = some c ∧
        (1 / 2 ≤ c.x ∧ c.x ≤ 1) ∧ (1 / 2 ≤ c.y ∧ c.y ≤ 1) ∧ (1 / 2 ≤ c.z ∧ c.z ≤ 1) := by
  refine ⟨colorChannel_bounds, ?_⟩
  intro env radius separation yOffset i hi
  obtain ⟨_, h2⟩ := configurePointLights_getElem? env radius separation yOffset i hi
  exact ⟨_, h2, colorChannel_bounds _, colorChannel_bounds _, colorChannel_bounds _⟩

/-- Witness of C7: the value 32767 of `rand()`, and the record of index 299
generated with the arguments of `main`. -/
theorem colour_channels_in_range_witness :
    (1 / 2 ≤ colorChannel 32767 ∧ colorChannel 32767 ≤ 1) ∧
    299 < LIGHT_GRID_WIDTH * LIGHT_GRID_WIDTH * LIGHT_GRID_HEIGHT ∧
    ∃ c, (configurePointLights pushEnv [] [] (663 / 1000) (67 / 100)
          (636 / 1000)).modelColorSizes[299]? = some c ∧
      (1 / 2 ≤ c.x ∧ c.x ≤ 1) ∧ (1 / 2 ≤ c.y ∧ c.y ≤ 1) ∧ (1 / 2 ≤ c.z ∧ c.z ≤ 1) :=
  ⟨colour_channels_in_range.1 32767, by decide,
    colour_channels_in_range.2 pushEnv (663 / 1000) (67 / 100) (636 / 1000) 299 (by decide)⟩

/-- C8, the claim as stated fails: with radius 0.663, separation 1 and
vertical offset 0, and a stream of random values that gives the first light
the jitter of angle 0 and length 0.5 and every other light no jitter, the
lights of the cells `(0, 0, 0)` and `(1, 0, 0)`, neighbours along x, have the
centres `(-5.467, -1.326, -5.967)` and `(-4.641, -1.326, -5.967)`: their
distance 0.826 is less than `2 * radius = 1.326`. -/
theorem lattice_counterexample :
    (1 : ℚ) ≤ 1 ∧ (0 : ℚ) ≤ 663 / 1000 ∧
    ∃ a b,
      (configurePointLights pushEnv [] [] (663 / 1000) 1 0).modelMatrices[curLight 0 0 0]?
        = some a ∧
      (configurePointLights pushEnv [] [] (663 / 1000) 1 0).modelMatrices[curLight 1 0 0]?
        = some b ∧
      a.centre = ⟨-5467 / 1000, -1326 / 1000, -5967 / 1000⟩ ∧
      b.centre = ⟨-4641 / 1000, -1326 / 1000, -5967 / 1000⟩ ∧
      distSq a.centre b.centre = (826 / 1000) ^ 2 ∧
      distSq a.centre b.centre < (2 * (663 / 1000)) ^ 2 := by
  obtain ⟨a, ha, hac⟩ := configurePointLights_centre pushEnv (663 / 1000) 1 0 0 0 0
    (by decide) (by decide) (by decide)
  obtain ⟨b, hb, hbc⟩ := configurePointLights_centre pushEnv (663 / 1000) 1 0 1 0 0
    (by decide) (by decide) (by decide)
  have ea : a.centre = ⟨-5467 / 1000, -1326 / 1000, -5967 / 1000⟩ := by
    rw [hac]
    norm_num [lightCentre, idealPosition, jitter, gridCoord, pushEnv, jitterAngle,
      jitterLength, cosApprox, sinApprox, curLight, curLightAt, LIGHT_GRID_WIDTH,
      LIGHT_GRID_HEIGHT]
  have eb : b.centre = ⟨-4641 / 1000, -1326 / 1000, -5967 / 1000⟩ := by
    rw [hbc]
    norm_num [lightCentre, idealPosition, jitter, gridCoord, pushEnv, jitterAngle,
      jitterLength, cosApprox, sinApprox, curLight, curLightAt, LIGHT_GRID_WIDTH,
      LIGHT_GRID_HEIGHT]
  refine ⟨by norm_num, by norm_num, a, b, ha, hb, ea, eb, ?_, ?_⟩
  · rw [ea, eb]; norm_num [distSq]
  · rw [ea, eb]; norm_num [distSq]

/-- C8, amended: for every separation of at least 1, radius that is not
negative, vertical offset and stream of random values, with the allowance
`roundingSlack c1 c2 = 2 ^ -20 * (|c1| + |c2|)` for the rounding of the
binary32 arithmetic of the source.  (1) The centres generated for two cells
that differ by 1 along y have y coordinates that differ by
`2 * radius * separation` within the allowance, hence by at least `2 * radius`
less the allowance, and the distance of the centres is at least the difference
of their y coordinates.  (2) The positions `configurePointLights` computes
before the jitter form the lattice of step `2 * radius * separation`: for two
cells that differ by 1 along x, y or z the coordinates on that axis differ by
the step within the allowance, hence by at least `2 * radius` less the
allowance, and the other two coordinates are equal.  (3) Each generated centre
is that position plus the jitter on x and z, so that the centres of neighbours
along x or z can be closer than `2 * radius`.  (4) The bounds of (1) and (2)
hold as well for the coordinates computed with a rounding after every `float`
operation, whatever rounding with a relative error of at most `2 ^ -24` is
used: `gridCoordRounded` on x and z, `yPosRounded` on y.  In (1), (2) and (3)
exact rational arithmetic stands for `float`. -/
theorem lattice_up_to_rounding (env : Env) (radius separation yOffset : ℚ)
    (hsep : 1 ≤ separation) (hr : 0 ≤ radius) :
    (∀ x z y, x < LIGHT_GRID_WIDTH → z < LIGHT_GRID_WIDTH → y + 1 < LIGHT_GRID_HEIGHT →
      ∃ a b,
        (configurePointLights env [] [] radius separation yOffset).modelMatrices[
            curLight x z y]? = some a ∧
        (configurePointLights env [] [] radius separation yOffset).modelMatrices[
            curLight x z (y + 1)]? = some b ∧
        |b.centre.y - a.centre.y - 2 * radius * separation|
          ≤ roundingSlack a.centre.y b.centre.y ∧
        2 * radius - roundingSlack a.centre.y b.centre.y ≤ |b.centre.y - a.centre.y| ∧
        (b.centre.y - a.centre.y) ^ 2 ≤ distSq a.centre b.centre) ∧
    (∀ x z y,
      (|(idealPosition radius separation yOffset (x + 1) z y).x
            - (idealPosition radius separation yOffset x z y).x - 2 * radius * separation|
          ≤ roundingSlack (idealPosition radius separation yOffset x z y).x
              (idealPosition radius separation yOffset (x + 1) z y).x ∧
        2 * radius - roundingSlack (idealPosition radius separation yOffset x z y).x
              (idealPosition radius separation yOffset (x + 1) z y).x
          ≤ |(idealPosition radius separation yOffset (x + 1) z y).x
              - (idealPosition radius separation yOffset x z y).x| ∧
        (idealPosition radius separation yOffset (x + 1) z y).y
          = (idealPosition radius separation yOffset x z y).y ∧
        (idealPosition radius separation yOffset (x + 1) z y).z
          = (idealPosition radius separation yOffset x z y).z) ∧
      (|(idealPosition radius separation yOffset x (z + 1) y).z
            - (idealPosition radius separation yOffset x z y).z - 2 * radius * separation|
          ≤ roundingSlack (idealPosition radius separation yOffset x z y).z
              (idealPosition radius separation yOffset x (z + 1) y).z ∧
        2 * radius - roundingSlack (idealPosition radius separation yOffset x z y).z
              (idealPosition radius separation yOffset x (z + 1) y).z
          ≤ |(idealPosition radius separation yOffset x (z + 1) y).z
              - (idealPosition radius separation yOffset x z y).z| ∧
        (idealPosition radius separation yOffset x (z + 1) y).x
          = (idealPosition radius separation yOffset x z y).x ∧
        (idealPosition radius separation yOffset x (z + 1) y).y
          = (idealPosition radius separation yOffset x z y).y) ∧
      (|(idealPosition radius separation yOffset x z (y + 1)).y
            - (idealPosition radius separation yOffset x z y).y - 2 * radius * separation|
          ≤ roundingSlack (idealPosition radius separation yOffset x z y).y
              (idealPosition radius separation yOffset x z (y + 1)).y ∧
        2 * radius - roundingSlack (idealPosition radius separation yOffset x z y).y
              (idealPosition radius separation yOffset x z (y + 1)).y
          ≤ |(idealPosition radius separation yOffset x z (y + 1)).y
              - (idealPosition radius separation yOffset x z y).y| ∧
        (idealPosition radius separation yOffset x z (y + 1)).x
          = (idealPosition radius separation yOffset x z y).x ∧
        (idealPosition radius separation yOffset x z (y + 1)).z
          = (idealPosition radius separation yOffset x z y).z)) ∧
    (∀ x z y, x < LIGHT_GRID_WIDTH → z < LIGHT_GRID_WIDTH → y < LIGHT_GRID_HEIGHT →
      ∃ a,
        (configurePointLights env [] [] radius separation yOffset).modelMatrices[
            curLight x z y]? = some a ∧
        a.centre =
          ⟨(idealPosition radius separation yOffset x z y).x
              + (jitter env (5 * curLight x z y)).1,
           (idealPosition radius separation yOffset x z y).y,
           (idealPosition radius separation yOffset x z y).z
              + (jitter env (5 * curLight x z y)).2⟩) ∧
    (∀ fl : ℚ → ℚ, RoundsLikeFloat fl →
      (∀ i : Nat,
        |gridCoordRounded fl LIGHT_GRID_WIDTH (i + 1) (2 * radius) separation
            - gridCoordRounded fl LIGHT_GRID_WIDTH i (2 * radius) separation
            - 2 * radius * separation|
          ≤ roundingSlack (gridCoordRounded fl LIGHT_GRID_WIDTH i (2 * radius) separation)
              (gridCoordRounded fl LIGHT_GRID_WIDTH (i + 1) (2 * radius) separation) ∧
        2 * radius
            - roundingSlack (gridCoordRounded fl LIGHT_GRID_WIDTH i (2 * radius) separation)
              (gridCoordRounded fl LIGHT_GRID_WIDTH (i + 1) (2 * radius) separation)
          ≤ |gridCoordRounded fl LIGHT_GRID_WIDTH (i + 1) (2 * radius) separation
              - gridCoordRounded fl LIGHT_GRID_WIDTH i (2 * radius) separation|) ∧
      (∀ i : Nat, i + 1 < LIGHT_GRID_HEIGHT →
        |yPosRounded fl (i + 1) (2 * radius) separation yOffset
            - yPosRounded fl i (2 * radius) separation yOffset - 2 * radius * separation|
          ≤ roundingSlack (yPosRounded fl i (2 * radius) separation yOffset)
              (yPosRounded fl (i + 1) (2 * radius) separation yOffset) ∧
        2 * radius
            - roundingSlack (yPosRounded fl i (2 * radius) separation yOffset)
              (yPosRounded fl (i + 1) (2 * radius) separation yOffset)
          ≤ |yPosRounded fl (i + 1) (2 * radius) separation yOffset
              - yPosRounded fl i (2 * radius) separation yOffset|)) := by
  have hstep : ∀ n i, gridCoord n (i + 1) (2 * radius) separation
      - gridCoord n i (2 * radius) separation = 2 * radius * separation :=
    fun n i => gridCoord_succ_sub n i (2 * radius) separation
  refine ⟨?_, ?_, ?_, ?_⟩
  · intro x z y hx hz hy
    obtain ⟨a, ha, hac⟩ := configurePointLights_centre env radius separation yOffset x z y
      hx hz (by omega)
    obtain ⟨b, hb, hbc⟩ := configurePointLights_centre env radius separation yOffset x z (y + 1)
      hx hz hy
    refine ⟨a, b, ha, hb, ?_⟩
    rw [hac, hbc]
    obtain ⟨e, hd⟩ := lightCentre_step_y env radius separation yOffset x z y
      (5 * curLight x z y) (5 * curLight x z (y + 1))
    obtain ⟨s1, s2⟩ := step_within_slack radius separation _ _ hsep hr e
    exact ⟨s1, s2, hd⟩
  · intro x z y
    refine ⟨?_, ?_, ?_⟩
    · obtain ⟨s1, s2⟩ := step_within_slack radius separation
        (idealPosition radius separation yOffset x z y).x
        (idealPosition radius separation yOffset (x + 1) z y).x hsep hr
        (hstep LIGHT_GRID_WIDTH x)
      exact ⟨s1, s2, rfl, rfl⟩
    · obtain ⟨s1, s2⟩ := step_within_slack radius separation
        (idealPosition radius separation yOffset x z y).z
        (idealPosition radius separation yOffset x (z + 1) y).z hsep hr
        (hstep LIGHT_GRID_WIDTH z)
      exact ⟨s1, s2, rfl, rfl⟩
    · have e : (idealPosition radius separation yOffset x z (y + 1)).y
          - (idealPosition radius separation yOffset x z y).y = 2 * radius * separation := by
        simp only [idealPosition]
        rw [add_sub_add_right_eq_sub, hstep]
      obtain ⟨s1, s2⟩ := step_within_slack radius separation _ _ hsep hr e
      exact ⟨s1, s2, rfl, rfl⟩
  · intro x z y hx hz hy
    obtain ⟨a, ha, hac⟩ := configurePointLights_centre env radius separation yOffset x z y
      hx hz hy
    exact ⟨a, ha, hac⟩
  · intro fl hfl
    refine ⟨?_, ?_⟩
    · intro i
      have h := gridCoordRounded_step fl hfl LIGHT_GRID_WIDTH i (2 * radius) separation
      exact ⟨h, lower_of_within radius separation _ _ hsep hr h⟩
    · intro i hi
      have h := yPosRounded_step fl hfl i hi (2 * radius) separation yOffset
      exact ⟨h, lower_of_within radius separation _ _ hsep hr h⟩

/-- Witness of C8, amended: radius 0.663, separation 1, vertical offset 0 and
the stream of random values of the counterexample; the lights of the cells
`(0, 0, 0)` and `(0, 0, 1)`, neighbours along y, have the y coordinates -1.326
and 0, one step of 1.326 apart; and with the rounding `chop` the y coordinates
of the heights 1 and 2 are `2 * radius` less the allowance apart. -/
theorem lattice_up_to_rounding_witness :
    (1 : ℚ) ≤ 1 ∧ (0 : ℚ) ≤ 663 / 1000 ∧
    (∃ a b,
      (configurePointLights pushEnv [] [] (663 / 1000) 1 0).modelMatrices[curLight 0 0 0]?
        = some a ∧
      (configurePointLights pushEnv [] [] (663 / 1000) 1 0).modelMatrices[curLight 0 0 1]?
        = some b ∧
      |b.centre.y - a.centre.y - 2 * (663 / 1000) * 1|
        ≤ roundingSlack a.centre.y b.centre.y ∧
      2 * (663 / 1000) - roundingSlack a.centre.y b.centre.y ≤ |b.centre.y - a.centre.y| ∧
      (b.centre.y - a.centre.y) ^ 2 ≤ distSq a.centre b.centre) ∧
    RoundsLikeFloat chop ∧
    2 * (663 / 1000)
        - roundingSlack (yPosRounded chop 1 (2 * (663 / 1000)) 1 0)
          (yPosRounded chop (1 + 1) (2 * (663 / 1000)) 1 0)
      ≤ |yPosRounded chop (1 + 1) (2 * (663 / 1000)) 1 0
          - yPosRounded chop 1 (2 * (663 / 1000)) 1 0| :=
  ⟨by norm_num, by norm_num,
    (lattice_up_to_rounding pushEnv (663 / 1000) 1 0 (by norm_num) (by norm_num)).1 0 0 0
      (by decide) (by decide) (by decide),
    chop_roundsLikeFloat,
    (((lattice_up_to_rounding pushEnv (663 / 1000) 1 0 (by norm_num) (by norm_num)).2.2.2
      chop chop_roundsLikeFloat).2 1 (by decide)).2⟩

/-- C9, the claim as stated fails: in the scenario of `main` (grid 10 by 10 by
3, radius 0.663, separation 0.670, vertical offset 0.636) the cell
`(0, 0, 0)` has index 0, and the x coordinate `configurePointLights` computes
for it before the jitter, `(0 - 4.5) * (1.326 * 0.670)`, is -3.99789, which is
not in `[-5.380, -5.379]`; with a stream of random values that gives no jitter
it is the x coordinate of the generated light. -/
theorem scenario_counterexample :
    curLight 0 0 0 = 0 ∧
    gridCoord LIGHT_GRID_WIDTH 0 (2 * (663 / 1000)) (670 / 1000) = -399789 / 100000 ∧
    ¬ (-5380 / 1000 ≤ gridCoord LIGHT_GRID_WIDTH 0 (2 * (663 / 1000)) (670 / 1000) ∧
        gridCoord LIGHT_GRID_WIDTH 0 (2 * (663 / 1000)) (670 / 1000) ≤ -5379 / 1000) ∧
    ∃ m : Mat4, (configurePointLights zeroEnv [] [] (663 / 1000) (670 / 1000)
          (636 / 1000)).modelMatrices[0]? = some m ∧
      m.c3.x = -399789 / 100000 := by
  have hg : gridCoord LIGHT_GRID_WIDTH 0 (2 * (663 / 1000)) (670 / 1000)
      = -399789 / 100000 := by
    norm_num [gridCoord, LIGHT_GRID_WIDTH]
  refine ⟨rfl, hg, ?_, ?_⟩
  · rw [hg]; norm_num
  · obtain ⟨m, hm, hmc⟩ := configurePointLights_centre zeroEnv (663 / 1000) (670 / 1000)
      (636 / 1000) 0 0 0 (by decide) (by decide) (by decide)
    refine ⟨m, hm, ?_⟩
    have hx : m.c3.x = m.centre.x := rfl
    rw [hx, hmc]
    norm_num [lightCentre, idealPosition, jitter, gridCoord, zeroEnv, jitterAngle,
      jitterLength, cosApprox, curLight, curLightAt, LIGHT_GRID_WIDTH]

/-- C9, amended: in the scenario of `main` (grid 10 by 10 by 3, radius 0.663,
separation 0.670, vertical offset 0.636) `configurePointLights` produces 300
records, the cell `(0, 0, 0)` has index 0, and the x coordinate computed for
it before the jitter, `(0 - 4.5) * (1.326 * 0.670)`, is -3.99789, a value in
`[-3.998, -3.997]`; the x coordinate of the generated light is this value plus
the jitter `cos(angle) * length` of the first two values of `rand()`. -/
theorem scenario_first_light (env : Env) :
    LIGHT_GRID_WIDTH = 10 ∧ LIGHT_GRID_HEIGHT = 3 ∧
    (configurePointLights env [] [] (663 / 1000) (670 / 1000)
        (636 / 1000)).modelMatrices.length = 300 ∧
    (configurePointLights env [] [] (663 / 1000) (670 / 1000)
        (636 / 1000)).modelColorSizes.length = 300 ∧
    curLight 0 0 0 = 0 ∧
    gridCoord LIGHT_GRID_WIDTH 0 (2 * (663 / 1000)) (670 / 1000) = -399789 / 100000 ∧
    (-3998 / 1000 ≤ gridCoord LIGHT_GRID_WIDTH 0 (2 * (663 / 1000)) (670 / 1000) ∧
      gridCoord LIGHT_GRID_WIDTH 0 (2 * (663 / 1000)) (670 / 1000) ≤ -3997 / 1000) ∧
    ∃ m : Mat4, (configurePointLights env [] [] (663 / 1000) (670 / 1000)
          (636 / 1000)).modelMatrices[0]? = some m ∧
      m.c3.x = gridCoord LIGHT_GRID_WIDTH 0 (2 * (663 / 1000)) (670 / 1000)
        + env.cos (jitterAngle env (env.rand 0)) * jitterLength env (env.rand 1) := by
  have hg : gridCoord LIGHT_GRID_WIDTH 0 (2 * (663 / 1000)) (670 / 1000)
      = -399789 / 100000 := by
    norm_num [gridCoord, LIGHT_GRID_WIDTH]
  obtain ⟨l1, l2⟩ :=
    configurePointLights_lengths env [] [] (663 / 1000) (670 / 1000) (636 / 1000)
  refine ⟨rfl, rfl, ?_, ?_, rfl, hg, ?_, ?_⟩
  · rw [l1]; rfl
  · rw [l2]; rfl
  · rw [hg]; norm_num
  · obtain ⟨m, hm, hmc⟩ := configurePointLights_centre env (663 / 1000) (670 / 1000)
      (636 / 1000) 0 0 0 (by decide) (by decide) (by decide)
    refine ⟨m, hm, ?_⟩
    have hx : m.c3.x = m.centre.x := rfl
    rw [hx, hmc]
    rfl

/-- C10: for every cell `(x, z, y)` of the grid and every stream of random
values, `configurePointLights` called on two empty vectors stores the record
of the cell at the index `x * W * H + z * H + y` of both vectors (the cell is
the one of that rank in the order of the loops: its five values of `rand()`
are the calls `5 * index` to `5 * index + 4`); the y translation is
`(y - (H-1)/2) * 2 * radius * separation + yOffset`, without jitter, the x and
z translations are `(x - (W-1)/2) * 2 * radius * separation` and
`(z - (W-1)/2) * 2 * radius * separation` plus the jitter
`(cos(angle) * length, sin(angle) * length)`, the other columns are those of
the identity, and the fourth component of the colour/size record is the radius. -/
theorem configurePointLights_records (env : Env) (radius separation yOffset : ℚ)
    (x z y : Nat) (hx : x < LIGHT_GRID_WIDTH) (hz : z < LIGHT_GRID_WIDTH)
    (hy : y < LIGHT_GRID_HEIGHT) :
    ∃ m c,
      (configurePointLights env [] [] radius separation yOffset).modelMatrices[
          x * LIGHT_GRID_WIDTH * LIGHT_GRID_HEIGHT + z * LIGHT_GRID_HEIGHT + y]? = some m ∧
      (configurePointLights env [] [] radius separation yOffset).modelColorSizes[
          x * LIGHT_GRID_WIDTH * LIGHT_GRID_HEIGHT + z * LIGHT_GRID_HEIGHT + y]? = some c ∧
      m.c3.x = ((x : ℚ) - ((LIGHT_GRID_WIDTH : ℚ) - 1) / 2) * 2 * radius * separation
        + env.cos (jitterAngle env (env.rand (5 * curLight x z y)))
          * jitterLength env (env.rand (5 * curLight x z y + 1)) ∧
      m.c3.y = ((y : ℚ) - ((LIGHT_GRID_HEIGHT : ℚ) - 1) / 2) * 2 * radius * separation
        + yOffset ∧
      m.c3.z = ((z : ℚ) - ((LIGHT_GRID_WIDTH : ℚ) - 1) / 2) * 2 * radius * separation
        + env.sin (jitterAngle env (env.rand (5 * curLight x z y)))
          * jitterLength env (env.rand (5 * curLight x z y + 1)) ∧
      m.c3.w = 1 ∧
      m.c0 = ⟨1, 0, 0, 0⟩ ∧ m.c1 = ⟨0, 1, 0, 0⟩ ∧ m.c2 = ⟨0, 0, 1, 0⟩ ∧
      c = ⟨colorChannel (env.rand (5 * curLight x z y + 2)),
           colorChannel (env.rand (5 * curLight x z y + 3)),
           colorChannel (env.rand (5 * curLight x z y + 4)), radius⟩ ∧
      c.w = radius := by
  obtain ⟨h1, h2⟩ := configurePointLights_cell env radius separation yOffset x z y hx hz hy
  refine ⟨_, _, h1, h2, ?_, ?_, ?_, ?_, ?_, ?_, ?_, rfl, rfl⟩
  · simp only [cellMatrix, translate_identity, lightCentre, idealPosition, jitter, gridCoord]
    ring
  · simp only [cellMatrix, translate_identity, lightCentre, idealPosition, jitter, gridCoord]
    ring
  · simp only [cellMatrix, translate_identity, lightCentre, idealPosition, jitter, gridCoord]
    ring
  · simp only [cellMatrix, translate_identity]
  · simp only [cellMatrix, translate_identity]
  · simp only [cellMatrix, translate_identity]
  · simp only [cellMatrix, translate_identity]

/-- Witness of C10: the cell `(1, 2, 0)`, of index 36, with the arguments of
`main` and a stream of random values that gives it no jitter: its translation
is `(-3.10947, -0.25242, -2.22105)`. -/
theorem configurePointLights_records_witness :
    1 < LIGHT_GRID_WIDTH ∧ 2 < LIGHT_GRID_WIDTH ∧ 0 < LIGHT_GRID_HEIGHT ∧
    ∃ (m : Mat4) (c : Vec4),
      (configurePointLights zeroEnv [] [] (663 / 1000) (670 / 1000)
          (636 / 1000)).modelMatrices[36]? = some m ∧
      (configurePointLights zeroEnv [] [] (663 / 1000) (670 / 1000)
          (636 / 1000)).modelColorSizes[36]? = some c ∧
      m.c3.x = -310947 / 100000 ∧ m.c3.y = -25242 / 100000 ∧ m.c3.z = -222105 / 100000 ∧
      c.w = 663 / 1000 := by
  obtain ⟨m, c, h1, h2, hx, hy, hz, _, _, _, _, _, hw⟩ :=
    configurePointLights_records zeroEnv (663 / 1000) (670 / 1000) (636 / 1000) 1 2 0
      (by decide) (by decide) (by decide)
  refine ⟨by decide, by decide, by decide, m, c, h1, h2, ?_, ?_, ?_, hw⟩
  · rw [hx]
    norm_num [zeroEnv, jitterAngle, jitterLength, cosApprox, LIGHT_GRID_WIDTH]
  · rw [hy]
    norm_num [LIGHT_GRID_HEIGHT]
  · rw [hz]
    norm_num [zeroEnv, jitterAngle, jitterLength, sinApprox, LIGHT_GRID_WIDTH]

/-! ## updatePointLights: what every completed call keeps -/

/-- A property that every completed step keeps holds after a completed loop. -/
theorem forRangeM_preserves {σ : Type} (P : σ → Prop) (n : Nat)
    (body : Nat → σ → Option σ) (s : σ) (h0 : P s)
    (hstep : ∀ i t u, P t → body i t = some u → P u) :
    ∀ u, forRangeM n body s = some u → P u := by
  induction n with
  | zero =>
    intro u hu
    rw [forRangeM_zero] at hu
    cases hu
    exact h0
  | succ m ih =>
    intro u hu
    rw [forRangeM_succ] at hu
    obtain ⟨t, ht, htu⟩ := Option.bind_eq_some.mp hu
    exact hstep m t u (ih t ht) htu

theorem modifyAt_length {α : Type} (v w : List α) (i : Nat) (f : α → α)
    (h : modifyAt v i f = some w) : w.length = v.length := by
  unfold modifyAt at h
  split at h
  · cases h
    simp
  · cases h

theorem updateCell_sameShape (separation yOffset radius : ℚ) (x z y : Nat) (s t u : Lights)
    (ht : SameShape s t) (hu : updateCell separation yOffset radius x z y t = some u) :
    SameShape s u := by
  unfold updateCell at hu
  obtain ⟨ms, hms, hu⟩ := Option.bind_eq_some.mp hu
  obtain ⟨cs, hcs, hu⟩ := Option.bind_eq_some.mp hu
  cases hu
  obtain ⟨h1, h2, h3, h4⟩ := ht
  exact ⟨(modifyAt_length _ _ _ _ hms).trans h1, (modifyAt_length _ _ _ _ hcs).trans h2, h3, h4⟩

theorem updateLoops_sameShape (separation yOffset radius : ℚ) (s u : Lights)
    (hu : forRangeM LIGHT_GRID_WIDTH (fun x =>
        forRangeM LIGHT_GRID_WIDTH (fun z =>
          forRangeM LIGHT_GRID_HEIGHT (fun y =>
            updateCell separation yOffset radius x z y))) s = some u) :
    SameShape s u := by
  refine forRangeM_preserves (SameShape s) _ _ s ⟨rfl, rfl, rfl, rfl⟩ ?_ u hu
  intro x t1 u1 h1 hu1
  refine forRangeM_preserves (SameShape s) _ _ t1 h1 ?_ u1 hu1
  intro z t2 u2 h2 hu2
  refine forRangeM_preserves (SameShape s) _ _ t2 h2 ?_ u2 hu2
  intro y t3 u3 h3 hu3
  exact updateCell_sameShape separation yOffset radius x z y s t3 u3 h3 hu3

/-- Every completed call of `updatePointLights` keeps the lengths of the two
vectors and the count of calls of `rand()`, and adds to the trace either
nothing or one upload of the matrices. -/
theorem updatePointLights_some (s t : Lights) (separation yOffset radius : ℚ)
    (h : updatePointLights s separation yOffset radius = some t) :
    t.modelMatrices.length = s.modelMatrices.length ∧
    t.modelColorSizes.length = s.modelColorSizes.length ∧
    t.randCalls = s.randCalls ∧
    (t.gl = s.gl ∨ t.gl = s.gl ++ uploadCmds t.modelMatrices) := by
  unfold updatePointLights at h
  split at h
  · cases h
    exact ⟨rfl, rfl, rfl, Or.inl rfl⟩
  · obtain ⟨u, hu, hut⟩ := Option.map_eq_some'.mp h
    obtain ⟨h1, h2, h3, h4⟩ := updateLoops_sameShape separation yOffset radius s u hu
    subst hut
    refine ⟨h1, h2, h3, Or.inr ?_⟩
    simp only [uploadMatrices, uploadCmds, h4]

/-! ## The jitter -/

theorem M_PI_pos : 0 < M_PI := by norm_num [M_PI]

theorem jitterLength_bounds (env : Env) (hmax : 0 < env.RAND_MAX) (r : Nat)
    (hr : r ≤ env.RAND_MAX) :
    0 ≤ jitterLength env r ∧ jitterLength env r ≤ 1 / 2 ∧
      (r < env.RAND_MAX → jitterLength env r < 1 / 2) := by
  have hR : (0 : ℚ) < (env.RAND_MAX : ℚ) := by exact_mod_cast hmax
  have hr0 : (0 : ℚ) ≤ (r : ℚ) := Nat.cast_nonneg r
  have hrR : (r : ℚ) ≤ (env.RAND_MAX : ℚ) := by exact_mod_cast hr
  unfold jitterLength
  refine ⟨div_nonneg (by linarith) hR.le, ?_, ?_⟩
  · rw [div_le_iff₀ hR]; linarith
  · intro hlt
    have hlt2 : (r : ℚ) < (env.RAND_MAX : ℚ) := by exact_mod_cast hlt
    rw [div_lt_iff₀ hR]; linarith

theorem jitterAngle_bounds (env : Env) (hmax : 0 < env.RAND_MAX) (r : Nat)
    (hr : r ≤ env.RAND_MAX) :
    0 ≤ jitterAngle env r ∧ jitterAngle env r ≤ 2 * M_PI ∧
      (r < env.RAND_MAX → jitterAngle env r < 2 * M_PI) := by
  have hR : (0 : ℚ) < (env.RAND_MAX : ℚ) := by exact_mod_cast hmax
  have hr0 : (0 : ℚ) ≤ (r : ℚ) := Nat.cast_nonneg r
  have hrR : (r : ℚ) ≤ (env.RAND_MAX : ℚ) := by exact_mod_cast hr
  have hpi := M_PI_pos
  unfold jitterAngle
  refine ⟨div_nonneg (by positivity) hR.le, ?_, ?_⟩
  · rw [div_le_iff₀ hR]
    nlinarith
  · intro hlt
    have hlt2 : (r : ℚ) < (env.RAND_MAX : ℚ) := by exact_mod_cast hlt
    rw [div_lt_iff₀ hR]
    nlinarith

/-- The square of the length of a jitter is the square of the radial offset
times `cos ^ 2 + sin ^ 2` at the angle: at most `(1 + 2 ^ -40) / 4` when the
values of `rand()` are at most `RAND_MAX` and `cos ^ 2 + sin ^ 2` is at most
`1 + 2 ^ -40` at the angles of the jitter. -/
theorem jitter_sq_le (env : Env) (hmax : 0 < env.RAND_MAX)
    (hrand : ∀ n, env.rand n ≤ env.RAND_MAX)
    (hcs : ∀ r, r ≤ env.RAND_MAX →
      env.cos (jitterAngle env r) ^ 2 + env.sin (jitterAngle env r) ^ 2 ≤ 1 + 1 / 2 ^ 40)
    (k : Nat) :
    (jitter env k).1 ^ 2 + (jitter env k).2 ^ 2 ≤ (1 + 1 / 2 ^ 40) * (1 / 2) ^ 2 := by
  obtain ⟨h0, h1, _⟩ := jitterLength_bounds env hmax (env.rand (k + 1)) (hrand (k + 1))
  have hc := hcs (env.rand k) (hrand k)
  simp only [jitter]
  have hL : jitterLength env (env.rand (k + 1)) ^ 2 ≤ (1 / 2) ^ 2 := by nlinarith
  have hL0 : 0 ≤ jitterLength env (env.rand (k + 1)) ^ 2 := sq_nonneg _
  calc (env.cos (jitterAngle env (env.rand k)) * jitterLength env (env.rand (k + 1))) ^ 2
        + (env.sin (jitterAngle env (env.rand k)) * jitterLength env (env.rand (k + 1))) ^ 2
      = (env.cos (jitterAngle env (env.rand k)) ^ 2
          + env.sin (jitterAngle env (env.rand k)) ^ 2)
          * jitterLength env (env.rand (k + 1)) ^ 2 := by ring
    _ ≤ (1 + 1 / 2 ^ 40) * jitterLength env (env.rand (k + 1)) ^ 2 :=
        mul_le_mul_of_nonneg_right hc hL0
    _ ≤ (1 + 1 / 2 ^ 40) * (1 / 2) ^ 2 :=
        mul_le_mul_of_nonneg_left hL (by norm_num)

/-- A displacement whose square is at most `(1 + 2 ^ -40) / 4` is at most 0.5
plus the allowance `2 ^ -20 * (1 + |x| + |z|)`. -/
theorem displacement_within_slack (d x z : ℚ) (h : d ≤ (1 + 1 / 2 ^ 40) * (1 / 2) ^ 2) :
    d ≤ (1 / 2 + (1 + |x| + |z|) / 2 ^ 20) ^ 2 := by
  have hx := abs_nonneg x
  have hz := abs_nonneg z
  have e : (1 / 2 + (1 + |x| + |z|) / 2 ^ 20 : ℚ)
      = (1 / 2 + 1 / 2 ^ 20) + (|x| + |z|) / 2 ^ 20 := by ring
  have h1 : (0 : ℚ) ≤ (|x| + |z|) / 2 ^ 20 := div_nonneg (add_nonneg hx hz) (by positivity)
  have h2 : ((1 : ℚ) + 1 / 2 ^ 40) * (1 / 2) ^ 2 ≤ (1 / 2 + 1 / 2 ^ 20) ^ 2 := by norm_num
  have h3 : (1 / 2 + 1 / 2 ^ 20 : ℚ) ^ 2
      ≤ ((1 / 2 + 1 / 2 ^ 20) + (|x| + |z|) / 2 ^ 20) ^ 2 :=
    pow_le_pow_left₀ (by norm_num) (by linarith) 2
  rw [e]
  linarith

/-- The displacement of a coordinate pair to which rounded offsets are added
with a rounded sum.  When the squares of the offsets sum to at most
`(1 + 2 ^ -40) / 4`, the two rounded sums are displaced from the positions by
at most 0.5 plus the allowance. -/
theorem displacement_error (fl : ℚ → ℚ) (hfl : RoundsLikeFloat fl) (gx gz xo zo : ℚ)
    (h : xo ^ 2 + zo ^ 2 ≤ (1 + 1 / 2 ^ 40) * (1 / 2) ^ 2) :
    (fl (gx + fl xo) - gx) ^ 2 + (fl (gz + fl zo) - gz) ^ 2
      ≤ (1 / 2 + (1 + |fl (gx + fl xo)| + |fl (gz + fl zo)|) / 2 ^ 20) ^ 2 := by
  have hL : (1 + 1 / 2 ^ 40 : ℚ) * (1 / 2) ^ 2 ≤ (1 / 2 + 1 / 2 ^ 40) ^ 2 := by norm_num
  have hL0 : (0 : ℚ) ≤ 1 / 2 + 1 / 2 ^ 40 := by norm_num
  have bx : |xo| ≤ 1 / 2 + 1 / 2 ^ 40 :=
    abs_le_of_sq_le_sq' (by nlinarith [sq_nonneg zo]) hL0 |> abs_le.mpr
  have bz : |zo| ≤ 1 / 2 + 1 / 2 ^ 40 :=
    abs_le_of_sq_le_sq' (by nlinarith [sq_nonneg xo]) hL0 |> abs_le.mpr
  have key : ∀ g o : ℚ, |fl (g + fl o) - g - o|
      ≤ |g + fl o| / 2 ^ 24 + |o| / 2 ^ 24 ∧
      |g + fl o| - |fl (g + fl o)| ≤ |g + fl o| / 2 ^ 24 := by
    intro g o
    have r1 := hfl (g + fl o)
    have r2 := hfl o
    have r3 := abs_sub_abs_le_abs_sub (g + fl o) (fl (g + fl o))
    rw [abs_sub_comm] at r3
    refine ⟨?_, by linarith⟩
    have e : fl (g + fl o) - g - o = (fl (g + fl o) - (g + fl o)) + (fl o - o) := by ring
    rw [e]
    exact le_trans (abs_add _ _) (add_le_add r1 r2)
  obtain ⟨kx, tx⟩ := key gx xo
  obtain ⟨kz, tz⟩ := key gz zo
  have hxe : xo * (fl (gx + fl xo) - gx - xo)
      ≤ (1 / 2 + 1 / 2 ^ 40) * |fl (gx + fl xo) - gx - xo| :=
    calc xo * (fl (gx + fl xo) - gx - xo) ≤ |xo * (fl (gx + fl xo) - gx - xo)| := le_abs_self _
      _ = |xo| * |fl (gx + fl xo) - gx - xo| := abs_mul _ _
      _ ≤ _ := mul_le_mul_of_nonneg_right bx (abs_nonneg _)
  have hze : zo * (fl (gz + fl zo) - gz - zo)
      ≤ (1 / 2 + 1 / 2 ^ 40) * |fl (gz + fl zo) - gz - zo| :=
    calc zo * (fl (gz + fl zo) - gz - zo) ≤ |zo * (fl (gz + fl zo) - gz - zo)| := le_abs_self _
      _ = |zo| * |fl (gz + fl zo) - gz - zo| := abs_mul _ _
      _ ≤ _ := mul_le_mul_of_nonneg_right bz (abs_nonneg _)
  have sx := sq_abs (fl (gx + fl xo) - gx - xo)
  have sz := sq_abs (fl (gz + fl zo) - gz - zo)
  have na := abs_nonneg (fl (gx + fl xo) - gx - xo)
  have nb := abs_nonneg (fl (gz + fl zo) - gz - zo)
  have nab := mul_nonneg na nb
  have step1 : (fl (gx + fl xo) - gx) ^ 2 + (fl (gz + fl zo) - gz) ^ 2
      ≤ (1 / 2 + 1 / 2 ^ 40 + |fl (gx + fl xo) - gx - xo|
          + |fl (gz + fl zo) - gz - zo|) ^ 2 := by
    nlinarith
  have nxs := abs_nonneg (fl (gx + fl xo))
  have nzs := abs_nonneg (fl (gz + fl zo))
  have nxo := abs_nonneg xo
  have nzo := abs_nonneg zo
  have step2 : 1 / 2 + 1 / 2 ^ 40 + |fl (gx + fl xo) - gx - xo| + |fl (gz + fl zo) - gz - zo|
      ≤ 1 / 2 + (1 + |fl (gx + fl xo)| + |fl (gz + fl zo)|) / 2 ^ 20 := by
    norm_num at kx kz tx tz bx bz ⊢
    linarith
  exact le_trans step1 (pow_le_pow_left₀ (by linarith) step2 2)

theorem circle_sq (a : ℚ) : cosCircle a ^ 2 + sinCircle a ^ 2 ≤ 1 := by
  have h : (1 + (a / 2) ^ 2) ≠ 0 := by positivity
  have e : cosCircle a ^ 2 + sinCircle a ^ 2 = 1 := by
    unfold cosCircle sinCircle
    field_simp
    ring
  rw [e]

theorem roundedCircle_sq (a : ℚ) :
    (cosCircle a * (1 + 1 / 2 ^ 53)) ^ 2 + sinCircle a ^ 2 ≤ 1 + 1 / 2 ^ 40 := by
  have h := circle_sq a
  have hs : 0 ≤ sinCircle a ^ 2 := sq_nonneg _
  have hc : 0 ≤ cosCircle a ^ 2 := sq_nonneg _
  rw [mul_pow]
  have e : ((1 : ℚ) + 1 / 2 ^ 53) ^ 2 = 1 + (2 / 2 ^ 53 + 1 / 2 ^ 106) := by norm_num
  rw [e]
  have hk : (0 : ℚ) ≤ 2 / 2 ^ 53 + 1 / 2 ^ 106 := by norm_num
  have hk2 : (2 : ℚ) / 2 ^ 53 + 1 / 2 ^ 106 ≤ 1 / 2 ^ 40 := by norm_num
  have hc1 : cosCircle a ^ 2 ≤ 1 := by linarith
  have hm : cosCircle a ^ 2 * (2 / 2 ^ 53 + 1 / 2 ^ 106) ≤ 1 * (2 / 2 ^ 53 + 1 / 2 ^ 106) :=
    mul_le_mul_of_nonneg_right hc1 hk
  linarith

/-! ## Translation-only matrices -/

theorem cellMatrix_isTranslation (env : Env) (radius separation yOffset : ℚ)
    (x z y k : Nat) : (cellMatrix env radius separation yOffset x z y k).isTranslation := by
  simp [cellMatrix, translate_identity, Mat4.isTranslation]

theorem relocate_isTranslation (separation yOffset : ℚ) (i : Nat) (m : Mat4)
    (h : m.isTranslation) : (relocate separation yOffset i m).isTranslation := by
  obtain ⟨h0, h1, h2, _⟩ := h
  exact ⟨h0, h1, h2, rfl⟩

/-- When `f i` keeps a property of the elements, so does the rewriting of a vector. -/
theorem Rewritten.forall_mem {α : Type} {f : Nat → α → α} {n : Nat} {v0 v : List α}
    (h : Rewritten f n v0 v) (P : α → Prop) (hf : ∀ i a, P a → P (f i a))
    (h0 : ∀ a ∈ v0, P a) : ∀ a ∈ v, P a := by
  intro a ha
  obtain ⟨i, hi, rfl⟩ := List.getElem_of_mem ha
  have e := h.2 i
  rw [List.getElem?_eq_getElem hi] at e
  by_cases hin : i < n
  · rw [if_pos hin] at e
    cases hv : v0[i]? with
    | none => rw [hv] at e; cases e
    | some b =>
      rw [hv] at e
      simp only [Option.map_some', Option.some.injEq] at e
      rw [e]
      exact hf i b (h0 b (List.getElem?_mem hv))
  · rw [if_neg hin] at e
    exact h0 _ (List.getElem?_mem e.symm)

theorem updatePointLights_isTranslation (s : Lights) (separation yOffset radius : ℚ)
    (hm : totalLights ≤ s.modelMatrices.length)
    (hc : totalLights ≤ s.modelColorSizes.length)
    (h0 : ∀ m ∈ s.modelMatrices, m.isTranslation) :
    ∃ t, updatePointLights s separation yOffset radius = some t ∧
      t.modelMatrices.length = s.modelMatrices.length ∧
      t.modelColorSizes.length = s.modelColorSizes.length ∧
      ∀ m ∈ t.modelMatrices, m.isTranslation := by
  by_cases hsep : separation < 0
  · exact ⟨s, updatePointLights_of_neg s separation yOffset radius hsep, rfl, rfl, h0⟩
  · obtain ⟨t, ⟨h1, h2, _, _⟩, ht⟩ :=
      updatePointLights_updated s separation yOffset radius (not_lt.mp hsep) hm hc
    exact ⟨uploadMatrices t, ht, h1.1, h2.1,
      h1.forall_mem Mat4.isTranslation (relocate_isTranslation separation yOffset) h0⟩

theorem updateMany_isTranslation (calls : List (ℚ × ℚ × ℚ)) (s : Lights)
    (hm : totalLights ≤ s.modelMatrices.length)
    (hc : totalLights ≤ s.modelColorSizes.length)
    (h0 : ∀ m ∈ s.modelMatrices, m.isTranslation) :
    ∃ t, updateMany s calls = some t ∧ ∀ m ∈ t.modelMatrices, m.isTranslation := by
  induction calls generalizing s with
  | nil => exact ⟨s, rfl, h0⟩
  | cons c rest ih =>
    obtain ⟨t, ht, hl1, hl2, htr⟩ :=
      updatePointLights_isTranslation s c.1 c.2.1 c.2.2 hm hc h0
    obtain ⟨u, hu, hur⟩ := ih t (by omega) (by omega) htr
    refine ⟨u, ?_, hur⟩
    simp only [updateMany, List.foldlM_cons, ht] at hu ⊢
    exact hu

theorem configurePointLights_isTranslation (env : Env) (radius separation yOffset : ℚ) :
    ∀ m ∈ (configurePointLights env [] [] radius separation yOffset).modelMatrices,
      m.isTranslation := by
  obtain ⟨h1, _, _, _⟩ :=
    configurePointLights_generated env [] [] radius separation yOffset
  intro m hm
  rw [h1] at hm
  simp only [List.nil_append, List.mem_map] at hm
  obtain ⟨i, _, rfl⟩ := hm
  exact cellMatrix_isTranslation env radius separation yOffset _ _ _ _

/-! ## Two updates in a row -/

/-- Rewriting twice with writes that overwrite is rewriting once. -/
theorem Rewritten.overwrite {α : Type} {f g : Nat → α → α} {n : Nat} {v0 v1 v2 w : List α}
    (h01 : Rewritten g n v0 v1) (h12 : Rewritten f n v1 v2) (h0w : Rewritten f n v0 w)
    (hfg : ∀ i a, f i (g i a) = f i a) : v2 = w := by
  apply List.ext_getElem?
  intro i
  rw [h12.2 i, h0w.2 i, h01.2 i]
  by_cases hin : i < n
  · simp only [if_pos hin]
    cases v0[i]? with
    | none => rfl
    | some a => simp [hfg]
  · simp only [if_neg hin]

/-! ## The claims on the two vectors, continued -/

/-- C11: the two vectors keep equal lengths.  `configurePointLights` appends
`LIGHT_GRID_WIDTH * LIGHT_GRID_WIDTH * LIGHT_GRID_HEIGHT` elements to each of
them, so equal lengths before give equal lengths after; every completed call
of `updatePointLights`, whatever its arguments, leaves both lengths as they
were; and on vectors of at least that many elements the call completes. -/
theorem lengths_stay_equal :
    (∀ (env : Env) (ms : List Mat4) (cs : List Vec4) (radius separation yOffset : ℚ),
      (configurePointLights env ms cs radius separation yOffset).modelMatrices.length
        = ms.length + LIGHT_GRID_WIDTH * LIGHT_GRID_WIDTH * LIGHT_GRID_HEIGHT ∧
      (configurePointLights env ms cs radius separation yOffset).modelColorSizes.length
        = cs.length + LIGHT_GRID_WIDTH * LIGHT_GRID_WIDTH * LIGHT_GRID_HEIGHT ∧
      (ms.length = cs.length →
        (configurePointLights env ms cs radius separation yOffset).modelMatrices.length
          = (configurePointLights env ms cs radius separation yOffset).modelColorSizes.length)) ∧
    (∀ (s t : Lights) (separation yOffset radius : ℚ),
      updatePointLights s separation yOffset radius = some t →
        t.modelMatrices.length = s.modelMatrices.length ∧
        t.modelColorSizes.length = s.modelColorSizes.length ∧
        (s.modelMatrices.length = s.modelColorSizes.length →
          t.modelMatrices.length = t.modelColorSizes.length)) ∧
    (∀ (s : Lights) (separation yOffset radius : ℚ),
      LIGHT_GRID_WIDTH * LIGHT_GRID_WIDTH * LIGHT_GRID_HEIGHT ≤ s.modelMatrices.length →
      LIGHT_GRID_WIDTH * LIGHT_GRID_WIDTH * LIGHT_GRID_HEIGHT ≤ s.modelColorSizes.length →
        ∃ t, updatePointLights s separation yOffset radius = some t) := by
  refine ⟨?_, ?_, ?_⟩
  · intro env ms cs radius separation yOffset
    obtain ⟨h1, h2⟩ := configurePointLights_lengths env ms cs radius separation yOffset
    refine ⟨h1, h2, ?_⟩
    intro h
    rw [h1, h2, h]
  · intro s t separation yOffset radius h
    obtain ⟨h1, h2, _, _⟩ := updatePointLights_some s t separation yOffset radius h
    refine ⟨h1, h2, ?_⟩
    intro h
    rw [h1, h2, h]
  · intro s separation yOffset radius hm hc
    obtain ⟨t, ht, _⟩ := updatePointLights_frame s separation yOffset radius hm hc
    exact ⟨t, ht⟩

/-- Witness of C11: generation on two vectors of one element each, and the
update of `sampleLights`. -/
theorem lengths_stay_equal_witness :
    ([Mat4.identity].length = [(⟨1, 1, 1, 1⟩ : Vec4)].length →
      (configurePointLights zeroEnv [Mat4.identity] [⟨1, 1, 1, 1⟩] 1 1 0).modelMatrices.length
        = (configurePointLights zeroEnv [Mat4.identity] [⟨1, 1, 1, 1⟩] 1 1
            0).modelColorSizes.length) ∧
    LIGHT_GRID_WIDTH * LIGHT_GRID_WIDTH * LIGHT_GRID_HEIGHT
      ≤ sampleLights.modelMatrices.length ∧
    LIGHT_GRID_WIDTH * LIGHT_GRID_WIDTH * LIGHT_GRID_HEIGHT
      ≤ sampleLights.modelColorSizes.length ∧
    ∃ t, updatePointLights sampleLights 1 0 2 = some t :=
  ⟨(lengths_stay_equal.1 zeroEnv [Mat4.identity] [⟨1, 1, 1, 1⟩] 1 1 0).2.2,
    le_of_eq sampleLights_modelMatrices_length.symm,
    le_of_eq sampleLights_modelColorSizes_length.symm,
    lengths_stay_equal.2.2 sampleLights 1 0 2
      (le_of_eq sampleLights_modelMatrices_length.symm)
      (le_of_eq sampleLights_modelColorSizes_length.symm)⟩

/-- C17, the claim as stated fails: with `RAND_MAX = 32767` the value
`r = RAND_MAX` of `rand()` gives the radial offset `r * 0.5 / RAND_MAX = 0.5`
and the angle `2 * M_PI`, which are not in the half-open intervals; and with
the stream of random values of `pushEnv` the first generated light is displaced
from its grid position by exactly 0.5, not by less. -/
theorem jitter_counterexample :
    32767 ≤ pushEnv.RAND_MAX ∧
    jitterLength pushEnv 32767 = 1 / 2 ∧ ¬ jitterLength pushEnv 32767 < 1 / 2 ∧
    jitterAngle pushEnv 32767 = 2 * M_PI ∧ ¬ jitterAngle pushEnv 32767 < 2 * M_PI ∧
    ∃ m : Mat4,
      (configurePointLights pushEnv [] [] (663 / 1000) 1 0).modelMatrices[0]? = some m ∧
      m.c3.x - (idealPosition (663 / 1000) 1 0 0 0 0).x = 1 / 2 ∧
      m.c3.z - (idealPosition (663 / 1000) 1 0 0 0 0).z = 0 ∧
      ¬ (m.c3.x - (idealPosition (663 / 1000) 1 0 0 0 0).x) ^ 2
          + (m.c3.z - (idealPosition (663 / 1000) 1 0 0 0 0).z) ^ 2 < (1 / 2) ^ 2 := by
  have hl : jitterLength pushEnv 32767 = 1 / 2 := by
    norm_num [jitterLength, pushEnv]
  have ha : jitterAngle pushEnv 32767 = 2 * M_PI := by
    simp only [jitterAngle, pushEnv]
    push_cast
    ring
  obtain ⟨m, hm, hmc⟩ := configurePointLights_centre pushEnv (663 / 1000) 1 0 0 0 0
    (by decide) (by decide) (by decide)
  have hx : m.c3.x - (idealPosition (663 / 1000) 1 0 0 0 0).x = 1 / 2 := by
    have e : m.c3.x = m.centre.x := rfl
    rw [e, hmc]
    norm_num [lightCentre, jitter, pushEnv, jitterAngle, jitterLength, cosApprox, curLight,
      curLightAt]
  have hz : m.c3.z - (idealPosition (663 / 1000) 1 0 0 0 0).z = 0 := by
    have e : m.c3.z = m.centre.z := rfl
    rw [e, hmc]
    norm_num [lightCentre, jitter, pushEnv, jitterAngle, jitterLength, sinApprox, curLight,
      curLightAt]
  refine ⟨le_refl _, hl, ?_, ha, ?_, m, hm, hx, hz, ?_⟩
  · rw [hl]; exact lt_irrefl _
  · rw [ha]; exact lt_irrefl _
  · rw [hx, hz]; norm_num

/-- C17, amended.  (1) When `RAND_MAX` is positive, for every value `r` of
`rand()` in `[0, RAND_MAX]` the radial offset `r * 0.5 / RAND_MAX` is in the
closed interval `[0, 0.5]` and the angle `r * 2 * M_PI / RAND_MAX` in
`[0, 2 * M_PI]`, and both are below the upper end when `r < RAND_MAX`.  (2)
Consequently, when `rand()` stays in `[0, RAND_MAX]` and `cos ^ 2 + sin ^ 2` is
at most `1 + 2 ^ -40` at the angles of the jitter (the values of `cos` and
`sin` are rounded doubles, so an exact 1 is not to be had), the squares of the
two offsets of every jitter sum to at most `(1 + 2 ^ -40) / 4`, and every
generated light keeps the y of its grid position and is displaced horizontally
from it by at most 0.5 up to the rounding of the binary32 arithmetic of the
source: by at most `0.5 + 2 ^ -20 * (1 + |x| + |z|)`, `x` and `z` being the
coordinates of its centre.  (3) The same bound holds for the coordinates
computed with a rounding of the offsets and of the sums, whatever rounding
with a relative error of at most `2 ^ -24` is used and whatever offsets whose
squares sum to at most `(1 + 2 ^ -40) / 4` are added.  In (2) exact rational
arithmetic stands for `float`; the comparisons are made on the squares. -/
theorem jitter_bounds (env : Env) (hmax : 0 < env.RAND_MAX) :
    (∀ r : Nat, r ≤ env.RAND_MAX →
      (0 ≤ jitterLength env r ∧ jitterLength env r ≤ 1 / 2) ∧
      (0 ≤ jitterAngle env r ∧ jitterAngle env r ≤ 2 * M_PI) ∧
      (r < env.RAND_MAX → jitterLength env r < 1 / 2 ∧ jitterAngle env r < 2 * M_PI)) ∧
    ((∀ n, env.rand n ≤ env.RAND_MAX) →
      (∀ r, r ≤ env.RAND_MAX →
        env.cos (jitterAngle env r) ^ 2 + env.sin (jitterAngle env r) ^ 2
          ≤ 1 + 1 / 2 ^ 40) →
      (∀ k, (jitter env k).1 ^ 2 + (jitter env k).2 ^ 2 ≤ (1 + 1 / 2 ^ 40) * (1 / 2) ^ 2) ∧
      ∀ (radius separation yOffset : ℚ) (x z y : Nat),
        x < LIGHT_GRID_WIDTH → z < LIGHT_GRID_WIDTH → y < LIGHT_GRID_HEIGHT →
        ∃ m : Mat4,
          (configurePointLights env [] [] radius separation yOffset).modelMatrices[
              x * LIGHT_GRID_WIDTH * LIGHT_GRID_HEIGHT + z * LIGHT_GRID_HEIGHT + y]?
            = some m ∧
          m.c3.y = (idealPosition radius separation yOffset x z y).y ∧
          (m.c3.x - (idealPosition radius separation yOffset x z y).x) ^ 2
            + (m.c3.z - (idealPosition radius separation yOffset x z y).z) ^ 2
            ≤ (1 / 2 + (1 + |m.c3.x| + |m.c3.z|) / 2 ^ 20) ^ 2) ∧
    (∀ fl : ℚ → ℚ, RoundsLikeFloat fl → ∀ xPos zPos xOffset zOffset : ℚ,
      xOffset ^ 2 + zOffset ^ 2 ≤ (1 + 1 / 2 ^ 40) * (1 / 2) ^ 2 →
      (addJitterRounded fl xPos xOffset - xPos) ^ 2
          + (addJitterRounded fl zPos zOffset - zPos) ^ 2
        ≤ (1 / 2 + (1 + |addJitterRounded fl xPos xOffset|
            + |addJitterRounded fl zPos zOffset|) / 2 ^ 20) ^ 2) := by
  refine ⟨?_, ?_, ?_⟩
  · intro r hr
    obtain ⟨l0, l1, l2⟩ := jitterLength_bounds env hmax r hr
    obtain ⟨a0, a1, a2⟩ := jitterAngle_bounds env hmax r hr
    exact ⟨⟨l0, l1⟩, ⟨a0, a1⟩, fun h => ⟨l2 h, a2 h⟩⟩
  · intro hrand hcs
    refine ⟨jitter_sq_le env hmax hrand hcs, ?_⟩
    intro radius separation yOffset x z y hx hz hy
    obtain ⟨m, hm, hmc⟩ :=
      configurePointLights_centre env radius separation yOffset x z y hx hz hy
    refine ⟨m, hm, ?_, ?_⟩
    · have e : m.c3.y = m.centre.y := rfl
      rw [e, hmc]
      rfl
    · apply displacement_within_slack
      have ex : m.c3.x = m.centre.x := rfl
      have ez : m.c3.z = m.centre.z := rfl
      rw [ex, ez, hmc]
      have h := jitter_sq_le env hmax hrand hcs (5 * curLight x z y)
      simp only [lightCentre, add_sub_cancel_left]
      exact h
  · intro fl hfl xPos zPos xOffset zOffset h
    exact displacement_error fl hfl xPos zPos xOffset zOffset h

/-- Witness of C17, amended: `roundedCircleEnv`, whose `cos ^ 2 + sin ^ 2`
exceeds 1, the value 16384 of `rand()`, the light of the cell `(1, 2, 0)`
generated with the arguments of `main`, and the rounding `chop` of the offsets
`(0.5, 0)` added to the position `(-5.967, -5.967)`. -/
theorem jitter_bounds_witness :
    0 < roundedCircleEnv.RAND_MAX ∧ 16384 ≤ roundedCircleEnv.RAND_MAX ∧
    (∀ n, roundedCircleEnv.rand n ≤ roundedCircleEnv.RAND_MAX) ∧
    (∀ r, r ≤ roundedCircleEnv.RAND_MAX →
      roundedCircleEnv.cos (jitterAngle roundedCircleEnv r) ^ 2
          + roundedCircleEnv.sin (jitterAngle roundedCircleEnv r) ^ 2
        ≤ 1 + 1 / 2 ^ 40) ∧
    (0 ≤ jitterLength roundedCircleEnv 16384 ∧ jitterLength roundedCircleEnv 16384 ≤ 1 / 2) ∧
    (∃ m : Mat4,
      (configurePointLights roundedCircleEnv [] [] (663 / 1000) (67 / 100)
          (636 / 1000)).modelMatrices[
            1 * LIGHT_GRID_WIDTH * LIGHT_GRID_HEIGHT + 2 * LIGHT_GRID_HEIGHT + 0]? = some m ∧
      m.c3.y = (idealPosition (663 / 1000) (67 / 100) (636 / 1000) 1 2 0).y ∧
      (m.c3.x - (idealPosition (663 / 1000) (67 / 100) (636 / 1000) 1 2 0).x) ^ 2
        + (m.c3.z - (idealPosition (663 / 1000) (67 / 100) (636 / 1000) 1 2 0).z) ^ 2
        ≤ (1 / 2 + (1 + |m.c3.x| + |m.c3.z|) / 2 ^ 20) ^ 2) ∧
    RoundsLikeFloat chop ∧
    ((1 / 2 : ℚ) ^ 2 + 0 ^ 2 ≤ (1 + 1 / 2 ^ 40) * (1 / 2) ^ 2) ∧
    (addJitterRounded chop (-5967 / 1000) (1 / 2) - -5967 / 1000) ^ 2
        + (addJitterRounded chop (-5967 / 1000) 0 - -5967 / 1000) ^ 2
      ≤ (1 / 2 + (1 + |addJitterRounded chop (-5967 / 1000) (1 / 2)|
          + |addJitterRounded chop (-5967 / 1000) 0|) / 2 ^ 20) ^ 2 := by
  have hmax : 0 < roundedCircleEnv.RAND_MAX := by decide
  have hrand : ∀ n, roundedCircleEnv.rand n ≤ roundedCircleEnv.RAND_MAX := by
    intro n
    show n % 32768 ≤ 32767
    omega
  have hcs : ∀ r, r ≤ roundedCircleEnv.RAND_MAX →
      roundedCircleEnv.cos (jitterAngle roundedCircleEnv r) ^ 2
          + roundedCircleEnv.sin (jitterAngle roundedCircleEnv r) ^ 2
        ≤ 1 + 1 / 2 ^ 40 :=
    fun r _ => roundedCircle_sq _
  have hoff : ((1 / 2 : ℚ) ^ 2 + 0 ^ 2 ≤ (1 + 1 / 2 ^ 40) * (1 / 2) ^ 2) := by norm_num
  exact ⟨hmax, by decide, hrand, hcs,
    ((jitter_bounds roundedCircleEnv hmax).1 16384 (by decide)).1,
    ((jitter_bounds roundedCircleEnv hmax).2.1 hrand hcs).2 (663 / 1000) (67 / 100)
      (636 / 1000) 1 2 0 (by decide) (by decide) (by decide),
    chop_roundsLikeFloat, hoff,
    (jitter_bounds roundedCircleEnv hmax).2.2 chop chop_roundsLikeFloat (-5967 / 1000)
      (-5967 / 1000) (1 / 2) 0 hoff⟩

/-- C18: every point-light transform is translation-only at all times.  (1)
The matrices `configurePointLights` produces have the columns 0, 1 and 2 of
the identity and a translation column `(x, y, z, 1)`.  (2) A call of
`updatePointLights` on vectors of at least `LIGHT_GRID_WIDTH *
LIGHT_GRID_WIDTH * LIGHT_GRID_HEIGHT` elements completes, leaves the columns
0, 1 and 2 of every matrix unchanged, keeps every translation-only matrix
translation-only and, when the separation is not negative, writes in each of
the first `W * W * H` matrices a translation column whose last component is 1.
(3) After generation and any sequence of updates every matrix is
translation-only. -/
theorem transforms_translation_only :
    (∀ (env : Env) (radius separation yOffset : ℚ),
      ∀ m ∈ (configurePointLights env [] [] radius separation yOffset).modelMatrices,
        m.c0 = ⟨1, 0, 0, 0⟩ ∧ m.c1 = ⟨0, 1, 0, 0⟩ ∧ m.c2 = ⟨0, 0, 1, 0⟩ ∧
        m.c3 = ⟨m.c3.x, m.c3.y, m.c3.z, 1⟩) ∧
    (∀ (s : Lights) (separation yOffset radius : ℚ),
      LIGHT_GRID_WIDTH * LIGHT_GRID_WIDTH * LIGHT_GRID_HEIGHT ≤ s.modelMatrices.length →
      LIGHT_GRID_WIDTH * LIGHT_GRID_WIDTH * LIGHT_GRID_HEIGHT ≤ s.modelColorSizes.length →
      ∃ t, updatePointLights s separation yOffset radius = some t ∧
        t.modelMatrices.map Mat4.linearPart = s.modelMatrices.map Mat4.linearPart ∧
        ((∀ m ∈ s.modelMatrices, m.isTranslation) →
          ∀ m ∈ t.modelMatrices, m.isTranslation) ∧
        (0 ≤ separation →
          ∀ i, i < LIGHT_GRID_WIDTH * LIGHT_GRID_WIDTH * LIGHT_GRID_HEIGHT →
            ∃ m : Mat4, t.modelMatrices[i]? = some m ∧ m.c3.w = 1)) ∧
    (∀ (env : Env) (radius separation yOffset : ℚ) (calls : List (ℚ × ℚ × ℚ)),
      ∃ t, updateMany (configurePointLights env [] [] radius separation yOffset) calls
          = some t ∧
        ∀ m ∈ t.modelMatrices, m.isTranslation) := by
  refine ⟨?_, ?_, ?_⟩
  · intro env radius separation yOffset m hm
    obtain ⟨h0, h1, h2, h3⟩ :=
      configurePointLights_isTranslation env radius separation yOffset m hm
    refine ⟨h0, h1, h2, ?_⟩
    rw [← h3]
  · intro s separation yOffset radius hm hc
    obtain ⟨t, ht, _, _, _, hlin⟩ := updatePointLights_frame s separation yOffset radius hm hc
    refine ⟨t, ht, hlin, ?_, ?_⟩
    · intro h0
      obtain ⟨t2, ht2, _, _, htr⟩ :=
        updatePointLights_isTranslation s separation yOffset radius hm hc h0
      rw [ht] at ht2
      cases ht2
      exact htr
    · intro hsep i hi
      obtain ⟨u, ⟨h1, _, _, _⟩, hu⟩ :=
        updatePointLights_updated s separation yOffset radius hsep hm hc
      rw [ht] at hu
      cases hu
      have hlen : i < s.modelMatrices.length := lt_of_lt_of_le hi hm
      exact ⟨_, h1.getElem? i hi hlen, rfl⟩
  · intro env radius separation yOffset calls
    obtain ⟨l1, l2⟩ := configurePointLights_lengths env [] [] radius separation yOffset
    simp only [List.length_nil, Nat.zero_add] at l1 l2
    exact updateMany_isTranslation calls _ (le_of_eq l1.symm) (le_of_eq l2.symm)
      (configurePointLights_isTranslation env radius separation yOffset)

/-- Witness of C18: the update of `sampleLights`, whose matrices are the
identity, with separation 0.67: the matrix of index 299 gets a translation
column with last component 1. -/
theorem transforms_translation_only_witness :
    LIGHT_GRID_WIDTH * LIGHT_GRID_WIDTH * LIGHT_GRID_HEIGHT
      ≤ sampleLights.modelMatrices.length ∧
    LIGHT_GRID_WIDTH * LIGHT_GRID_WIDTH * LIGHT_GRID_HEIGHT
      ≤ sampleLights.modelColorSizes.length ∧
    (0 : ℚ) ≤ 67 / 100 ∧
    299 < LIGHT_GRID_WIDTH * LIGHT_GRID_WIDTH * LIGHT_GRID_HEIGHT ∧
    ∃ t, updatePointLights sampleLights (67 / 100) (636 / 1000) 2 = some t ∧
      t.modelMatrices.map Mat4.linearPart = sampleLights.modelMatrices.map Mat4.linearPart ∧
      ∃ m : Mat4, t.modelMatrices[299]? = some m ∧ m.c3.w = 1 := by
  have hm := le_of_eq sampleLights_modelMatrices_length.symm
  have hc := le_of_eq sampleLights_modelColorSizes_length.symm
  obtain ⟨t, ht, hlin, _, hw⟩ :=
    transforms_translation_only.2.1 sampleLights (67 / 100) (636 / 1000) 2 hm hc
  exact ⟨hm, hc, by norm_num, by decide, t, ht, hlin, hw (by norm_num) 299 (by decide)⟩

/-- Two rewritings of vectors of `n` elements with writes whose image under
`g` does not depend on the element written over have the same image under `g`. -/
theorem Rewritten.map_const {α β : Type} {f : Nat → α → α} {n : Nat} {v0 v w0 w : List α}
    (hv : Rewritten f n v0 v) (hw : Rewritten f n w0 w) (lv : v0.length = n)
    (lw : w0.length = n) (g : α → β) (hg : ∀ i a b, g (f i a) = g (f i b)) :
    v.map g = w.map g := by
  apply List.ext_getElem?
  intro i
  rw [List.getElem?_map, List.getElem?_map, hv.2 i, hw.2 i]
  by_cases hi : i < n
  · have h1 : i < v0.length := by omega
    have h2 : i < w0.length := by omega
    simp only [if_pos hi, List.getElem?_eq_getElem h1, List.getElem?_eq_getElem h2,
      Option.map_some']
    rw [hg i v0[i] w0[i]]
  · have h1 : v0.length ≤ i := by omega
    have h2 : w0.length ≤ i := by omega
    simp only [if_neg hi, List.getElem?_eq_none h1, List.getElem?_eq_none h2]

/-- C20: `updatePointLights` overwrites rather than accumulates.  For two
triples of arguments with separations that are not negative and a state `s`
whose vectors have `LIGHT_GRID_WIDTH * LIGHT_GRID_WIDTH * LIGHT_GRID_HEIGHT`
elements: (1) the update with the first triple and then with the second
completes and leaves the two vectors that the update with the second triple
alone leaves; (2) after the two updates the matrix of every cell `(x, z, y)`
has the translation column the formula of the updater gives for the second
separation and vertical offset, and its colour/size record has the second
radius; (3) the translation columns and the radii after the two updates are
the same whatever state of that size the updates start from, and (4) whatever
jitter, radius, separation and offset the generator made the state with: the
positions and radii depend on the latest arguments only; (5) updating twice
with the same triple leaves the vectors of updating once. -/
theorem updatePointLights_overwrites (s : Lights)
    (separation1 yOffset1 radius1 separation2 yOffset2 radius2 : ℚ)
    (h1 : 0 ≤ separation1) (h2 : 0 ≤ separation2)
    (hm : s.modelMatrices.length = LIGHT_GRID_WIDTH * LIGHT_GRID_WIDTH * LIGHT_GRID_HEIGHT)
    (hc : s.modelColorSizes.length = LIGHT_GRID_WIDTH * LIGHT_GRID_WIDTH * LIGHT_GRID_HEIGHT) :
    (∃ t1 t12 t2,
      updatePointLights s separation1 yOffset1 radius1 = some t1 ∧
      updatePointLights t1 separation2 yOffset2 radius2 = some t12 ∧
      updatePointLights s separation2 yOffset2 radius2 = some t2 ∧
      t12.modelMatrices = t2.modelMatrices ∧
      t12.modelColorSizes = t2.modelColorSizes ∧
      (∀ x z y, x < LIGHT_GRID_WIDTH → z < LIGHT_GRID_WIDTH → y < LIGHT_GRID_HEIGHT →
        ∃ m c,
          t12.modelMatrices[x * LIGHT_GRID_WIDTH * LIGHT_GRID_HEIGHT
            + z * LIGHT_GRID_HEIGHT + y]? = some m ∧
          t12.modelColorSizes[x * LIGHT_GRID_WIDTH * LIGHT_GRID_HEIGHT
            + z * LIGHT_GRID_HEIGHT + y]? = some c ∧
          m.c3 =
            ⟨((x : ℚ) - ((LIGHT_GRID_WIDTH : ℚ) - 1) / 2)
                * (2 * INITIAL_POINT_LIGHT_RADIUS) * separation2,
             ((y : ℚ) - ((LIGHT_GRID_HEIGHT : ℚ) - 1) / 2)
                * (2 * INITIAL_POINT_LIGHT_RADIUS) * separation2 + yOffset2,
             ((z : ℚ) - ((LIGHT_GRID_WIDTH : ℚ) - 1) / 2)
                * (2 * INITIAL_POINT_LIGHT_RADIUS) * separation2,
             1⟩ ∧
          c.w = radius2) ∧
      (∀ s2 : Lights,
        s2.modelMatrices.length
          = LIGHT_GRID_WIDTH * LIGHT_GRID_WIDTH * LIGHT_GRID_HEIGHT →
        s2.modelColorSizes.length
          = LIGHT_GRID_WIDTH * LIGHT_GRID_WIDTH * LIGHT_GRID_HEIGHT →
        ∃ u1 u12,
          updatePointLights s2 separation1 yOffset1 radius1 = some u1 ∧
          updatePointLights u1 separation2 yOffset2 radius2 = some u12 ∧
          u12.modelMatrices.map Mat4.c3 = t12.modelMatrices.map Mat4.c3 ∧
          u12.modelColorSizes.map Vec4.w = t12.modelColorSizes.map Vec4.w) ∧
      (∀ (env : Env) (radius separation yOffset : ℚ),
        ∃ g1 g12,
          updatePointLights (configurePointLights env [] [] radius separation yOffset)
            separation1 yOffset1 radius1 = some g1 ∧
          updatePointLights g1 separation2 yOffset2 radius2 = some g12 ∧
          g12.modelMatrices.map Mat4.c3 = t12.modelMatrices.map Mat4.c3 ∧
          g12.modelColorSizes.map Vec4.w = t12.modelColorSizes.map Vec4.w)) ∧
    (∃ t2 t22,
      updatePointLights s separation2 yOffset2 radius2 = some t2 ∧
      updatePointLights t2 separation2 yOffset2 radius2 = some t22 ∧
      t22.modelMatrices = t2.modelMatrices ∧
      t22.modelColorSizes = t2.modelColorSizes) := by
  have hm2 : totalLights ≤ s.modelMatrices.length := le_of_eq hm.symm
  have hc2 : totalLights ≤ s.modelColorSizes.length := le_of_eq hc.symm
  obtain ⟨u1, ⟨a1, b1, _, _⟩, e1⟩ :=
    updatePointLights_updated s separation1 yOffset1 radius1 h1 hm2 hc2
  obtain ⟨u2, ⟨a2, b2, _, _⟩, e2⟩ :=
    updatePointLights_updated s separation2 yOffset2 radius2 h2 hm2 hc2
  have hl1 : totalLights ≤ (uploadMatrices u1).modelMatrices.length := by
    rw [uploadMatrices_modelMatrices, a1.1]; exact hm2
  have hl1c : totalLights ≤ (uploadMatrices u1).modelColorSizes.length := by
    rw [uploadMatrices_modelColorSizes, b1.1]; exact hc2
  obtain ⟨u12, ⟨a12, b12, _, _⟩, e12⟩ :=
    updatePointLights_updated (uploadMatrices u1) separation2 yOffset2 radius2 h2 hl1 hl1c
  have hl2 : totalLights ≤ (uploadMatrices u2).modelMatrices.length := by
    rw [uploadMatrices_modelMatrices, a2.1]; exact hm2
  have hl2c : totalLights ≤ (uploadMatrices u2).modelColorSizes.length := by
    rw [uploadMatrices_modelColorSizes, b2.1]; exact hc2
  obtain ⟨u22, ⟨a22, b22, _, _⟩, e22⟩ :=
    updatePointLights_updated (uploadMatrices u2) separation2 yOffset2 radius2 h2 hl2 hl2c
  have indep : ∀ s2 : Lights, s2.modelMatrices.length = totalLights →
      s2.modelColorSizes.length = totalLights →
      ∃ v1 v12,
        updatePointLights s2 separation1 yOffset1 radius1 = some v1 ∧
        updatePointLights v1 separation2 yOffset2 radius2 = some v12 ∧
        v12.modelMatrices.map Mat4.c3 = (uploadMatrices u12).modelMatrices.map Mat4.c3 ∧
        v12.modelColorSizes.map Vec4.w = (uploadMatrices u12).modelColorSizes.map Vec4.w := by
    intro s2 k1 k2
    obtain ⟨w1, ⟨c1, d1, _, _⟩, f1⟩ :=
      updatePointLights_updated s2 separation1 yOffset1 radius1 h1 (le_of_eq k1.symm)
        (le_of_eq k2.symm)
    have kl1 : (uploadMatrices w1).modelMatrices.length = totalLights := by
      rw [uploadMatrices_modelMatrices, c1.1]; exact k1
    have kl1c : (uploadMatrices w1).modelColorSizes.length = totalLights := by
      rw [uploadMatrices_modelColorSizes, d1.1]; exact k2
    obtain ⟨w12, ⟨c12, d12, _, _⟩, f12⟩ :=
      updatePointLights_updated (uploadMatrices w1) separation2 yOffset2 radius2 h2
        (le_of_eq kl1.symm) (le_of_eq kl1c.symm)
    have kl : (uploadMatrices u1).modelMatrices.length = totalLights := by
      rw [uploadMatrices_modelMatrices, a1.1]; exact hm
    have klc : (uploadMatrices u1).modelColorSizes.length = totalLights := by
      rw [uploadMatrices_modelColorSizes, b1.1]; exact hc
    refine ⟨_, _, f1, f12, ?_, ?_⟩
    · exact Rewritten.map_const c12 a12 kl1 kl Mat4.c3 (fun _ _ _ => rfl)
    · exact Rewritten.map_const d12 b12 kl1c klc Vec4.w (fun _ _ _ => rfl)
  refine ⟨⟨_, _, _, e1, e12, e2, ?_, ?_, ?_, ?_, ?_⟩, ⟨_, _, e2, e22, ?_, ?_⟩⟩
  · exact Rewritten.overwrite a1 a12 a2 (fun _ _ => rfl)
  · exact Rewritten.overwrite b1 b12 b2 (fun _ _ => rfl)
  · intro x z y hx hz hy
    have hlt : curLight x z y < totalLights := curLight_lt x z y hx hz hy
    have g1 := a12.getElem? (curLight x z y) hlt (by omega)
    have g2 := b12.getElem? (curLight x z y) hlt (by omega)
    refine ⟨_, _, g1, g2, ?_, rfl⟩
    simp only [relocate, Mat4.setTranslation, updatedTranslation, cellX_curLight x z y hz hy,
      cellZ_curLight x z y hz hy, cellY_curLight x z y hy, gridCoord, Vec4.mk.injEq]
    refine ⟨by ring, by ring, by ring, trivial⟩
  · exact indep
  · intro env radius separation yOffset
    obtain ⟨l1, l2⟩ := configurePointLights_lengths env [] [] radius separation yOffset
    simp only [List.length_nil, Nat.zero_add] at l1 l2
    exact indep _ l1 l2
  · exact Rewritten.overwrite a2 a22 a2 (fun _ _ => rfl)
  · exact Rewritten.overwrite b2 b22 b2 (fun _ _ => rfl)

/-- Witness of C20: `sampleLights` updated with `(1, 0, 2)` and then with
`(0.67, 0.636, 1)`: the vectors are those of the second update alone, and the
light of the cell `(0, 0, 0)` is at `(-3.99789, -0.25242, -3.99789)` with the
radius 1, the values of the second triple. -/
theorem updatePointLights_overwrites_witness :
    (0 : ℚ) ≤ 1 ∧ (0 : ℚ) ≤ 67 / 100 ∧
    sampleLights.modelMatrices.length
      = LIGHT_GRID_WIDTH * LIGHT_GRID_WIDTH * LIGHT_GRID_HEIGHT ∧
    sampleLights.modelColorSizes.length
      = LIGHT_GRID_WIDTH * LIGHT_GRID_WIDTH * LIGHT_GRID_HEIGHT ∧
    ∃ t1 t12 t2,
      updatePointLights sampleLights 1 0 2 = some t1 ∧
      updatePointLights t1 (67 / 100) (636 / 1000) 1 = some t12 ∧
      updatePointLights sampleLights (67 / 100) (636 / 1000) 1 = some t2 ∧
      t12.modelMatrices = t2.modelMatrices ∧
      t12.modelColorSizes = t2.modelColorSizes ∧
      ∃ m c, t12.modelMatrices[0]? = some m ∧ t12.modelColorSizes[0]? = some c ∧
        m.c3 = ⟨-399789 / 100000, -25242 / 100000, -399789 / 100000, 1⟩ ∧ c.w = 1 := by
  have hm := sampleLights_modelMatrices_length
  have hc := sampleLights_modelColorSizes_length
  obtain ⟨t1, t12, t2, e1, e12, e2, em, ec, hcells, _, _⟩ :=
    (updatePointLights_overwrites sampleLights 1 0 2 (67 / 100) (636 / 1000) 1
      (by norm_num) (by norm_num) hm hc).1
  obtain ⟨m, c, g1, g2, g3, g4⟩ := hcells 0 0 0 (by decide) (by decide) (by decide)
  refine ⟨by norm_num, by norm_num, hm, hc, t1, t12, t2, e1, e12, e2, em, ec, m, c, g1, g2,
    ?_, g4⟩
  rw [g3]
  norm_num [LIGHT_GRID_WIDTH, LIGHT_GRID_HEIGHT, INITIAL_POINT_LIGHT_RADIUS]

/-! ## The OpenGL state machine -/

theorem runGL_nil (g : GLState) : runGL g [] = g := rfl

theorem runGL_cons (g : GLState) (c : GLCmd) (cs : List GLCmd) :
    runGL g (c :: cs) = runGL (applyCmd g c) cs := rfl

theorem runGL_append (g : GLState) (a b : List GLCmd) :
    runGL g (a ++ b) = runGL (runGL g a) b := by
  simp [runGL, List.foldl_append]

theorem meshDraws_eq (sh : Shader) :
    meshDraws sh
      = [GLCmd.setUniform sh Uniform.model, GLCmd.drawModel (Model.meshModel 0) sh] :=
  rfl

theorem renderFrame_eq (app : App) :
    renderFrame app = beforePointLights app ++ pointLightPass app
      ++ (lightVolumeOverlay app ++ depthMapOverlay app) := by
  simp [renderFrame, beforePointLights, List.append_assoc]

theorem sameButMatrices_refl (g : GLState) : g.sameButMatrices g := rfl

theorem sameButMatrices_trans {g1 g2 g3 : GLState} (h12 : g1.sameButMatrices g2)
    (h23 : g2.sameButMatrices g3) : g1.sameButMatrices g3 := by
  unfold GLState.sameButMatrices at *
  rw [h23, h12]

theorem runGL_uploadCmds (g : GLState) (ms : List Mat4) :
    g.sameButMatrices (runGL g (uploadCmds ms)) := by
  simp [GLState.sameButMatrices, runGL, uploadCmds, applyCmd, GLState.bufferData]

theorem runGL_isUpload (g : GLState) (u : List GLCmd) (h : IsUpload u) :
    g.sameButMatrices (runGL g u) := by
  rcases h with h | ⟨ms, h⟩
  · subst h; exact sameButMatrices_refl g
  · subst h; exact runGL_uploadCmds g ms

theorem runGL_uiCmds (g : GLState) (cmds : List GLCmd) (h : UiCmds cmds) :
    g.sameButMatrices (runGL g cmds) := by
  obtain ⟨u1, u2, u3, d, rfl, h1, h2, h3, hd⟩ := h
  rw [runGL_append, runGL_append, runGL_append]
  refine sameButMatrices_trans (sameButMatrices_trans (sameButMatrices_trans
    (runGL_isUpload g u1 h1) (runGL_isUpload _ u2 h2)) (runGL_isUpload _ u3 h3)) ?_
  rcases hd with hd | hd
  · subst hd; exact sameButMatrices_refl _
  · subst hd; exact sameButMatrices_refl _

theorem runGL_endOfFrame (g : GLState) :
    runGL g [GLCmd.imguiRenderDrawData, GLCmd.swapBuffers] = g := rfl

/-! ## The control surface -/

/-- A completed call of `updatePointLights` in terms of the trace. -/
theorem updatePointLights_trace (s t : Lights) (separation yOffset radius : ℚ)
    (h : updatePointLights s separation yOffset radius = some t) :
    ∃ u, IsUpload u ∧ t.gl = s.gl ++ u ∧
      t.modelMatrices.length = s.modelMatrices.length ∧
      t.modelColorSizes.length = s.modelColorSizes.length := by
  obtain ⟨h1, h2, _, h4⟩ := updatePointLights_some s t separation yOffset radius h
  rcases h4 with h4 | h4
  · exact ⟨[], Or.inl rfl, by simp [h4], h1, h2⟩
  · exact ⟨uploadCmds t.modelMatrices, Or.inr ⟨_, rfl⟩, h4, h1, h2⟩

theorem sliderRadius_some (app a : App) (r : Option ℚ) (h : sliderRadius app r = some a) :
    ∃ u, IsUpload u ∧ a.lights.gl = app.lights.gl ++ u ∧
      a.lights.modelMatrices.length = app.lights.modelMatrices.length ∧
      a.lights.modelColorSizes.length = app.lights.modelColorSizes.length ∧
      a.colorSizeBufferDirty = r.isSome := by
  cases r with
  | none =>
    simp only [sliderRadius, Option.some.injEq] at h
    subst h
    exact ⟨[], Or.inl rfl, by simp, rfl, rfl, rfl⟩
  | some v =>
    simp only [sliderRadius] at h
    obtain ⟨l, hl, rfl⟩ := Option.map_eq_some'.mp h
    obtain ⟨u, hu, hgl, h1, h2⟩ := updatePointLights_trace _ _ _ _ _ hl
    exact ⟨u, hu, hgl, h1, h2, rfl⟩

theorem sliderSeparation_some (app a : App) (r : Option ℚ)
    (h : sliderSeparation app r = some a) :
    ∃ u, IsUpload u ∧ a.lights.gl = app.lights.gl ++ u ∧
      a.lights.modelMatrices.length = app.lights.modelMatrices.length ∧
      a.lights.modelColorSizes.length = app.lights.modelColorSizes.length ∧
      a.colorSizeBufferDirty = app.colorSizeBufferDirty := by
  cases r with
  | none =>
    simp only [sliderSeparation, Option.some.injEq] at h
    subst h
    exact ⟨[], Or.inl rfl, by simp, rfl, rfl, rfl⟩
  | some v =>
    simp only [sliderSeparation] at h
    obtain ⟨l, hl, rfl⟩ := Option.map_eq_some'.mp h
    obtain ⟨u, hu, hgl, h1, h2⟩ := updatePointLights_trace _ _ _ _ _ hl
    exact ⟨u, hu, hgl, h1, h2, rfl⟩

theorem sliderVerticalOffset_some (app a : App) (r : Option ℚ)
    (h : sliderVerticalOffset app r = some a) :
    ∃ u, IsUpload u ∧ a.lights.gl = app.lights.gl ++ u ∧
      a.lights.modelMatrices.length = app.lights.modelMatrices.length ∧
      a.lights.modelColorSizes.length = app.lights.modelColorSizes.length ∧
      a.colorSizeBufferDirty = app.colorSizeBufferDirty := by
  cases r with
  | none =>
    simp only [sliderVerticalOffset, Option.some.injEq] at h
    subst h
    exact ⟨[], Or.inl rfl, by simp, rfl, rfl, rfl⟩
  | some v =>
    simp only [sliderVerticalOffset] at h
    obtain ⟨l, hl, rfl⟩ := Option.map_eq_some'.mp h
    obtain ⟨u, hu, hgl, h1, h2⟩ := updatePointLights_trace _ _ _ _ _ hl
    exact ⟨u, hu, hgl, h1, h2, rfl⟩

theorem pointLightControls_some (app a : App) (ui : ControlInput)
    (h : pointLightControls app ui = some a) :
    ∃ u1 u2 u3, IsUpload u1 ∧ IsUpload u2 ∧ IsUpload u3 ∧
      a.lights.gl = app.lights.gl ++ u1 ++ u2 ++ u3 ∧
      a.lights.modelMatrices.length = app.lights.modelMatrices.length ∧
      a.lights.modelColorSizes.length = app.lights.modelColorSizes.length ∧
      a.colorSizeBufferDirty = ui.radius.isSome := by
  unfold pointLightControls at h
  obtain ⟨a1, h1, h⟩ := Option.bind_eq_some.mp h
  obtain ⟨a2, h2, h3⟩ := Option.bind_eq_some.mp h
  obtain ⟨u1, hu1, g1, m1, c1, d1⟩ := sliderRadius_some _ _ _ h1
  obtain ⟨u2, hu2, g2, m2, c2, d2⟩ := sliderSeparation_some _ _ _ h2
  obtain ⟨u3, hu3, g3, m3, c3, d3⟩ := sliderVerticalOffset_some _ _ _ h3
  refine ⟨u1, u2, u3, hu1, hu2, hu3, ?_, ?_, ?_, ?_⟩
  · rw [g3, g2, g1]
  · rw [m3, m2, m1]
  · rw [c3, c2, c1]
  · rw [d3, d2, d1]

theorem lightingControls_some (app a : App) (ui : ControlInput)
    (h : lightingControls app ui = some a) :
    ∃ u1 u2 u3, IsUpload u1 ∧ IsUpload u2 ∧ IsUpload u3 ∧
      a.lights.gl = app.lights.gl ++ u1 ++ u2 ++ u3 ∧
      a.lights.modelMatrices.length = app.lights.modelMatrices.length ∧
      a.lights.modelColorSizes.length = app.lights.modelColorSizes.length ∧
      a.colorSizeBufferDirty
        = if ui.pointLightsShown = true then ui.radius.isSome else app.colorSizeBufferDirty := by
  unfold lightingControls at h
  by_cases hl : ui.lightingConfigOpen = true
  · rw [if_pos hl] at h
    by_cases hp : ui.pointLightsOpen = true
    · dsimp only at h
      rw [if_pos hp] at h
      obtain ⟨u1, u2, u3, hu1, hu2, hu3, hg, hm, hc, hd⟩ := pointLightControls_some _ _ _ h
      refine ⟨u1, u2, u3, hu1, hu2, hu3, ?_, ?_, ?_, ?_⟩
      · rw [hg]; split <;> rfl
      · rw [hm]; split <;> rfl
      · rw [hc]; split <;> rfl
      · simp [ControlInput.pointLightsShown, hl, hp, hd]
    · dsimp only at h
      rw [if_neg hp] at h
      simp only [Option.some.injEq] at h
      subst h
      refine ⟨[], [], [], Or.inl rfl, Or.inl rfl, Or.inl rfl, ?_, ?_, ?_, ?_⟩
      · split <;> simp
      · split <;> rfl
      · split <;> rfl
      · simp only [ControlInput.pointLightsShown, hl, hp, Bool.true_and, Bool.false_eq_true,
          if_false]
        split <;> rfl
  · rw [if_neg hl] at h
    simp only [Option.some.injEq] at h
    subst h
    refine ⟨[], [], [], Or.inl rfl, Or.inl rfl, Or.inl rfl, by simp, rfl, rfl, ?_⟩
    simp [ControlInput.pointLightsShown, hl]

theorem debugControls_spec (app : App) (ui : ControlInput) :
    ∃ d, (d = [] ∨ d = [GLCmd.setUniform Shader.shaderLightingPass Uniform.gBufferMode]) ∧
      (debugControls app ui).lights.gl = app.lights.gl ++ d ∧
      (debugControls app ui).lights.modelMatrices = app.lights.modelMatrices ∧
      (debugControls app ui).lights.modelColorSizes = app.lights.modelColorSizes ∧
      (debugControls app ui).colorSizeBufferDirty = app.colorSizeBufferDirty := by
  unfold debugControls
  by_cases hd : ui.debugOpen = true
  · rw [if_pos hd]
    exact ⟨_, Or.inr rfl, rfl, rfl, rfl, rfl⟩
  · rw [if_neg hd]
    exact ⟨[], Or.inl rfl, by simp, rfl, rfl, rfl⟩

theorem controlSurface_some (app a : App) (ui : ControlInput)
    (h : controlSurface app ui = some a) :
    ∃ cmds, UiCmds cmds ∧ a.lights.gl = app.lights.gl ++ cmds ∧
      a.lights.modelMatrices.length = app.lights.modelMatrices.length ∧
      a.lights.modelColorSizes.length = app.lights.modelColorSizes.length ∧
      a.colorSizeBufferDirty
        = if ui.pointLightsShown = true then ui.radius.isSome else app.colorSizeBufferDirty := by
  unfold controlSurface at h
  obtain ⟨b, hb, rfl⟩ := Option.map_eq_some'.mp h
  obtain ⟨u1, u2, u3, hu1, hu2, hu3, hg, hm, hc, hd⟩ := lightingControls_some _ _ _ hb
  obtain ⟨d, hd1, hd2, hd3, hd4, hd5⟩ := debugControls_spec b ui
  refine ⟨u1 ++ u2 ++ u3 ++ d, ⟨u1, u2, u3, d, rfl, hu1, hu2, hu3, hd1⟩, ?_, ?_, ?_, ?_⟩
  · rw [hd2, hg]; simp [List.append_assoc]
  · rw [hd3, hm]
  · rw [hd4, hc]
  · rw [hd5, hd]

/-- What a completed frame does to the trace, to the lengths of the vectors
and to the dirty flag. -/
theorem frame_some (app a : App) (ui : ControlInput) (h : frame app ui = some a) :
    ∃ cmds, UiCmds cmds ∧
      a.lights.gl = app.lights.gl ++ renderFrame app ++ cmds
        ++ [GLCmd.imguiRenderDrawData, GLCmd.swapBuffers] ∧
      a.lights.modelMatrices.length = app.lights.modelMatrices.length ∧
      a.lights.modelColorSizes.length = app.lights.modelColorSizes.length ∧
      a.colorSizeBufferDirty
        = if ui.pointLightsShown = true then ui.radius.isSome else app.colorSizeBufferDirty := by
  unfold frame at h
  obtain ⟨b, hb, rfl⟩ := Option.map_eq_some'.mp h
  obtain ⟨cmds, hu, hg, hm, hc, hd⟩ := controlSurface_some _ _ _ hb
  refine ⟨cmds, hu, ?_, hm, hc, hd⟩
  simp only [hg]

/-! ## Every frame completes -/

theorem sliderRadius_total (app : App) (r : Option ℚ) (h : app.ready) :
    ∃ a, sliderRadius app r = some a := by
  cases r with
  | none => exact ⟨_, rfl⟩
  | some v =>
    obtain ⟨t, ht, _⟩ := updatePointLights_frame app.lights app.pointLightSeparation
      app.pointLightVerticalOffset v h.1 h.2
    simp only [sliderRadius, ht, Option.map_some']
    exact ⟨_, rfl⟩

theorem sliderSeparation_total (app : App) (r : Option ℚ) (h : app.ready) :
    ∃ a, sliderSeparation app r = some a := by
  cases r with
  | none => exact ⟨_, rfl⟩
  | some v =>
    obtain ⟨t, ht, _⟩ := updatePointLights_frame app.lights v
      app.pointLightVerticalOffset app.pointLightRadius h.1 h.2
    simp only [sliderSeparation, ht, Option.map_some']
    exact ⟨_, rfl⟩

theorem sliderVerticalOffset_total (app : App) (r : Option ℚ) (h : app.ready) :
    ∃ a, sliderVerticalOffset app r = some a := by
  cases r with
  | none => exact ⟨_, rfl⟩
  | some v =>
    obtain ⟨t, ht, _⟩ := updatePointLights_frame app.lights app.pointLightSeparation v
      app.pointLightRadius h.1 h.2
    simp only [sliderVerticalOffset, ht, Option.map_some']
    exact ⟨_, rfl⟩

theorem pointLightControls_total (app : App) (ui : ControlInput) (h : app.ready) :
    ∃ a, pointLightControls app ui = some a := by
  obtain ⟨a1, h1⟩ := sliderRadius_total app ui.radius h
  obtain ⟨_, _, _, m1, c1, _⟩ := sliderRadius_some _ _ _ h1
  have r1 : a1.ready := ⟨by rw [m1]; exact h.1, by rw [c1]; exact h.2⟩
  obtain ⟨a2, h2⟩ := sliderSeparation_total a1 ui.separation r1
  obtain ⟨_, _, _, m2, c2, _⟩ := sliderSeparation_some _ _ _ h2
  have r2 : a2.ready := ⟨by rw [m2]; exact r1.1, by rw [c2]; exact r1.2⟩
  obtain ⟨a3, h3⟩ := sliderVerticalOffset_total a2 ui.verticalOffset r2
  exact ⟨a3, by simp only [pointLightControls, h1, h2, h3, Option.some_bind]⟩

theorem lightingControls_total (app : App) (ui : ControlInput) (h : app.ready) :
    ∃ a, lightingControls app ui = some a := by
  unfold lightingControls
  by_cases hl : ui.lightingConfigOpen = true
  · rw [if_pos hl]
    dsimp only
    by_cases hp : ui.pointLightsOpen = true
    · rw [if_pos hp]
      apply pointLightControls_total
      split <;> exact h
    · rw [if_neg hp]
      exact ⟨_, rfl⟩
  · rw [if_neg hl]
    exact ⟨_, rfl⟩

theorem frame_total (app : App) (ui : ControlInput) (h : app.ready) :
    ∃ a, frame app ui = some a ∧ a.ready := by
  have h1 : App.ready { app with
      lights := { app.lights with gl := app.lights.gl ++ renderFrame app }
      quadVAO := if app.quadVAO = 0 then quadVAOName else app.quadVAO } := h
  obtain ⟨b, hb⟩ := lightingControls_total _ ui h1
  have hf : frame app ui = some
      { debugControls b ui with lights := { (debugControls b ui).lights with
          gl := (debugControls b ui).lights.gl
            ++ [GLCmd.imguiRenderDrawData, GLCmd.swapBuffers] } } := by
    simp only [frame, controlSurface, hb, Option.map_some']
  refine ⟨_, hf, ?_⟩
  obtain ⟨_, _, _, hm, hc, _⟩ := frame_some _ _ _ hf
  exact ⟨by rw [hm]; exact h.1, by rw [hc]; exact h.2⟩

theorem setup_ready (env : Env) : (setup env).ready := by
  obtain ⟨l1, l2⟩ := configurePointLights_lengths env [] [] INITIAL_POINT_LIGHT_RADIUS
    (670 / 1000) (636 / 1000)
  simp only [List.length_nil, Nat.zero_add] at l1 l2
  exact ⟨le_of_eq l1.symm, le_of_eq l2.symm⟩

/-- Invariant rule for the render loop: a property of the start states that
every completed frame keeps holds after every run, and every run completes. -/
theorem runFrames_induction (P : App → Prop)
    (hstep : ∀ app ui a, P app → app.ready → frame app ui = some a → P a)
    (uis : List ControlInput) (app : App) (h0 : P app) (hr : app.ready) :
    ∃ a, runFrames app uis = some a ∧ P a ∧ a.ready := by
  induction uis generalizing app with
  | nil => exact ⟨app, rfl, h0, hr⟩
  | cons ui rest ih =>
    obtain ⟨b, hb, hbr⟩ := frame_total app ui hr
    obtain ⟨a, ha, hPa, har⟩ := ih b (hstep app ui b h0 hr hb) hbr
    refine ⟨a, ?_, hPa, har⟩
    simp only [runFrames, List.foldlM_cons, hb] at ha ⊢
    exact ha

/-- The OpenGL state after a completed frame. -/
theorem frame_gpu (app a : App) (ui : ControlInput) (h : frame app ui = some a) :
    (runGL app.gpu (renderFrame app)).sameButMatrices a.gpu := by
  obtain ⟨cmds, hu, hg, _, _, _⟩ := frame_some app a ui h
  have e : a.gpu = runGL (runGL app.gpu (renderFrame app)) cmds := by
    simp only [App.gpu, hg, runGL_append, runGL_endOfFrame]
  rw [e]
  exact runGL_uiCmds _ cmds hu

/-! ## The passes and the OpenGL state -/

theorem sameButMatrices_raster {g1 g2 : GLState} (h : g1.sameButMatrices g2) :
    g2.raster = g1.raster := by
  unfold GLState.sameButMatrices at h
  rw [h]
  rfl

theorem sameButMatrices_polygonMode {g1 g2 : GLState} (h : g1.sameButMatrices g2) :
    g2.polygonMode = g1.polygonMode := by
  unfold GLState.sameButMatrices at h
  rw [h]

theorem sameButMatrices_colorSizeBuffer {g1 g2 : GLState} (h : g1.sameButMatrices g2) :
    g2.colorSizeBuffer = g1.colorSizeBuffer := by
  unfold GLState.sameButMatrices at h
  rw [h]

/-- The calls before the pass of the point lights leave culling, blending,
the winding, the polygon mode and the colour/size buffer as they are, and end
with the depth test enabled and the depth of the default framebuffer written
by the quad of the lighting pass. -/
theorem beforePointLights_state (app : App) (g : GLState) :
    (runGL g (beforePointLights app)).raster = g.raster ∧
    (runGL g (beforePointLights app)).polygonMode = g.polygonMode ∧
    (runGL g (beforePointLights app)).colorSizeBuffer = g.colorSizeBuffer ∧
    (runGL g (beforePointLights app)).depthTest = true ∧
    (runGL g (beforePointLights app)).defaultDepth = DepthContent.other ∧
    (runGL g (beforePointLights app)).drawFramebuffer = Framebuffer.zero := by
  by_cases hm : app.gBufferMode = 0 <;> cases hs : app.enableShadows <;>
    by_cases hq : app.quadVAO = 0 <;>
    simp [beforePointLights, shadowPass, geometryPass, lightingPass, renderQuad,
      meshDraws_eq, runGL, applyCmd, hm, hs, hq, GLState.raster, GLState.afterDraw,
      GLState.setCapability, GLState.gBufferBindOutput, GLState.frameBufferUnbind,
      GLState.bufferData]

/-- The pass of the point lights, when it runs, ends with culling and
blending disabled and the front faces counter-clockwise, whatever they were,
and with the depth test disabled; it leaves the polygon mode and the depth
of the default framebuffer as they are. -/
theorem pointLightPass_state (app : App) (g : GLState) (hm : app.gBufferMode = 0)
    (hz : g.drawFramebuffer = Framebuffer.zero) :
    (runGL g (pointLightPass app)).raster = (false, false, Winding.ccw) ∧
    (runGL g (pointLightPass app)).polygonMode = g.polygonMode ∧
    (runGL g (pointLightPass app)).depthTest = false ∧
    (runGL g (pointLightPass app)).defaultDepth = g.defaultDepth ∧
    (runGL g (pointLightPass app)).drawFramebuffer = Framebuffer.zero ∧
    (runGL g (pointLightPass app)).colorSizeBuffer
      = if app.colorSizeBufferDirty = true then
          BufferData.vec4s (app.lights.modelColorSizes.take
            (LIGHT_GRID_WIDTH * LIGHT_GRID_WIDTH * LIGHT_GRID_HEIGHT))
        else g.colorSizeBuffer := by
  cases hd : app.colorSizeBufferDirty <;>
    simp [pointLightPass, runGL, applyCmd, hm, hd, hz, GLState.raster, GLState.afterDraw,
      GLState.setCapability, GLState.bufferData]

theorem pointLightPass_skipped (app : App) (hm : app.gBufferMode ≠ 0) :
    pointLightPass app = [] ∧ lightVolumeOverlay app = [] := by
  simp [pointLightPass, lightVolumeOverlay, hm]

/-- The two overlays leave culling, blending, the winding and the colour/size
buffer as they are, and end with the polygon mode they found or, when the
overlay of the light volumes runs, with `GL_FILL`. -/
theorem overlays_state (app : App) (g : GLState) :
    (runGL g (lightVolumeOverlay app ++ depthMapOverlay app)).raster = g.raster ∧
    (runGL g (lightVolumeOverlay app ++ depthMapOverlay app)).colorSizeBuffer
      = g.colorSizeBuffer ∧
    (runGL g (lightVolumeOverlay app)).polygonMode
      = (if app.drawPointLights = true ∧ app.gBufferMode = 0 then PolygonMode.fill
          else g.polygonMode) ∧
    (runGL g (lightVolumeOverlay app ++ depthMapOverlay app)).polygonMode
      = (if app.drawPointLights = true ∧ app.gBufferMode = 0 then PolygonMode.fill
          else g.polygonMode) := by
  by_cases hm : app.gBufferMode = 0 <;> cases hd : app.drawPointLights <;>
    cases hs : app.showDepthMap <;> cases hw : app.drawPointLightsWireframe <;>
    simp [lightVolumeOverlay, depthMapOverlay, renderQuad, quadVAOName, runGL, applyCmd, hm,
      hd, hs, hw, GLState.raster, GLState.afterDraw, GLState.setCapability,
      GLState.gBufferBindRead, GLState.frameBufferUnbind, GLState.bufferData] <;>
    split <;> simp

/-- The state after the passes of a frame. -/
theorem renderFrame_state (app : App) (g : GLState) :
    (runGL g (renderFrame app)).raster
      = (if app.gBufferMode = 0 then (false, false, Winding.ccw) else g.raster) ∧
    (runGL g (renderFrame app)).polygonMode
      = (if app.drawPointLights = true ∧ app.gBufferMode = 0 then PolygonMode.fill
          else g.polygonMode) ∧
    (runGL g (renderFrame app)).colorSizeBuffer
      = (if app.gBufferMode = 0 ∧ app.colorSizeBufferDirty = true then
          BufferData.vec4s (app.lights.modelColorSizes.take
            (LIGHT_GRID_WIDTH * LIGHT_GRID_WIDTH * LIGHT_GRID_HEIGHT))
        else g.colorSizeBuffer) := by
  obtain ⟨b1, b2, b3, _, _, b6⟩ := beforePointLights_state app g
  rw [renderFrame_eq, runGL_append, runGL_append g]
  obtain ⟨o1, o2, _, o4⟩ := overlays_state app
    (runGL (runGL g (beforePointLights app)) (pointLightPass app))
  rw [o1, o2, o4]
  by_cases hm : app.gBufferMode = 0
  · obtain ⟨p1, p2, _, _, _, p6⟩ :=
      pointLightPass_state app (runGL g (beforePointLights app)) hm b6
    rw [p1, p2, p6, b2, b3]
    simp [hm]
  · rw [(pointLightPass_skipped app hm).1, runGL_nil, b1, b2, b3]
    simp [hm]

theorem uiCmds_mem (cmds : List GLCmd) (h : UiCmds cmds) (c : GLCmd) (hc : c ∈ cmds) :
    (∃ b, c = GLCmd.bindArrayBuffer b) ∨ (∃ d, c = GLCmd.bufferDataMat4 d) ∨
      c = GLCmd.setUniform Shader.shaderLightingPass Uniform.gBufferMode := by
  have hup : ∀ u, IsUpload u → c ∈ u →
      (∃ b, c = GLCmd.bindArrayBuffer b) ∨ (∃ d, c = GLCmd.bufferDataMat4 d) ∨
        c = GLCmd.setUniform Shader.shaderLightingPass Uniform.gBufferMode := by
    intro u hu hcu
    rcases hu with hu | ⟨ms, hu⟩
    · subst hu; cases hcu
    · subst hu
      simp only [uploadCmds, List.mem_cons, List.mem_singleton, List.not_mem_nil,
        or_false] at hcu
      rcases hcu with hcu | hcu | hcu
      · exact Or.inl ⟨_, hcu⟩
      · exact Or.inr (Or.inl ⟨_, hcu⟩)
      · exact Or.inl ⟨_, hcu⟩
  obtain ⟨u1, u2, u3, d, rfl, h1, h2, h3, hd⟩ := h
  simp only [List.mem_append] at hc
  rcases hc with ((hc | hc) | hc) | hc
  · exact hup u1 h1 hc
  · exact hup u2 h2 hc
  · exact hup u3 h3 hc
  · rcases hd with hd | hd
    · subst hd; cases hc
    · subst hd
      simp only [List.mem_singleton] at hc
      exact Or.inr (Or.inr hc)

theorem shadowPass_plain (app : App) :
    ∀ c ∈ shadowPass app,
      c ≠ GLCmd.enable Capability.blend ∧ c.isInstancedDraw = false := by
  cases hs : app.enableShadows <;>
    simp [shadowPass, meshDraws_eq, hs, GLCmd.isInstancedDraw]

theorem geometryPass_plain :
    ∀ c ∈ geometryPass,
      c ≠ GLCmd.enable Capability.blend ∧ c.isInstancedDraw = false := by
  simp [geometryPass, meshDraws_eq, GLCmd.isInstancedDraw]

theorem lightingPass_plain (app : App) :
    ∀ c ∈ lightingPass app,
      c ≠ GLCmd.enable Capability.blend ∧ c.isInstancedDraw = false := by
  by_cases hm : app.gBufferMode = 0 <;> by_cases hq : app.quadVAO = 0 <;>
    simp [lightingPass, renderQuad, hm, hq, GLCmd.isInstancedDraw]

theorem depthMapOverlay_plain (app : App) :
    ∀ c ∈ depthMapOverlay app,
      c ≠ GLCmd.enable Capability.blend ∧ c.isInstancedDraw = false := by
  cases hd : app.showDepthMap <;>
    simp [depthMapOverlay, renderQuad, quadVAOName, hd, GLCmd.isInstancedDraw]

/-- With a view mode other than 0 the passes of a frame never enable
blending and issue no instanced draw. -/
theorem renderFrame_debugView (app : App) (hm : app.gBufferMode ≠ 0) :
    ∀ c ∈ renderFrame app,
      c ≠ GLCmd.enable Capability.blend ∧ c.isInstancedDraw = false := by
  intro c hc
  simp only [renderFrame, (pointLightPass_skipped app hm).1, (pointLightPass_skipped app hm).2,
    List.append_nil, List.mem_append, List.mem_cons, List.mem_singleton, List.not_mem_nil,
    or_false] at hc
  rcases hc with (((hc | hc) | hc) | hc) | hc
  · rcases hc with hc | hc <;> subst hc <;> simp [GLCmd.isInstancedDraw]
  · exact shadowPass_plain app c hc
  · exact geometryPass_plain c hc
  · exact lightingPass_plain app c hc
  · exact depthMapOverlay_plain app c hc

/-! ## The claims on the render loop -/

/-- A frame in which every header of the panel is closed: no widget under a
header is called, so the view mode, the dirty flag and the vector of colours
and sizes are as before. -/
theorem frame_collapsed (app : App) :
    ∃ a, frame app collapsed = some a ∧ a.gBufferMode = app.gBufferMode ∧
      a.colorSizeBufferDirty = app.colorSizeBufferDirty ∧
      a.lights.modelColorSizes = app.lights.modelColorSizes :=
  ⟨_, rfl, rfl, rfl, rfl⟩

/-- The dirty flag after a completed frame: when the slider "Radius" is shown
(the headers "Lighting Config" and "Point Lights" are both open) the flag is
true if the slider changed in that frame and false otherwise; when the slider
is not shown neither assignment to the flag is reached and it keeps the value
it had before. -/
theorem dirty_flag_after_frame (app a : App) (ui : ControlInput)
    (h : frame app ui = some a) :
    (ui.pointLightsShown = true → a.colorSizeBufferDirty = ui.radiusChanged) ∧
    (ui.pointLightsShown = false → a.colorSizeBufferDirty = app.colorSizeBufferDirty) := by
  obtain ⟨_, _, _, _, _, d⟩ := frame_some _ _ _ h
  constructor
  · intro hs
    rw [d, if_pos hs]
    simp [ControlInput.radiusChanged, hs]
  · intro hs
    rw [d, hs]
    rfl

/-- C14: in a frame whose view mode of the G-buffer is not 0, whatever the
other settings and the inputs of the user, the pass of the point lights and
the overlay of the light volumes are empty, and no call of the frame (the
passes, the control surface, the end of the frame) enables blending or is an
instanced draw. -/
theorem debug_view_skips_point_lights (app a : App) (ui : ControlInput)
    (hm : app.gBufferMode ≠ 0) (h : frame app ui = some a) :
    pointLightPass app = [] ∧ lightVolumeOverlay app = [] ∧
    ∃ cmds, a.lights.gl = app.lights.gl ++ cmds ∧
      GLCmd.enable Capability.blend ∉ cmds ∧
      ∀ n, GLCmd.drawElementsInstanced n ∉ cmds := by
  obtain ⟨ui_cmds, hu, hg, _, _, _⟩ := frame_some _ _ _ h
  have hall : ∀ c ∈ renderFrame app ++ ui_cmds
      ++ [GLCmd.imguiRenderDrawData, GLCmd.swapBuffers],
      c ≠ GLCmd.enable Capability.blend ∧ c.isInstancedDraw = false := by
    intro c hc
    simp only [List.mem_append, List.mem_cons, List.mem_singleton, List.not_mem_nil,
      or_false] at hc
    rcases hc with (hc | hc) | hc
    · exact renderFrame_debugView app hm c hc
    · rcases uiCmds_mem ui_cmds hu c hc with ⟨b, rfl⟩ | ⟨d, rfl⟩ | rfl <;>
        simp [GLCmd.isInstancedDraw]
    · rcases hc with rfl | rfl <;> simp [GLCmd.isInstancedDraw]
  refine ⟨(pointLightPass_skipped app hm).1, (pointLightPass_skipped app hm).2,
    renderFrame app ++ ui_cmds ++ [GLCmd.imguiRenderDrawData, GLCmd.swapBuffers], ?_, ?_, ?_⟩
  · rw [hg]; simp [List.append_assoc]
  · intro hmem
    exact (hall _ hmem).1 rfl
  · intro n hmem
    have := (hall _ hmem).2
    simp [GLCmd.isInstancedDraw] at this

/-- Witness of C14: a frame that starts with the view mode 1 and in which the
user moves the slider "Radius". -/
theorem debug_view_skips_point_lights_witness :
    debugViewStart.gBufferMode ≠ 0 ∧
    ∃ a, frame debugViewStart (panel 1 (some 2)) = some a ∧
      pointLightPass debugViewStart = [] ∧ lightVolumeOverlay debugViewStart = [] ∧
      ∃ cmds, a.lights.gl = debugViewStart.lights.gl ++ cmds ∧
        GLCmd.enable Capability.blend ∉ cmds ∧
        ∀ n, GLCmd.drawElementsInstanced n ∉ cmds := by
  have hm : debugViewStart.gBufferMode ≠ 0 := by decide
  obtain ⟨a, h, _⟩ := frame_total debugViewStart (panel 1 (some 2)) (setup_ready zeroEnv)
  exact ⟨hm, a, h, debug_view_skips_point_lights debugViewStart a (panel 1 (some 2)) hm h⟩

theorem setup_gpu (env : Env) :
    (setup env).gpu.raster = (false, false, Winding.ccw) ∧
    (setup env).gpu.polygonMode = PolygonMode.fill ∧
    (setup env).gpu.colorSizeBuffer
      = BufferData.vec4s ((setup env).lights.modelColorSizes.take totalLights) := by
  simp [App.gpu, setup, setupCmds, runGL, applyCmd, GLState.initial, GLState.raster,
    GLState.setCapability, GLState.gBufferBindOutput, GLState.frameBufferUnbind,
    GLState.bufferData]

/-- At the start of every frame of every run culling and blending are
disabled, the front faces are counter-clockwise and polygons are filled. -/
theorem runFrames_gpu (env : Env) (uis : List ControlInput) :
    ∃ a, runFrames (setup env) uis = some a ∧
      (a.gpu.raster = (false, false, Winding.ccw) ∧ a.gpu.polygonMode = PolygonMode.fill) ∧
      a.ready := by
  apply runFrames_induction
    (fun a => a.gpu.raster = (false, false, Winding.ccw) ∧ a.gpu.polygonMode = PolygonMode.fill)
  · intro app ui a ⟨hr, hp⟩ _ h
    have hs := frame_gpu app a ui h
    obtain ⟨s1, s2, _⟩ := renderFrame_state app app.gpu
    rw [sameButMatrices_raster hs, sameButMatrices_polygonMode hs, s1, s2, hr, hp]
    constructor
    · split <;> rfl
    · split <;> rfl
  · exact ⟨(setup_gpu env).1, (setup_gpu env).2.1⟩
  · exact setup_ready env

/-- C15: (1) the pass of the point lights, when it runs, ends with face culling
disabled, blending disabled and the front faces counter-clockwise, whatever the
state before it.  (2) In every frame of every run of the program these three
settings have these values at the start of the frame, directly before the pass
and directly after it, so the pass restores them; and they have these values
at the end of every frame (the start of the next one). -/
theorem raster_state_restored :
    (∀ (app : App) (g : GLState), app.gBufferMode = 0 →
      (runGL g (pointLightPass app)).cullFace = false ∧
      (runGL g (pointLightPass app)).blend = false ∧
      (runGL g (pointLightPass app)).frontFace = Winding.ccw) ∧
    (∀ (env : Env) (uis : List ControlInput),
      ∃ app, runFrames (setup env) uis = some app ∧
        (app.gpu.cullFace = false ∧ app.gpu.blend = false ∧
          app.gpu.frontFace = Winding.ccw) ∧
        (runGL app.gpu (beforePointLights app)).raster = (false, false, Winding.ccw) ∧
        (runGL app.gpu (beforePointLights app ++ pointLightPass app)).raster
          = (false, false, Winding.ccw) ∧
        (runGL app.gpu (renderFrame app)).raster = (false, false, Winding.ccw)) := by
  refine ⟨?_, ?_⟩
  · intro app g hm
    by_cases hd : app.colorSizeBufferDirty = true <;>
      simp [pointLightPass, runGL, applyCmd, hm, hd, GLState.afterDraw,
        GLState.setCapability, GLState.bufferData]
  · intro env uis
    obtain ⟨app, ha, ⟨hr, _⟩, _⟩ := runFrames_gpu env uis
    obtain ⟨b1, _, _, _, _, b6⟩ := beforePointLights_state app app.gpu
    refine ⟨app, ha, ?_, ?_, ?_, ?_⟩
    · simp only [GLState.raster, Prod.mk.injEq] at hr
      exact hr
    · rw [b1, hr]
    · rw [runGL_append]
      by_cases hm : app.gBufferMode = 0
      · exact (pointLightPass_state app _ hm b6).1
      · rw [(pointLightPass_skipped app hm).1, runGL_nil, b1, hr]
    · rw [(renderFrame_state app app.gpu).1, hr]
      split <;> rfl

/-- Witness of C15: the pass of the point lights of the first frame of the
program, run from the state in which culling and blending are enabled and the
front faces are clockwise. -/
theorem raster_state_restored_witness :
    (setup zeroEnv).gBufferMode = 0 ∧
    (runGL { GLState.initial with cullFace := true, blend := true, frontFace := Winding.cw }
      (pointLightPass (setup zeroEnv))).cullFace = false ∧
    (runGL { GLState.initial with cullFace := true, blend := true, frontFace := Winding.cw }
      (pointLightPass (setup zeroEnv))).blend = false ∧
    (runGL { GLState.initial with cullFace := true, blend := true, frontFace := Winding.cw }
      (pointLightPass (setup zeroEnv))).frontFace = Winding.ccw :=
  ⟨rfl, raster_state_restored.1 (setup zeroEnv)
    { GLState.initial with cullFace := true, blend := true, frontFace := Winding.cw } rfl⟩

theorem meshModels_drawn (sh : Shader) :
    (List.range objectCount).map (fun i => GLCmd.drawModel (Model.meshModel i) sh)
      = [GLCmd.drawModel (Model.meshModel 0) sh] := rfl

set_option maxHeartbeats 1000000 in
/-- C16: in every frame the shadow pass binds the shadow depth target and,
with shadows disabled, contains no draw call.  Whatever the state of OpenGL at
the start of the frame, the depth clears and draw calls issued in the frame
while the shadow depth target is the draw target are: with shadows disabled,
the clear of the depth buffer and nothing else; with shadows enabled, the
clear of the depth buffer, then the draw of the floor and the draw of every
scene mesh.  The passes end with the default framebuffer as the draw target. -/
theorem shadow_target_events (app : App) (g : GLState) :
    GLCmd.bindFramebuffer Framebuffer.depthMapFBO ∈ shadowPass app ∧
    (app.enableShadows = false → ∀ c ∈ shadowPass app, c.isDraw = false) ∧
    targetEvents Framebuffer.depthMapFBO g (renderFrame app)
      = (if app.enableShadows = true then
          [GLCmd.clear false true, GLCmd.drawArrays Primitive.triangles 6]
            ++ (List.range objectCount).map
                (fun i => GLCmd.drawModel (Model.meshModel i) Shader.shaderDepthWrite)
        else [GLCmd.clear false true]) ∧
    (runGL g (renderFrame app)).drawFramebuffer = Framebuffer.zero := by
  rw [meshModels_drawn]
  refine ⟨?_, ?_, ?_, ?_⟩
  · cases he : app.enableShadows <;> simp [shadowPass, he]
  · intro he
    simp [shadowPass, he, GLCmd.isDraw]
  · by_cases hm : app.gBufferMode = 0 <;> cases he : app.enableShadows <;>
      cases hd : app.drawPointLights <;> cases hs : app.showDepthMap <;>
      by_cases hq : app.quadVAO = 0 <;> cases hdirty : app.colorSizeBufferDirty <;>
      simp [targetEvents, renderFrame, shadowPass, geometryPass, lightingPass, pointLightPass,
        lightVolumeOverlay, depthMapOverlay, renderQuad, meshDraws_eq, execute, applyCmd, he,
        hm, hd, hs, hdirty, hq, GLCmd.isDraw, GLCmd.isDepthClear, GLState.afterDraw,
        GLState.setCapability, GLState.gBufferBindOutput, GLState.frameBufferUnbind,
        GLState.gBufferBindRead, GLState.bufferData, quadVAOName]
  · by_cases hm : app.gBufferMode = 0 <;> cases he : app.enableShadows <;>
      cases hd : app.drawPointLights <;> cases hs : app.showDepthMap <;>
      by_cases hq : app.quadVAO = 0 <;> cases hdirty : app.colorSizeBufferDirty <;>
      simp [renderFrame, shadowPass, geometryPass, lightingPass, pointLightPass,
        lightVolumeOverlay, depthMapOverlay, renderQuad, meshDraws_eq, runGL, applyCmd, he,
        hm, hd, hs, hdirty, hq, GLState.afterDraw,
        GLState.setCapability, GLState.gBufferBindOutput, GLState.frameBufferUnbind,
        GLState.gBufferBindRead, GLState.bufferData, quadVAOName]

/-! ## The instanced draws -/

theorem execute_append (g : GLState) (a b : List GLCmd) :
    execute g (a ++ b) = execute g a ++ execute (runGL g a) b := by
  induction a generalizing g with
  | nil => rfl
  | cons c cs ih =>
    show (g, c) :: execute (applyCmd g c) (cs ++ b)
      = (g, c) :: (execute (applyCmd g c) cs ++ execute (runGL (applyCmd g c) cs) b)
    rw [ih]

theorem instancedDrawStates_append (g : GLState) (a b : List GLCmd) :
    instancedDrawStates g (a ++ b)
      = instancedDrawStates g a ++ instancedDrawStates (runGL g a) b := by
  simp [instancedDrawStates, execute_append]

theorem overlayDrawStates_append (g : GLState) (a b : List GLCmd) :
    overlayDrawStates g (a ++ b)
      = overlayDrawStates g a ++ overlayDrawStates (runGL g a) b := by
  simp [overlayDrawStates, instancedDrawStates_append]

theorem beforePointLights_draws (app : App) (g : GLState) :
    instancedDrawStates g (beforePointLights app) = [] := by
  by_cases hm : app.gBufferMode = 0 <;> cases hs : app.enableShadows <;>
    by_cases hq : app.quadVAO = 0 <;>
    simp [instancedDrawStates, beforePointLights, shadowPass, geometryPass, lightingPass,
      renderQuad, meshDraws_eq, execute, hm, hs, hq, GLCmd.isInstancedDraw]

theorem depthMapOverlay_draws (app : App) (g : GLState) :
    instancedDrawStates g (depthMapOverlay app) = [] := by
  cases hs : app.showDepthMap <;>
    simp [instancedDrawStates, depthMapOverlay, renderQuad, quadVAOName, execute, hs,
      GLCmd.isInstancedDraw]

/-- The instanced draw of the pass of the point lights: one draw, with the
program of the pass, and with the colour/size buffer just uploaded if the
dirty flag is set and as it was if not. -/
theorem pointLightPass_draws (app : App) (g : GLState) (hm : app.gBufferMode = 0) :
    ∃ s, instancedDrawStates g (pointLightPass app) = [s] ∧
      s.program = some Shader.shaderPointLightingPass ∧
      s.blend = true ∧
      s.colorSizeBuffer
        = if app.colorSizeBufferDirty = true then
            BufferData.vec4s (app.lights.modelColorSizes.take
              (LIGHT_GRID_WIDTH * LIGHT_GRID_WIDTH * LIGHT_GRID_HEIGHT))
          else g.colorSizeBuffer := by
  cases hd : app.colorSizeBufferDirty <;>
    simp [instancedDrawStates, pointLightPass, execute, applyCmd, hm, hd,
      GLCmd.isInstancedDraw, GLState.setCapability, GLState.bufferData]

/-- The instanced draw of the overlay of the light volumes: one draw when the
overlay runs, with the program of the overlay, the depth test enabled, the
default framebuffer as the draw target, its depth buffer holding the copy of
the depth buffer of the G-buffer, and the colour/size buffer as it was. -/
theorem lightVolumeOverlay_draws (app : App) (g : GLState)
    (hd : app.drawPointLights = true) (hm : app.gBufferMode = 0) :
    ∃ s, instancedDrawStates g (lightVolumeOverlay app) = [s] ∧
      s.program = some Shader.shaderLightSphere ∧
      s.depthTest = true ∧
      s.drawFramebuffer = Framebuffer.zero ∧
      s.defaultDepth = DepthContent.gBufferCopy ∧
      s.colorSizeBuffer = g.colorSizeBuffer := by
  cases hw : app.drawPointLightsWireframe <;>
    simp [instancedDrawStates, lightVolumeOverlay, execute, applyCmd, hm, hd, hw,
      GLCmd.isInstancedDraw, GLState.setCapability, GLState.gBufferBindRead,
      GLState.frameBufferUnbind, GLState.afterDraw]

theorem lightVolumeOverlay_skipped (app : App)
    (h : ¬ (app.drawPointLights = true ∧ app.gBufferMode = 0)) :
    lightVolumeOverlay app = [] := by
  simp only [lightVolumeOverlay, if_neg h]

theorem pointLightPass_overlayDraws (app : App) (g : GLState) :
    overlayDrawStates g (pointLightPass app) = [] := by
  by_cases hm : app.gBufferMode = 0
  · obtain ⟨s, hs, hp, _⟩ := pointLightPass_draws app g hm
    simp [overlayDrawStates, hs, hp]
  · rw [(pointLightPass_skipped app hm).1]
    rfl

/-- The instanced draws of the overlay in a frame are those of the block of
the overlay, issued in the state the lighting passes leave. -/
theorem renderFrame_overlayDraws (app : App) (g : GLState) :
    overlayDrawStates g (renderFrame app)
      = overlayDrawStates (runGL g (beforePointLights app ++ pointLightPass app))
          (lightVolumeOverlay app) := by
  rw [renderFrame_eq, overlayDrawStates_append, overlayDrawStates_append,
    overlayDrawStates_append, pointLightPass_overlayDraws]
  simp [overlayDrawStates, beforePointLights_draws, depthMapOverlay_draws]

/-- C19: (1) a frame has one instanced draw of the overlay of the light
volumes when the overlay is on and the view mode is 0, and none otherwise.
(2) Each such draw is issued with the depth test enabled, the default
framebuffer as the draw target and the depth buffer of the default framebuffer
holding the copy of the depth buffer of the G-buffer; (3) the lighting passes
before it leave the depth test disabled and that depth buffer written by the
lighting quad, so the depth test is enabled again and the blit is made after
them.  (4) Directly after the overlay the polygon mode is `GL_FILL`, and (5) in
every frame of every run the polygon mode is `GL_FILL` at the start of the
frame, after the block of the overlay and at the end of the passes. -/
theorem overlay_depth_and_polygon_mode :
    (∀ (app : App) (g : GLState),
      (overlayDrawStates g (renderFrame app)).length
        = if app.drawPointLights = true ∧ app.gBufferMode = 0 then 1 else 0) ∧
    (∀ (app : App) (g : GLState), ∀ s ∈ overlayDrawStates g (renderFrame app),
      s.depthTest = true ∧ s.drawFramebuffer = Framebuffer.zero ∧
      s.defaultDepth = DepthContent.gBufferCopy) ∧
    (∀ (app : App) (g : GLState), app.gBufferMode = 0 →
      (runGL g (beforePointLights app ++ pointLightPass app)).depthTest = false ∧
      (runGL g (beforePointLights app ++ pointLightPass app)).defaultDepth
        = DepthContent.other) ∧
    (∀ (app : App) (g : GLState), app.drawPointLights = true → app.gBufferMode = 0 →
      (runGL g (beforePointLights app ++ pointLightPass app
        ++ lightVolumeOverlay app)).polygonMode = PolygonMode.fill) ∧
    (∀ (env : Env) (uis : List ControlInput),
      ∃ app, runFrames (setup env) uis = some app ∧
        app.gpu.polygonMode = PolygonMode.fill ∧
        (runGL app.gpu (beforePointLights app ++ pointLightPass app
          ++ lightVolumeOverlay app)).polygonMode = PolygonMode.fill ∧
        (runGL app.gpu (renderFrame app)).polygonMode = PolygonMode.fill) := by
  refine ⟨?_, ?_, ?_, ?_, ?_⟩
  · intro app g
    rw [renderFrame_overlayDraws]
    by_cases h : app.drawPointLights = true ∧ app.gBufferMode = 0
    · obtain ⟨s, hs, hp, _⟩ := lightVolumeOverlay_draws app
        (runGL g (beforePointLights app ++ pointLightPass app)) h.1 h.2
      simp [overlayDrawStates, hs, hp, h]
    · rw [lightVolumeOverlay_skipped app h, if_neg h]
      rfl
  · intro app g s hs
    rw [renderFrame_overlayDraws] at hs
    by_cases h : app.drawPointLights = true ∧ app.gBufferMode = 0
    · obtain ⟨t, ht, hp, h1, h2, h3, _⟩ := lightVolumeOverlay_draws app
        (runGL g (beforePointLights app ++ pointLightPass app)) h.1 h.2
      simp only [overlayDrawStates, ht, List.filter_cons, hp, decide_True, if_true,
        List.filter_nil, List.mem_singleton] at hs
      subst hs
      exact ⟨h1, h2, h3⟩
    · rw [lightVolumeOverlay_skipped app h] at hs
      cases hs
  · intro app g hm
    obtain ⟨_, _, _, _, b5, b6⟩ := beforePointLights_state app g
    obtain ⟨_, _, p3, p4, _, _⟩ := pointLightPass_state app _ hm b6
    rw [runGL_append, p3, p4, b5]
    exact ⟨rfl, rfl⟩
  · intro app g hd hm
    rw [runGL_append, (overlays_state app _).2.2.1, if_pos ⟨hd, hm⟩]
  · intro env uis
    obtain ⟨app, ha, ⟨_, hp⟩, _⟩ := runFrames_gpu env uis
    obtain ⟨_, b2, _, _, _, b6⟩ := beforePointLights_state app app.gpu
    refine ⟨app, ha, hp, ?_, ?_⟩
    · rw [runGL_append, (overlays_state app _).2.2.1, runGL_append]
      split
      · rfl
      · by_cases hm : app.gBufferMode = 0
        · rw [(pointLightPass_state app _ hm b6).2.1, b2, hp]
        · rw [(pointLightPass_skipped app hm).1, runGL_nil, b2, hp]
    · rw [(renderFrame_state app app.gpu).2.1, hp]
      split <;> rfl

/-- Witness of C19: the first frame of the program with the overlay of the
light volumes switched on: one instanced draw of the overlay, and the polygon
mode is `GL_FILL` after the overlay. -/
theorem overlay_depth_and_polygon_mode_witness :
    ({ setup zeroEnv with drawPointLights := true } : App).drawPointLights = true ∧
    ({ setup zeroEnv with drawPointLights := true } : App).gBufferMode = 0 ∧
    (overlayDrawStates GLState.initial
      (renderFrame { setup zeroEnv with drawPointLights := true })).length = 1 ∧
    (runGL GLState.initial
      (beforePointLights { setup zeroEnv with drawPointLights := true }
        ++ pointLightPass { setup zeroEnv with drawPointLights := true }
        ++ lightVolumeOverlay { setup zeroEnv with drawPointLights := true })).polygonMode
      = PolygonMode.fill :=
  ⟨rfl, rfl,
    (overlay_depth_and_polygon_mode.1 { setup zeroEnv with drawPointLights := true }
      GLState.initial).trans (if_pos ⟨rfl, rfl⟩),
    overlay_depth_and_polygon_mode.2.2.2.1 { setup zeroEnv with drawPointLights := true }
      GLState.initial rfl rfl⟩

/-! ## The colour/size buffer and the host vector -/

/-- A frame in which the user touches no slider and leaves the combo on `m`. -/
theorem frame_panel_none (app : App) (m : Int) :
    ∃ a, frame app (panel m none) = some a ∧
      a.gBufferMode = m ∧ a.drawPointLights = false ∧ a.colorSizeBufferDirty = false ∧
      a.lights.modelMatrices = app.lights.modelMatrices ∧
      a.lights.modelColorSizes = app.lights.modelColorSizes ∧
      a.pointLightSeparation = app.pointLightSeparation :=
  ⟨_, rfl, rfl, rfl, rfl, rfl, rfl, rfl⟩

/-- A frame in which the user moves the slider "Radius" to `v`, with a
separation that is not negative. -/
theorem frame_panel_radius (app : App) (m : Int) (v : ℚ) (hr : app.ready)
    (hsep : 0 ≤ app.pointLightSeparation) :
    ∃ a, frame app (panel m (some v)) = some a ∧
      a.gBufferMode = m ∧ a.drawPointLights = false ∧ a.colorSizeBufferDirty = true ∧
      a.lights.modelColorSizes.length = app.lights.modelColorSizes.length ∧
      a.pointLightSeparation = app.pointLightSeparation ∧
      ∀ i (hi : i < app.lights.modelColorSizes.length), i < totalLights →
        a.lights.modelColorSizes[i]?
          = some (Vec4.setW v (app.lights.modelColorSizes.get ⟨i, hi⟩)) := by
  obtain ⟨t, ⟨_, h2, _, _⟩, ht⟩ := updatePointLights_updated
    { app.lights with gl := app.lights.gl ++ renderFrame app } app.pointLightSeparation
    app.pointLightVerticalOffset v hsep hr.1 hr.2
  have hf : pointLightControls
      { app with
        lights := { app.lights with gl := app.lights.gl ++ renderFrame app }
        quadVAO := if app.quadVAO = 0 then quadVAOName else app.quadVAO
        enableShadows := true } (panel m (some v))
      = some
        { app with
          lights := uploadMatrices t
          quadVAO := if app.quadVAO = 0 then quadVAOName else app.quadVAO
          enableShadows := true
          pointLightRadius := v
          colorSizeBufferDirty := true } := by
    simp only [pointLightControls, panel, sliderRadius, sliderSeparation,
      sliderVerticalOffset, ht, Option.map_some', Option.some_bind]
  have hframe : frame app (panel m (some v)) = some
      { debugControls
          { app with
            lights := uploadMatrices t
            quadVAO := if app.quadVAO = 0 then quadVAOName else app.quadVAO
            enableShadows := true
            pointLightRadius := v
            colorSizeBufferDirty := true } (panel m (some v)) with
        lights := { (debugControls
          { app with
            lights := uploadMatrices t
            quadVAO := if app.quadVAO = 0 then quadVAOName else app.quadVAO
            enableShadows := true
            pointLightRadius := v
            colorSizeBufferDirty := true } (panel m (some v))).lights with
          gl := (debugControls
            { app with
              lights := uploadMatrices t
              quadVAO := if app.quadVAO = 0 then quadVAOName else app.quadVAO
              enableShadows := true
              pointLightRadius := v
              colorSizeBufferDirty := true } (panel m (some v))).lights.gl
            ++ [GLCmd.imguiRenderDrawData, GLCmd.swapBuffers] } } := by
    have hl : lightingControls
        { app with
          lights := { app.lights with gl := app.lights.gl ++ renderFrame app }
          quadVAO := if app.quadVAO = 0 then quadVAOName else app.quadVAO }
        (panel m (some v))
        = pointLightControls
          { app with
            lights := { app.lights with gl := app.lights.gl ++ renderFrame app }
            quadVAO := if app.quadVAO = 0 then quadVAOName else app.quadVAO
            enableShadows := true } (panel m (some v)) := rfl
    simp only [frame, controlSurface, hl, hf, Option.map_some']
  refine ⟨_, hframe, rfl, rfl, rfl, h2.1, rfl, ?_⟩
  intro i hi hlt
  exact h2.getElem? i hlt hi

/-- A completed frame that does not upload the colours leaves the colour/size
buffer as it was. -/
theorem frame_colorSizeBuffer (app a : App) (ui : ControlInput) (h : frame app ui = some a)
    (hno : ¬ (app.gBufferMode = 0 ∧ app.colorSizeBufferDirty = true)) :
    a.gpu.colorSizeBuffer = app.gpu.colorSizeBuffer := by
  rw [sameButMatrices_colorSizeBuffer (frame_gpu app a ui h),
    (renderFrame_state app app.gpu).2.2, if_neg hno]

/-- The instanced draw of a frame with the view mode 0 and the overlay of the
light volumes off: the one of the pass of the point lights. -/
theorem renderFrame_draws (app : App) (g : GLState) (hm : app.gBufferMode = 0)
    (hd : app.drawPointLights = false) :
    ∃ s, instancedDrawStates g (renderFrame app) = [s] ∧
      s.colorSizeBuffer
        = if app.colorSizeBufferDirty = true then
            BufferData.vec4s (app.lights.modelColorSizes.take
              (LIGHT_GRID_WIDTH * LIGHT_GRID_WIDTH * LIGHT_GRID_HEIGHT))
          else g.colorSizeBuffer := by
  obtain ⟨s, hs, _, _, hc⟩ := pointLightPass_draws app (runGL g (beforePointLights app)) hm
  have hov : lightVolumeOverlay app = [] :=
    lightVolumeOverlay_skipped app (by simp [hd])
  refine ⟨s, ?_, ?_⟩
  · rw [renderFrame_eq, instancedDrawStates_append, instancedDrawStates_append,
      instancedDrawStates_append, beforePointLights_draws, hs, hov, depthMapOverlay_draws]
    rfl
  · rw [hc, (beforePointLights_state app g).2.2.1]

/-- C12, the code at the failing input.  The program starts; in the first
frame every header is open and the user moves the slider "Radius" to 2; in the
second and the third frame every header of the panel is closed.  The slider
did not change in the second frame nor in the third, yet the dirty flag is
true after the control-surface step of each of them, the view mode is still 0,
and the pass of the point lights of the third frame and of the frame after it
uploads the whole vector of colours and sizes again: the flag is cleared only
in the else-branch of the slider, which a closed header skips. -/
theorem dirty_flag_stays_set :
    ∃ a1 a2 a3, frame (setup zeroEnv) (panel 0 (some 2)) = some a1 ∧
      frame a1 collapsed = some a2 ∧
      frame a2 collapsed = some a3 ∧
      collapsed.radiusChanged = false ∧
      a1.colorSizeBufferDirty = true ∧
      a2.colorSizeBufferDirty = true ∧
      a3.colorSizeBufferDirty = true ∧
      a2.gBufferMode = 0 ∧ a3.gBufferMode = 0 ∧
      GLCmd.bufferDataVec4 (a2.lights.modelColorSizes.take
          (LIGHT_GRID_WIDTH * LIGHT_GRID_WIDTH * LIGHT_GRID_HEIGHT)) ∈ renderFrame a2 ∧
      GLCmd.bufferDataVec4 (a3.lights.modelColorSizes.take
          (LIGHT_GRID_WIDTH * LIGHT_GRID_WIDTH * LIGHT_GRID_HEIGHT)) ∈ renderFrame a3 := by
  obtain ⟨a1, h1, m1, _, d1, _⟩ :=
    frame_panel_radius (setup zeroEnv) 0 2 (setup_ready zeroEnv) (by norm_num [setup])
  obtain ⟨a2, h2, m2, d2, _⟩ := frame_collapsed a1
  obtain ⟨a3, h3, m3, d3, _⟩ := frame_collapsed a2
  have e2 : a2.colorSizeBufferDirty = true := by rw [d2, d1]
  have e3 : a3.colorSizeBufferDirty = true := by rw [d3, e2]
  have g2 : a2.gBufferMode = 0 := by rw [m2, m1]
  have g3 : a3.gBufferMode = 0 := by rw [m3, g2]
  have up : ∀ a : App, a.gBufferMode = 0 → a.colorSizeBufferDirty = true →
      GLCmd.bufferDataVec4 (a.lights.modelColorSizes.take
        (LIGHT_GRID_WIDTH * LIGHT_GRID_WIDTH * LIGHT_GRID_HEIGHT)) ∈ renderFrame a := by
    intro a hm hd
    rw [renderFrame_eq]
    apply List.mem_append_left
    apply List.mem_append_right
    simp [pointLightPass, hm, hd]
  exact ⟨a1, a2, a3, h1, h2, h3, rfl, d1, e2, e3, g2, g3, up a2 g2 e2, up a3 g3 e3⟩

/-- C13, the code at the failing input.  The program starts; in the first
frame the user selects the view mode 1 of the G-buffer, in the second frame
moves the slider "Radius" to 2, in the third frame leaves the slider and
selects the view mode 0 again.  In the fourth frame the view mode is 0, the
host vector of colours and sizes holds the radius 2, and the instanced draw of
the point lights is issued while the colour/size buffer still holds the
vector uploaded at start-up, with the radius 0.663: the update of the second
frame was never uploaded. -/
theorem stale_colour_buffer :
    ∃ (a3 : App) (s : GLState),
      runFrames (setup zeroEnv) [panel 1 none, panel 1 (some 2), panel 0 none] = some a3 ∧
      a3.gBufferMode = 0 ∧
      instancedDrawStates a3.gpu (renderFrame a3) = [s] ∧
      (∃ c : Vec4, a3.lights.modelColorSizes[0]? = some c ∧ c.w = 2) ∧
      (∃ stale : List Vec4, s.colorSizeBuffer = BufferData.vec4s stale ∧
        ∃ c : Vec4, stale[0]? = some c ∧ c.w = 663 / 1000) ∧
      s.colorSizeBuffer ≠ BufferData.vec4s (a3.lights.modelColorSizes.take
        (LIGHT_GRID_WIDTH * LIGHT_GRID_WIDTH * LIGHT_GRID_HEIGHT)) := by
  have r0 := setup_ready zeroEnv
  obtain ⟨a1, h1, m1, _, dirty1, ms1, cs1, sep1⟩ := frame_panel_none (setup zeroEnv) 1
  have r1 : a1.ready := ⟨by rw [ms1]; exact r0.1, by rw [cs1]; exact r0.2⟩
  have hsep : 0 ≤ a1.pointLightSeparation := by
    rw [sep1]
    show (0 : ℚ) ≤ 670 / 1000
    norm_num
  obtain ⟨a2, h2, m2, _, _, len2, _, cs2⟩ := frame_panel_radius a1 1 2 r1 hsep
  obtain ⟨a3, h3, m3, d3, dirty3, _, cs3, _⟩ := frame_panel_none a2 0
  have hrun : runFrames (setup zeroEnv) [panel 1 none, panel 1 (some 2), panel 0 none]
      = some a3 := by
    simp only [runFrames, List.foldlM_cons, List.foldlM_nil, h1, h2, h3, Option.some_bind,
      bind, pure]
  -- the colour/size buffer at the start of the fourth frame
  have g1 : a1.gpu.colorSizeBuffer = (setup zeroEnv).gpu.colorSizeBuffer :=
    frame_colorSizeBuffer _ _ _ h1 (by simp [setup])
  have g2 : a2.gpu.colorSizeBuffer = a1.gpu.colorSizeBuffer :=
    frame_colorSizeBuffer _ _ _ h2 (by simp [m1])
  have g3 : a3.gpu.colorSizeBuffer = a2.gpu.colorSizeBuffer :=
    frame_colorSizeBuffer _ _ _ h3 (by simp [m2])
  have g0 := (setup_gpu zeroEnv).2.2
  obtain ⟨s, hs, hsc⟩ := renderFrame_draws a3 a3.gpu m3 d3
  rw [dirty3] at hsc
  simp only [Bool.false_eq_true, if_false] at hsc
  rw [g3, g2, g1, g0] at hsc
  -- the first record of the vector uploaded at start-up
  have hpos : 0 < totalLights := by decide
  have e0 := (configurePointLights_getElem? zeroEnv INITIAL_POINT_LIGHT_RADIUS (670 / 1000)
    (636 / 1000) 0 hpos).2
  have hstale : ((setup zeroEnv).lights.modelColorSizes.take totalLights)[0]?
      = some (cellColorSize zeroEnv INITIAL_POINT_LIGHT_RADIUS (5 * 0)) := by
    rw [List.getElem?_take_of_lt hpos]
    exact e0
  -- the first record of the host vector
  have hlen1 : 0 < a1.lights.modelColorSizes.length := lt_of_lt_of_le hpos r1.2
  have hhost : a3.lights.modelColorSizes[0]?
      = some (Vec4.setW 2 (a1.lights.modelColorSizes.get ⟨0, hlen1⟩)) := by
    rw [cs3]
    exact cs2 0 hlen1 hpos
  refine ⟨a3, s, hrun, m3, hs, ⟨_, hhost, rfl⟩, ⟨_, hsc, _, hstale, ?_⟩, ?_⟩
  · show INITIAL_POINT_LIGHT_RADIUS = 663 / 1000
    rfl
  · rw [hsc]
    intro heq
    have hl : (setup zeroEnv).lights.modelColorSizes.take totalLights
        = a3.lights.modelColorSizes.take totalLights :=
      BufferData.vec4s.inj heq
    have h0 := congrArg (fun l : List Vec4 => (l[0]?).map (fun c => c.w)) hl
    simp only at h0
    rw [hstale] at h0
    have hh : (a3.lights.modelColorSizes.take totalLights)[0]?
        = some (Vec4.setW 2 (a1.lights.modelColorSizes.get ⟨0, hlen1⟩)) := by
      rw [List.getElem?_take_of_lt hpos]
      exact hhost
    rw [hh] at h0
    simp only [Option.map_some', Option.some.injEq, cellColorSize, Vec4.setW,
      INITIAL_POINT_LIGHT_RADIUS] at h0
    norm_num at h0

/-- Witness of C16: the first frame of the program with the shadows switched
off: the only event on the shadow depth target is the clear of its depth
buffer. -/
theorem shadow_target_events_witness :
    ({ setup zeroEnv with enableShadows := false } : App).enableShadows = false ∧
    (∀ c ∈ shadowPass { setup zeroEnv with enableShadows := false }, c.isDraw = false) ∧
    targetEvents Framebuffer.depthMapFBO GLState.initial
        (renderFrame { setup zeroEnv with enableShadows := false })
      = [GLCmd.clear false true] :=
  ⟨rfl,
    (shadow_target_events { setup zeroEnv with enableShadows := false }
      GLState.initial).2.1 rfl,
    (shadow_target_events { setup zeroEnv with enableShadows := false }
      GLState.initial).2.2.1⟩

/-! ## The indexed writes are in bounds -/

/-- The write through `operator[]` fails in the embedding exactly when the
index is out of range. -/
theorem modifyAt_eq_none_iff {α : Type} (v : List α) (i : Nat) (f : α → α) :
    modifyAt v i f = none ↔ v.length ≤ i := by
  unfold modifyAt
  by_cases h : i < v.length
  · rw [dif_pos h]
    constructor
    · intro hn; cases hn
    · intro hle; omega
  · rw [dif_neg h]
    constructor
    · intro _; omega
    · intro _; rfl

theorem modifyAt_of_lt {α : Type} (v : List α) (i : Nat) (f : α → α) (h : i < v.length) :
    ∃ w, modifyAt v i f = some w := by
  unfold modifyAt
  rw [dif_pos h]
  exact ⟨_, rfl⟩

/-- With both indexed writes in bounds the body of the innermost loop of
`updatePointLights` completes and keeps the lengths of the two vectors. -/
theorem updateCell_total (separation yOffset radius : ℚ) (x z y : Nat) (s : Lights)
    (hm : curLight x z y < s.modelMatrices.length)
    (hc : curLight x z y < s.modelColorSizes.length) :
    ∃ u, updateCell separation yOffset radius x z y s = some u ∧
      u.modelMatrices.length = s.modelMatrices.length ∧
      u.modelColorSizes.length = s.modelColorSizes.length := by
  obtain ⟨ms, hms⟩ := modifyAt_of_lt s.modelMatrices (curLight x z y)
    (Mat4.setTranslation
      ⟨gridCoord LIGHT_GRID_WIDTH x (2 * INITIAL_POINT_LIGHT_RADIUS) separation,
       gridCoord LIGHT_GRID_HEIGHT y (2 * INITIAL_POINT_LIGHT_RADIUS) separation + yOffset,
       gridCoord LIGHT_GRID_WIDTH z (2 * INITIAL_POINT_LIGHT_RADIUS) separation, 1⟩) hm
  obtain ⟨cs, hcs⟩ := modifyAt_of_lt s.modelColorSizes (curLight x z y) (Vec4.setW radius) hc
  have hu : updateCell separation yOffset radius x z y s
      = some { s with modelMatrices := ms, modelColorSizes := cs } := by
    simp only [updateCell, hms, hcs, Option.bind]
  obtain ⟨h1, h2, _, _⟩ := updateCell_sameShape separation yOffset radius x z y s s _
    ⟨rfl, rfl, rfl, rfl⟩ hu
  exact ⟨_, hu, h1, h2⟩

/-- C21: for every cell visited by the loops of `updatePointLights`
(`x < W`, `z < W`, `y < H`) the index `curLight = x * W * H + z * H + y` is
strictly below `W * W * H`.  So, when both vectors have at least `W * W * H`
elements, the index of every cell is within both vectors, the two indexed
writes of the cell complete and keep both lengths (so the precondition holds
again for the next cell), and the whole call completes: the result `none` of
the embedding, which stands for a write out of range and for nothing else, is
never reached. -/
theorem updatePointLights_in_bounds :
    (∀ x z y, x < LIGHT_GRID_WIDTH → z < LIGHT_GRID_WIDTH → y < LIGHT_GRID_HEIGHT →
      curLight x z y = x * LIGHT_GRID_WIDTH * LIGHT_GRID_HEIGHT + z * LIGHT_GRID_HEIGHT + y ∧
      curLight x z y < LIGHT_GRID_WIDTH * LIGHT_GRID_WIDTH * LIGHT_GRID_HEIGHT) ∧
    (∀ (s : Lights) (separation yOffset radius : ℚ) (x z y : Nat),
      LIGHT_GRID_WIDTH * LIGHT_GRID_WIDTH * LIGHT_GRID_HEIGHT ≤ s.modelMatrices.length →
      LIGHT_GRID_WIDTH * LIGHT_GRID_WIDTH * LIGHT_GRID_HEIGHT ≤ s.modelColorSizes.length →
      x < LIGHT_GRID_WIDTH → z < LIGHT_GRID_WIDTH → y < LIGHT_GRID_HEIGHT →
      curLight x z y < s.modelMatrices.length ∧
      curLight x z y < s.modelColorSizes.length ∧
      ∃ u, updateCell separation yOffset radius x z y s = some u ∧
        u.modelMatrices.length = s.modelMatrices.length ∧
        u.modelColorSizes.length = s.modelColorSizes.length) ∧
    (∀ (s : Lights) (separation yOffset radius : ℚ),
      LIGHT_GRID_WIDTH * LIGHT_GRID_WIDTH * LIGHT_GRID_HEIGHT ≤ s.modelMatrices.length →
      LIGHT_GRID_WIDTH * LIGHT_GRID_WIDTH * LIGHT_GRID_HEIGHT ≤ s.modelColorSizes.length →
      updatePointLights s separation yOffset radius ≠ none ∧
      ∃ t, updatePointLights s separation yOffset radius = some t) ∧
    (∀ (v : List Mat4) (i : Nat) (f : Mat4 → Mat4), modifyAt v i f = none ↔ v.length ≤ i) ∧
    (∀ (v : List Vec4) (i : Nat) (f : Vec4 → Vec4), modifyAt v i f = none ↔ v.length ≤ i) := by
  refine ⟨?_, ?_, ?_, modifyAt_eq_none_iff, modifyAt_eq_none_iff⟩
  · intro x z y hx hz hy
    exact ⟨rfl, curLight_lt x z y hx hz hy⟩
  · intro s separation yOffset radius x z y hm hc hx hz hy
    have hlt : curLight x z y < totalLights := curLight_lt x z y hx hz hy
    have h1 : curLight x z y < s.modelMatrices.length := lt_of_lt_of_le hlt hm
    have h2 : curLight x z y < s.modelColorSizes.length := lt_of_lt_of_le hlt hc
    exact ⟨h1, h2, updateCell_total separation yOffset radius x z y s h1 h2⟩
  · intro s separation yOffset radius hm hc
    obtain ⟨t, ht, _⟩ := updatePointLights_frame s separation yOffset radius hm hc
    refine ⟨?_, t, ht⟩
    rw [ht]
    exact Option.some_ne_none t

/-- Witness of C21: the last cell `(9, 9, 2)` of the grid, of index 299, and
the update of `sampleLights`, whose vectors have 300 elements. -/
theorem updatePointLights_in_bounds_witness :
    9 < LIGHT_GRID_WIDTH ∧ 2 < LIGHT_GRID_HEIGHT ∧
    LIGHT_GRID_WIDTH * LIGHT_GRID_WIDTH * LIGHT_GRID_HEIGHT
      ≤ sampleLights.modelMatrices.length ∧
    LIGHT_GRID_WIDTH * LIGHT_GRID_WIDTH * LIGHT_GRID_HEIGHT
      ≤ sampleLights.modelColorSizes.length ∧
    curLight 9 9 2 < LIGHT_GRID_WIDTH * LIGHT_GRID_WIDTH * LIGHT_GRID_HEIGHT ∧
    (∃ u, updateCell (67 / 100) (636 / 1000) 2 9 9 2 sampleLights = some u ∧
      u.modelMatrices.length = sampleLights.modelMatrices.length ∧
      u.modelColorSizes.length = sampleLights.modelColorSizes.length) ∧
    updatePointLights sampleLights (67 / 100) (636 / 1000) 2 ≠ none := by
  have hm := le_of_eq sampleLights_modelMatrices_length.symm
  have hc := le_of_eq sampleLights_modelColorSizes_length.symm
  exact ⟨by decide, by decide, hm, hc,
    (updatePointLights_in_bounds.1 9 9 2 (by decide) (by decide) (by decide)).2,
    (updatePointLights_in_bounds.2.1 sampleLights (67 / 100) (636 / 1000) 2 9 9 2 hm hc
      (by decide) (by decide) (by decide)).2.2,
    (updatePointLights_in_bounds.2.2.1 sampleLights (67 / 100) (636 / 1000) 2 hm hc).1⟩

/-- Without the precondition the write can be out of range: on two empty
vectors the first indexed write fails. -/
theorem updateCell_empty (separation yOffset radius : ℚ) :
    updateCell separation yOffset radius 0 0 0 ⟨[], [], 0, []⟩ = none := by
  simp [updateCell, modifyAt, curLight, curLightAt]

end DeferredShading
